import Mathlib

/-!
# The D3D11VA renderer: enhancement selection, geometry and adapter choice

A shallow embedding of parts of
app/streaming/video/ffmpeg-renderers/d3d11va.cpp and d3d11va_shaders.cpp:
D3D11VARenderer::enhanceAutoSelection, the enhancer classification, the packing
loop of bindColorConversion, the size computations of initialize, the adapter
scan of getAdapterIndexByEnhancementCapabilities and the indexing of renderVideo,
followed by the properties established about them.

Conventions of the embedding.
* C++ int and LONG members are Lean integers; SIZE_T and UINT members are naturals.
  The bitwise operators & and ~ on int are Int.land and Int.lnot, which act on the
  two's-complement representation.
* A member function that writes members becomes a function from the renderer
  state to the renderer state; a loop becomes a recursion or a fold.
* The outcome of a call into the driver or another library is an input of the
  model.
* A float is an IEEE 754 binary32 value (Binary32): every operation gives the
  value nearest to the exact result, ties to even, with infinities and NaN.
* Calls that only log, and the statistics strings handed to
  VideoEnhancement::setRatio / setAlgo, are left out: they never feed back
  into the members modelled here.
-/

namespace MoonlightQt

/-! ## d3d11va_shaders.h / d3d11va_shaders.cpp -/

namespace D3D11VAShaders

/-- Enhancer kinds of the shader stage (enum class Enhancer in d3d11va_shaders.h). -/
inductive Enhancer where
  | NONE
  | FSR1
  | NIS
  | NIS_HALF
  | NIS_SHARPEN
  | NIS_SHARPEN_HALF
  | RCAS
  | CAS
  | UPSCALER
  | COPY
  | TESTCS
  | TESTPS
  deriving DecidableEq, Repr

/-- Shader kinds that upscale (D3D11VAShaders::isUpscaler). -/
def isUpscaler (enhancer : Enhancer) : Bool :=
  match enhancer with
  | .FSR1 => true
  | .NIS => true
  | .NIS_HALF => true
  | .UPSCALER => true
  | _ => false

/-- Shader kinds that sharpen (D3D11VAShaders::isSharpener). -/
def isSharpener (enhancer : Enhancer) : Bool :=
  match enhancer with
  | .FSR1 => true
  | .NIS => true
  | .NIS_HALF => true
  | .NIS_SHARPEN => true
  | .NIS_SHARPEN_HALF => true
  | .RCAS => true
  | .CAS => true
  | .UPSCALER => true
  | _ => false

/-- Whether a shader stage is needed at all (D3D11VAShaders::isUsingShader). -/
def isUsingShader (enhancer : Enhancer) : Bool :=
  enhancer != Enhancer.NONE

end D3D11VAShaders

open D3D11VAShaders

/-! ## Collaborator types -/

/-- Modelled from the spec: the enumeration StreamingPreferences::SuperResolutionMode
is declared in settings/streamingpreferences.h, which is not among the sources.
The spec describes it as "auto, or one of N named forced algorithms"; the
constructors are the fourteen labels the switch of enhanceAutoSelection names,
SRM_00 being "auto". -/
inductive SuperResolutionMode where
  | SRM_00
  | SRM_01
  | SRM_02
  | SRM_03
  | SRM_04
  | SRM_05
  | SRM_06
  | SRM_07
  | SRM_08
  | SRM_09
  | SRM_10
  | SRM_11
  | SRM_12
  | SRM_13
  deriving DecidableEq, Repr

/-- The part of StreamingPreferences that the renderer reads. -/
structure StreamingPreferences where
  superResolutionMode : SuperResolutionMode
  deriving DecidableEq, Repr

/-- The part of the VideoEnhancement singleton (videoenhancement.h) read by the
selection: the enabled flag. -/
structure VideoEnhancement where
  m_Enabled : Bool
  deriving DecidableEq, Repr

namespace VideoEnhancement

/-- Vendor identifier of AMD (videoenhancement.h). -/
def VENDOR_ID_AMD : Nat := 0x1002

/-- Vendor identifier of Intel (videoenhancement.h). -/
def VENDOR_ID_INTEL : Nat := 0x8086

/-- Vendor identifier of NVIDIA (videoenhancement.h). -/
def VENDOR_ID_NVIDIA : Nat := 0x10DE

/-- Modelled from the spec: the body of VideoEnhancement::isVendorAMD(int) is in
videoenhancement.cpp, which is not among the sources; the header declares it next
to the vendor constant, and the identifier is compared with that constant. -/
def isVendorAMD (vendorId : Nat) : Bool :=
  vendorId == VENDOR_ID_AMD

/-- Modelled from the spec: the body of VideoEnhancement::isVendorIntel(int) is
not among the sources; the identifier is compared with the header constant. -/
def isVendorIntel (vendorId : Nat) : Bool :=
  vendorId == VENDOR_ID_INTEL

/-- Modelled from the spec: the body of VideoEnhancement::isVendorNVIDIA(int) is
not among the sources; the identifier is compared with the header constant. -/
def isVendorNVIDIA (vendorId : Nat) : Bool :=
  vendorId == VENDOR_ID_NVIDIA

/-- Modelled from the spec: the body of VideoEnhancement::isVideoEnhancementEnabled
is not among the sources; it reads the boolean enhancement-enabled flag. -/
def isVideoEnhancementEnabled (ve : VideoEnhancement) : Bool :=
  ve.m_Enabled

end VideoEnhancement

open VideoEnhancement

/-- The members of DXGI_ADAPTER_DESC1 that enhanceAutoSelection reads. -/
structure DXGI_ADAPTER_DESC1 where
  VendorId : Nat
  DedicatedVideoMemory : Nat
  SharedSystemMemory : Nat
  deriving DecidableEq, Repr

/-- The Win32 RECT. -/
structure RECT where
  left : Int
  top : Int
  right : Int
  bottom : Int
  deriving DecidableEq, Repr

/-- The four color-space tags of DXGI_COLOR_SPACE_TYPE that the renderer uses. -/
inductive DXGI_COLOR_SPACE_TYPE where
  | DXGI_COLOR_SPACE_RGB_FULL_G22_NONE_P709
  | DXGI_COLOR_SPACE_YCBCR_STUDIO_G22_LEFT_P709
  | DXGI_COLOR_SPACE_RGB_FULL_G2084_NONE_P2020
  | DXGI_COLOR_SPACE_YCBCR_STUDIO_G2084_LEFT_P2020
  deriving DecidableEq, Repr

open DXGI_COLOR_SPACE_TYPE

/-- The members of DECODER_PARAMETERS that the selection reads. -/
structure DECODER_PARAMETERS where
  width : Int
  height : Int
  deriving DecidableEq, Repr

/-- Output rectangle inside the window (D3D11VARenderer::TextureInfo, d3d11va.h). -/
structure TextureInfo where
  width : Int
  height : Int
  left : Int
  top : Int
  deriving DecidableEq, Repr

/-! ## The renderer state -/

/-- The members of D3D11VARenderer (d3d11va.h) that enhanceAutoSelection reads or
writes. The first group is only read; nvidiaRTXorNewer stands for the value
that isNvidiaRTXorNewer() returns, which queries the adapter and the driver. -/
structure D3D11VARenderer where
  m_Preferences : StreamingPreferences
  m_VideoEnhancement : VideoEnhancement
  m_DecoderParams : DECODER_PARAMETERS
  m_OutputTexture : TextureInfo
  m_IsDecoderHDR : Bool
  m_yuv444 : Bool
  m_IsDisplayHDRenabled : Bool
  nvidiaRTXorNewer : Bool
  m_IsIntegratedGPU : Bool
  m_VendorVSRenabled : Bool
  m_VendorHDRenabled : Bool
  m_HDRToneMapping : Bool
  m_2PassVideoProcessor : Bool
  m_EnhancerType : Enhancer
  m_SourceRectExt : RECT
  m_DestRectExt : RECT
  m_TargetRectExt : RECT
  m_SourceRect : RECT
  m_DestRect : RECT
  m_TargetRect : RECT
  m_SourceRectTone : RECT
  m_DestRectTone : RECT
  m_TargetRectTone : RECT
  m_InputColorSpaceExt : DXGI_COLOR_SPACE_TYPE
  m_OutputColorSpaceExt : DXGI_COLOR_SPACE_TYPE
  m_InputColorSpace : DXGI_COLOR_SPACE_TYPE
  m_OutputColorSpace : DXGI_COLOR_SPACE_TYPE
  m_InputColorSpaceTone : DXGI_COLOR_SPACE_TYPE
  m_OutputColorSpaceTone : DXGI_COLOR_SPACE_TYPE
  m_IsBgColorYCbCrExt : Bool
  m_IsBgColorYCbCr : Bool
  m_IsBgColorYCbCrTone : Bool
  deriving DecidableEq, Repr

/-- The five selection members that the rules of enhanceAutoSelection assign one
after the other (lines 915-919 and 931-1318 of d3d11va.cpp). -/
structure EnhancementSelection where
  m_VendorVSRenabled : Bool
  m_VendorHDRenabled : Bool
  m_HDRToneMapping : Bool
  m_2PassVideoProcessor : Bool
  m_EnhancerType : Enhancer
  deriving DecidableEq, Repr

/-- The nine stage rectangles assigned by lines 1320-1370. -/
structure StageRectangles where
  m_SourceRectExt : RECT
  m_DestRectExt : RECT
  m_TargetRectExt : RECT
  m_SourceRect : RECT
  m_DestRect : RECT
  m_TargetRect : RECT
  m_SourceRectTone : RECT
  m_DestRectTone : RECT
  m_TargetRectTone : RECT
  deriving DecidableEq, Repr

/-- The six color-space tags and three background flags assigned by lines 1374-1479. -/
structure StageColorSpaces where
  m_InputColorSpaceExt : DXGI_COLOR_SPACE_TYPE
  m_OutputColorSpaceExt : DXGI_COLOR_SPACE_TYPE
  m_InputColorSpace : DXGI_COLOR_SPACE_TYPE
  m_OutputColorSpace : DXGI_COLOR_SPACE_TYPE
  m_InputColorSpaceTone : DXGI_COLOR_SPACE_TYPE
  m_OutputColorSpaceTone : DXGI_COLOR_SPACE_TYPE
  m_IsBgColorYCbCrExt : Bool
  m_IsBgColorYCbCr : Bool
  m_IsBgColorYCbCrTone : Bool
  deriving DecidableEq, Repr

namespace D3D11VARenderer

/-! ## enhanceAutoSelection, rule by rule -/

/-- Lines 921-926: the adapter counts as an integrated GPU when its shared memory
exceeds 512 * 1024 * 1024 and its dedicated memory is below 2024 * 1024 * 1024. -/
def detectIntegratedGPU (adapterDesc : DXGI_ADAPTER_DESC1) : Bool :=
  decide (adapterDesc.SharedSystemMemory > 512 * 1024 * 1024
    ∧ adapterDesc.DedicatedVideoMemory < 2024 * 1024 * 1024)

/-- Lines 915-919: the values the selection members are reset to on entry. -/
def resetSelection : EnhancementSelection :=
  { m_VendorVSRenabled := false
    m_VendorHDRenabled := false
    m_HDRToneMapping := false
    m_2PassVideoProcessor := false
    m_EnhancerType := Enhancer.NONE }

/-- Lines 931-942: the selection when video enhancement is disabled. -/
def disabledSelection : EnhancementSelection :=
  { m_VendorVSRenabled := false
    m_VendorHDRenabled := false
    m_HDRToneMapping := true
    m_2PassVideoProcessor := false
    m_EnhancerType := Enhancer.NONE }

/-- Lines 944-1051: the per-vendor default (AMD, then Intel, then NVIDIA; any
other vendor keeps the values it enters with). -/
def vendorAutoSelection (vendorId : Nat) (isIntegratedGPU rtxOrNewer isDecoderHDR : Bool)
    (s : EnhancementSelection) : EnhancementSelection :=
  if isVendorAMD vendorId then
    if isDecoderHDR then
      { m_VendorVSRenabled := false, m_VendorHDRenabled := false, m_HDRToneMapping := true,
        m_2PassVideoProcessor := false, m_EnhancerType := Enhancer.NIS }
    else if isIntegratedGPU then
      { m_VendorVSRenabled := false, m_VendorHDRenabled := false, m_HDRToneMapping := false,
        m_2PassVideoProcessor := false, m_EnhancerType := Enhancer.CAS }
    else
      { m_VendorVSRenabled := true, m_VendorHDRenabled := false, m_HDRToneMapping := false,
        m_2PassVideoProcessor := false, m_EnhancerType := Enhancer.NONE }
  else if isVendorIntel vendorId then
    if isDecoderHDR then
      { m_VendorVSRenabled := false, m_VendorHDRenabled := false, m_HDRToneMapping := true,
        m_2PassVideoProcessor := false, m_EnhancerType := Enhancer.NIS }
    else if isIntegratedGPU then
      { m_VendorVSRenabled := false, m_VendorHDRenabled := false, m_HDRToneMapping := false,
        m_2PassVideoProcessor := false, m_EnhancerType := Enhancer.CAS }
    else
      { m_VendorVSRenabled := false, m_VendorHDRenabled := false, m_HDRToneMapping := false,
        m_2PassVideoProcessor := false, m_EnhancerType := Enhancer.NONE }
  else if isVendorNVIDIA vendorId then
    if !rtxOrNewer then
      if isDecoderHDR then
        { m_VendorVSRenabled := false, m_VendorHDRenabled := false, m_HDRToneMapping := true,
          m_2PassVideoProcessor := false, m_EnhancerType := Enhancer.NIS }
      else
        { m_VendorVSRenabled := false, m_VendorHDRenabled := true, m_HDRToneMapping := false,
          m_2PassVideoProcessor := false, m_EnhancerType := Enhancer.NIS }
    else
      if isDecoderHDR then
        { m_VendorVSRenabled := true, m_VendorHDRenabled := false, m_HDRToneMapping := true,
          m_2PassVideoProcessor := true, m_EnhancerType := Enhancer.NONE }
      else
        { m_VendorVSRenabled := true, m_VendorHDRenabled := true, m_HDRToneMapping := false,
          m_2PassVideoProcessor := true, m_EnhancerType := Enhancer.NONE }
  else
    s

/-- Lines 1057-1264: the switch over m_Preferences->superResolutionMode. A forced
mode overwrites the members it names; the modes commented "Keep default setting"
leave m_VendorHDRenabled as the vendor default set it; SRM_00 is the default
label and changes nothing. -/
def forcedModeSelection (mode : SuperResolutionMode) (vendorId : Nat) (isDecoderHDR : Bool)
    (s : EnhancementSelection) : EnhancementSelection :=
  match mode with
  | .SRM_01 =>
    { m_VendorVSRenabled := true
      m_VendorHDRenabled := if isVendorNVIDIA vendorId then true else false
      m_HDRToneMapping := if isDecoderHDR then true else false
      m_2PassVideoProcessor := if isVendorNVIDIA vendorId then true else false
      m_EnhancerType := Enhancer.NONE }
  | .SRM_02 =>
    { s with
      m_VendorVSRenabled := false
      m_HDRToneMapping := if isDecoderHDR then true else false
      m_2PassVideoProcessor := false
      m_EnhancerType := Enhancer.NONE }
  | .SRM_03 =>
    { s with
      m_VendorVSRenabled := false
      m_HDRToneMapping := false
      m_2PassVideoProcessor := false
      m_EnhancerType := Enhancer.FSR1 }
  | .SRM_04 =>
    { s with
      m_VendorVSRenabled := false
      m_HDRToneMapping := false
      m_2PassVideoProcessor := false
      m_EnhancerType := Enhancer.NIS }
  | .SRM_05 =>
    { s with
      m_VendorVSRenabled := false
      m_HDRToneMapping := false
      m_2PassVideoProcessor := false
      m_EnhancerType := Enhancer.NIS_HALF }
  | .SRM_06 =>
    { s with
      m_VendorVSRenabled := if isVendorAMD vendorId then false else false
      m_HDRToneMapping := false
      m_2PassVideoProcessor := if isVendorNVIDIA vendorId then true else false
      m_EnhancerType := Enhancer.NIS_SHARPEN }
  | .SRM_07 =>
    { s with
      m_VendorVSRenabled := if isVendorAMD vendorId then false else false
      m_HDRToneMapping := false
      m_2PassVideoProcessor := if isVendorNVIDIA vendorId then true else false
      m_EnhancerType := Enhancer.NIS_SHARPEN_HALF }
  | .SRM_08 =>
    { s with
      m_VendorVSRenabled := if isVendorAMD vendorId then false else false
      m_HDRToneMapping := false
      m_2PassVideoProcessor := if isVendorNVIDIA vendorId then true else false
      m_EnhancerType := Enhancer.RCAS }
  | .SRM_09 =>
    { s with
      m_VendorVSRenabled := if isVendorAMD vendorId then false else false
      m_HDRToneMapping := false
      m_2PassVideoProcessor := if isVendorNVIDIA vendorId then true else false
      m_EnhancerType := Enhancer.CAS }
  | .SRM_10 =>
    { s with
      m_VendorVSRenabled := false
      m_HDRToneMapping := false
      m_2PassVideoProcessor := false
      m_EnhancerType := Enhancer.UPSCALER }
  | .SRM_11 =>
    { m_VendorVSRenabled := false, m_VendorHDRenabled := false, m_HDRToneMapping := true,
      m_2PassVideoProcessor := false, m_EnhancerType := Enhancer.COPY }
  | .SRM_12 =>
    { m_VendorVSRenabled := false, m_VendorHDRenabled := false, m_HDRToneMapping := true,
      m_2PassVideoProcessor := false, m_EnhancerType := Enhancer.TESTCS }
  | .SRM_13 =>
    { m_VendorVSRenabled := false, m_VendorHDRenabled := false, m_HDRToneMapping := true,
      m_2PassVideoProcessor := false, m_EnhancerType := Enhancer.TESTPS }
  | .SRM_00 => s

/-- Lines 1266-1285: the four adjustments applied after the vendor default and the
forced mode, each reading the members as the previous one left them. -/
def crossConstraints (isDecoderHDR isDisplayHDRenabled : Bool)
    (s : EnhancementSelection) : EnhancementSelection :=
  let s := if isDecoderHDR || !isDisplayHDRenabled then
      { s with m_VendorHDRenabled := false } else s
  let s := if !s.m_VendorVSRenabled && !s.m_VendorHDRenabled then
      { s with m_2PassVideoProcessor := false } else s
  let s := if isUpscaler s.m_EnhancerType then
      { s with m_VendorVSRenabled := false } else s
  let s := if !isDecoderHDR || s.m_VendorHDRenabled then
      { s with m_HDRToneMapping := false } else s
  s

/-- Lines 1287-1303: in auto mode, when the output height equals the decoder
height, scaling is dropped. -/
def nativeResolutionSelection (mode : SuperResolutionMode) (outputHeight decoderHeight : Int)
    (isDecoderHDR : Bool) (s : EnhancementSelection) : EnhancementSelection :=
  if mode = SuperResolutionMode.SRM_00 ∧ outputHeight = decoderHeight then
    { m_VendorVSRenabled := false
      m_VendorHDRenabled := s.m_VendorHDRenabled
      m_HDRToneMapping := if isDecoderHDR then true else false
      m_2PassVideoProcessor := if s.m_VendorHDRenabled then true else false
      m_EnhancerType := Enhancer.NONE }
  else
    s

/-- Lines 1305-1318: a stream that is both 4:4:4 and HDR is handled by the video
processor alone. -/
def yuv444HDRSelection (vendorId : Nat) (yuv444 isDecoderHDR : Bool)
    (s : EnhancementSelection) : EnhancementSelection :=
  if yuv444 && isDecoderHDR then
    { m_VendorVSRenabled := if isVendorAMD vendorId then false else true
      m_VendorHDRenabled := false
      m_HDRToneMapping := false
      m_2PassVideoProcessor := false
      m_EnhancerType := Enhancer.NONE }
  else
    s

/-- The rules of lines 944-1318 in program order, starting from the reset values:
this is the selection reached when video enhancement is enabled. -/
def enabledSelection (adapterDesc : DXGI_ADAPTER_DESC1) (r : D3D11VARenderer)
    (isIntegratedGPU : Bool) : EnhancementSelection :=
  let s := resetSelection
  let s := vendorAutoSelection adapterDesc.VendorId isIntegratedGPU r.nvidiaRTXorNewer
    r.m_IsDecoderHDR s
  let s := forcedModeSelection r.m_Preferences.superResolutionMode adapterDesc.VendorId
    r.m_IsDecoderHDR s
  let s := crossConstraints r.m_IsDecoderHDR r.m_IsDisplayHDRenabled s
  let s := nativeResolutionSelection r.m_Preferences.superResolutionMode
    r.m_OutputTexture.height r.m_DecoderParams.height r.m_IsDecoderHDR s
  let s := yuv444HDRSelection adapterDesc.VendorId r.m_yuv444 r.m_IsDecoderHDR s
  s

/-- Lines 1320-1370: the source, destination and target rectangle of the
extension stage, of the main stage and of the tone stage. -/
def defineRectangles (decoderParams : DECODER_PARAMETERS) (outputTexture : TextureInfo)
    (s : EnhancementSelection) : StageRectangles :=
  let sourceRectExt : RECT :=
    { left := 0, top := 0, right := decoderParams.width, bottom := decoderParams.height }
  let destRectExt : RECT :=
    { left := 0, top := 0, right := outputTexture.width, bottom := outputTexture.height }
  let targetRectExt : RECT := destRectExt
  let sourceRect : RECT :=
    { left := 0, top := 0, right := decoderParams.width, bottom := decoderParams.height }
  let sourceRect : RECT :=
    if s.m_2PassVideoProcessor then
      { sourceRect with right := outputTexture.width, bottom := outputTexture.height }
    else sourceRect
  let destRect : RECT :=
    { left := 0, top := 0, right := outputTexture.width, bottom := outputTexture.height }
  let destRect : RECT :=
    if isUpscaler s.m_EnhancerType then
      { destRect with right := decoderParams.width, bottom := decoderParams.height }
    else if !s.m_HDRToneMapping && !isUsingShader s.m_EnhancerType then
      { left := outputTexture.left
        top := outputTexture.top
        right := outputTexture.width + outputTexture.left
        bottom := outputTexture.height + outputTexture.top }
    else destRect
  let targetRect : RECT :=
    { left := 0, top := 0, right := destRect.right, bottom := destRect.bottom }
  let sourceRectTone : RECT :=
    { left := 0, top := 0, right := outputTexture.width, bottom := outputTexture.height }
  { m_SourceRectExt := sourceRectExt
    m_DestRectExt := destRectExt
    m_TargetRectExt := targetRectExt
    m_SourceRect := sourceRect
    m_DestRect := destRect
    m_TargetRect := targetRect
    m_SourceRectTone := sourceRectTone
    m_DestRectTone := sourceRectTone
    m_TargetRectTone := sourceRectTone }

/-- Lines 1374-1479: the input and output color-space tag of each stage and the
kind of background color of each stage. -/
def defineColorSpaces (isDecoderHDR yuv444 : Bool) (s : EnhancementSelection) :
    StageColorSpaces :=
  let inputColorSpaceExt :=
    if isDecoderHDR then DXGI_COLOR_SPACE_YCBCR_STUDIO_G2084_LEFT_P2020
    else DXGI_COLOR_SPACE_YCBCR_STUDIO_G22_LEFT_P709
  let outputExt : DXGI_COLOR_SPACE_TYPE × Bool :=
    if isDecoderHDR then
      if yuv444 then (DXGI_COLOR_SPACE_RGB_FULL_G2084_NONE_P2020, false)
      else if s.m_2PassVideoProcessor then (DXGI_COLOR_SPACE_RGB_FULL_G2084_NONE_P2020, false)
      else (DXGI_COLOR_SPACE_YCBCR_STUDIO_G2084_LEFT_P2020, true)
    else if s.m_VendorHDRenabled then (DXGI_COLOR_SPACE_RGB_FULL_G2084_NONE_P2020, false)
    else (DXGI_COLOR_SPACE_YCBCR_STUDIO_G22_LEFT_P709, true)
  let inputColorSpace :=
    if s.m_2PassVideoProcessor then outputExt.1
    else if isDecoderHDR || s.m_VendorHDRenabled then
      DXGI_COLOR_SPACE_YCBCR_STUDIO_G2084_LEFT_P2020
    else DXGI_COLOR_SPACE_YCBCR_STUDIO_G22_LEFT_P709
  let output : DXGI_COLOR_SPACE_TYPE × Bool :=
    if !s.m_HDRToneMapping || isUsingShader s.m_EnhancerType then
      if isDecoderHDR || s.m_VendorHDRenabled then
        (DXGI_COLOR_SPACE_RGB_FULL_G2084_NONE_P2020, false)
      else (DXGI_COLOR_SPACE_RGB_FULL_G22_NONE_P709, false)
    else
      if isDecoderHDR || s.m_VendorHDRenabled then
        (DXGI_COLOR_SPACE_YCBCR_STUDIO_G2084_LEFT_P2020, true)
      else (DXGI_COLOR_SPACE_YCBCR_STUDIO_G22_LEFT_P709, true)
  let inputColorSpaceTone :=
    if isDecoderHDR || s.m_VendorHDRenabled then
      if yuv444 then DXGI_COLOR_SPACE_YCBCR_STUDIO_G22_LEFT_P709
      else DXGI_COLOR_SPACE_YCBCR_STUDIO_G2084_LEFT_P2020
    else DXGI_COLOR_SPACE_YCBCR_STUDIO_G22_LEFT_P709
  let outputTone : DXGI_COLOR_SPACE_TYPE × Bool :=
    if isDecoderHDR || s.m_VendorHDRenabled then
      (DXGI_COLOR_SPACE_RGB_FULL_G2084_NONE_P2020, false)
    else (DXGI_COLOR_SPACE_RGB_FULL_G22_NONE_P709, false)
  { m_InputColorSpaceExt := inputColorSpaceExt
    m_OutputColorSpaceExt := outputExt.1
    m_InputColorSpace := inputColorSpace
    m_OutputColorSpace := output.1
    m_InputColorSpaceTone := inputColorSpaceTone
    m_OutputColorSpaceTone := outputTone.1
    m_IsBgColorYCbCrExt := outputExt.2
    m_IsBgColorYCbCr := output.2
    m_IsBgColorYCbCrTone := outputTone.2 }

/-- D3D11VARenderer::enhanceAutoSelection (d3d11va.cpp, lines 909-1511). When video
enhancement is disabled the function returns at line 941, having written only
m_IsIntegratedGPU and the five selection members; otherwise it runs every rule
and then assigns all rectangles, color-space tags and background flags. -/
def enhanceAutoSelection (r : D3D11VARenderer) (adapterDesc : DXGI_ADAPTER_DESC1) :
    D3D11VARenderer :=
  let isIntegratedGPU := detectIntegratedGPU adapterDesc
  if !r.m_VideoEnhancement.isVideoEnhancementEnabled then
    { r with
      m_IsIntegratedGPU := isIntegratedGPU
      m_VendorVSRenabled := disabledSelection.m_VendorVSRenabled
      m_VendorHDRenabled := disabledSelection.m_VendorHDRenabled
      m_HDRToneMapping := disabledSelection.m_HDRToneMapping
      m_2PassVideoProcessor := disabledSelection.m_2PassVideoProcessor
      m_EnhancerType := disabledSelection.m_EnhancerType }
  else
    let s := enabledSelection adapterDesc r isIntegratedGPU
    let rects := defineRectangles r.m_DecoderParams r.m_OutputTexture s
    let tags := defineColorSpaces r.m_IsDecoderHDR r.m_yuv444 s
    { r with
      m_IsIntegratedGPU := isIntegratedGPU
      m_VendorVSRenabled := s.m_VendorVSRenabled
      m_VendorHDRenabled := s.m_VendorHDRenabled
      m_HDRToneMapping := s.m_HDRToneMapping
      m_2PassVideoProcessor := s.m_2PassVideoProcessor
      m_EnhancerType := s.m_EnhancerType
      m_SourceRectExt := rects.m_SourceRectExt
      m_DestRectExt := rects.m_DestRectExt
      m_TargetRectExt := rects.m_TargetRectExt
      m_SourceRect := rects.m_SourceRect
      m_DestRect := rects.m_DestRect
      m_TargetRect := rects.m_TargetRect
      m_SourceRectTone := rects.m_SourceRectTone
      m_DestRectTone := rects.m_DestRectTone
      m_TargetRectTone := rects.m_TargetRectTone
      m_InputColorSpaceExt := tags.m_InputColorSpaceExt
      m_OutputColorSpaceExt := tags.m_OutputColorSpaceExt
      m_InputColorSpace := tags.m_InputColorSpace
      m_OutputColorSpace := tags.m_OutputColorSpace
      m_InputColorSpaceTone := tags.m_InputColorSpaceTone
      m_OutputColorSpaceTone := tags.m_OutputColorSpaceTone
      m_IsBgColorYCbCrExt := tags.m_IsBgColorYCbCrExt
      m_IsBgColorYCbCr := tags.m_IsBgColorYCbCr
      m_IsBgColorYCbCrTone := tags.m_IsBgColorYCbCrTone }

end D3D11VARenderer

/-! ## Concrete renderers used to exercise the selection -/

/-- A renderer whose written members hold the initial values given in d3d11va.h
(lines 135-163 and 227) and whose read-only members are the arguments. -/
def rendererWith (mode : SuperResolutionMode) (enabled : Bool)
    (decoderWidth decoderHeight : Int) (outputTexture : TextureInfo)
    (isDecoderHDR yuv444 isDisplayHDRenabled rtxOrNewer : Bool) : D3D11VARenderer :=
  { m_Preferences := { superResolutionMode := mode }
    m_VideoEnhancement := { m_Enabled := enabled }
    m_DecoderParams := { width := decoderWidth, height := decoderHeight }
    m_OutputTexture := outputTexture
    m_IsDecoderHDR := isDecoderHDR
    m_yuv444 := yuv444
    m_IsDisplayHDRenabled := isDisplayHDRenabled
    nvidiaRTXorNewer := rtxOrNewer
    m_IsIntegratedGPU := false
    m_VendorVSRenabled := false
    m_VendorHDRenabled := false
    m_HDRToneMapping := false
    m_2PassVideoProcessor := false
    m_EnhancerType := Enhancer.NONE
    m_SourceRectExt := { left := 0, top := 0, right := 1280, bottom := 720 }
    m_DestRectExt := { left := 0, top := 0, right := 1920, bottom := 1080 }
    m_TargetRectExt := { left := 0, top := 0, right := 1920, bottom := 1080 }
    m_SourceRect := { left := 0, top := 0, right := 1920, bottom := 1080 }
    m_DestRect := { left := 0, top := 0, right := 1920, bottom := 1080 }
    m_TargetRect := { left := 0, top := 0, right := 1920, bottom := 1080 }
    m_SourceRectTone := { left := 0, top := 0, right := 1920, bottom := 1080 }
    m_DestRectTone := { left := 0, top := 0, right := 1920, bottom := 1080 }
    m_TargetRectTone := { left := 0, top := 0, right := 1920, bottom := 1080 }
    m_InputColorSpaceExt := DXGI_COLOR_SPACE_YCBCR_STUDIO_G22_LEFT_P709
    m_OutputColorSpaceExt := DXGI_COLOR_SPACE_YCBCR_STUDIO_G22_LEFT_P709
    m_InputColorSpace := DXGI_COLOR_SPACE_YCBCR_STUDIO_G22_LEFT_P709
    m_OutputColorSpace := DXGI_COLOR_SPACE_YCBCR_STUDIO_G22_LEFT_P709
    m_InputColorSpaceTone := DXGI_COLOR_SPACE_RGB_FULL_G22_NONE_P709
    m_OutputColorSpaceTone := DXGI_COLOR_SPACE_YCBCR_STUDIO_G22_LEFT_P709
    m_IsBgColorYCbCrExt := false
    m_IsBgColorYCbCr := false
    m_IsBgColorYCbCrTone := false }

/-- A discrete adapter (8 GB dedicated, 256 MB shared) of the given vendor. -/
def discreteAdapter (vendorId : Nat) : DXGI_ADAPTER_DESC1 :=
  { VendorId := vendorId
    DedicatedVideoMemory := 8192 * 1024 * 1024
    SharedSystemMemory := 256 * 1024 * 1024 }

/-- An integrated adapter (128 MB dedicated, 8 GB shared) of the given vendor. -/
def integratedAdapter (vendorId : Nat) : DXGI_ADAPTER_DESC1 :=
  { VendorId := vendorId
    DedicatedVideoMemory := 128 * 1024 * 1024
    SharedSystemMemory := 8192 * 1024 * 1024 }

/-- A 1920x1080 output rectangle filling a 1920x1080 window. -/
def output1080 : TextureInfo :=
  { width := 1920, height := 1080, left := 0, top := 0 }

/-- A 2560x1440 output rectangle filling a 2560x1440 window. -/
def output1440 : TextureInfo :=
  { width := 2560, height := 1440, left := 0, top := 0 }

/-! ## bindColorConversion: packing of the conversion matrix -/

/-- Lines 2681 and 2698-2704 of bindColorConversion. The constant buffer is
zero-initialised (constBuf is declared with an empty initialiser), so cscMatrix starts as twelve
zeros (CSC_MATRIX_PACKED_ELEMENT_COUNT), and the two nested loops store
rawCscMatrix[j * 3 + i] at cscMatrix[i * 4 + j]. The elements are only copied, never
computed with, so their type is left arbitrary. -/
def packCscMatrix {α : Type} [Zero α] (rawCscMatrix : Fin 9 → α) : Fin 12 → α :=
  (List.finRange 3).foldl
    (fun cscMatrix i =>
      (List.finRange 3).foldl
        (fun cscMatrix j =>
          Function.update cscMatrix ⟨i.val * 4 + j.val, by omega⟩
            (rawCscMatrix ⟨j.val * 3 + i.val, by omega⟩))
        cscMatrix)
    (fun _ => 0)

/-! ## initialize: output rectangle (lines 2007-2068) -/

/-- The float operations that lines 2053-2066 of initialize apply, as an
interface: conversion of an int, division, product, comparison, and
static_cast<int>(std::floor(x)). Properties proved for every instance hold
whatever the rounding of the float type is. -/
structure FloatArithmetic where
  F : Type
  ofInt : Int → F
  div : F → F → F
  mul : F → F → F
  lt : F → F → Bool
  floorToInt : F → Int

/-- A value of the IEEE 754 binary32 format, the type float of lines 2053-2064: a
finite value, kept as the rational number it denotes, an infinity or a NaN. The
two zeros are not told apart: the code divides only by values converted from an
int, which are never the negative zero, and it only compares and floors the
results. -/
inductive Binary32 where
  | finite (value : ℚ)
  | posInf
  | negInf
  | nan
  deriving DecidableEq

/-- The integer nearest to y, a tie going to the even one. -/
def roundHalfEven (y : ℚ) : Int :=
  if y - ⌊y⌋ < 1 / 2 then ⌊y⌋
  else if 1 / 2 < y - ⌊y⌋ then ⌊y⌋ + 1
  else if ⌊y⌋ % 2 = 0 then ⌊y⌋
  else ⌊y⌋ + 1

/-- The spacing of the binary32 values around x: 2 ^ (e - 23) where
2 ^ e <= |x| < 2 ^ (e + 1) (24 significant bits), and 2 ^ (-149) for every x
below the normal range, whose least exponent is -126. -/
def binary32Quantum (x : ℚ) : ℚ :=
  (2 : ℚ) ^ (max (Int.log 2 |x|) (-126) - 23)

/-- The multiple of the spacing nearest to x, ties to even: the binary32 result of
an operation whose exact result is x, before the test for overflow. -/
def roundToBinary32 (x : ℚ) : ℚ :=
  (roundHalfEven (x / binary32Quantum x) : ℚ) * binary32Quantum x

namespace Binary32

/-- The binary32 value of an exact result x (round to nearest, ties to even): an
infinity when the rounded magnitude reaches 2 ^ 128. -/
def ofRat (x : ℚ) : Binary32 :=
  if (2 : ℚ) ^ 128 ≤ |roundToBinary32 x| then (if 0 < x then posInf else negInf)
  else finite (roundToBinary32 x)

/-- Division of two floats: a NaN operand, 0 / 0 and infinity / infinity give NaN,
a non-zero value divided by zero gives an infinity. -/
def div : Binary32 → Binary32 → Binary32
  | nan, _ => nan
  | _, nan => nan
  | finite x, finite y =>
    if y = 0 then (if x = 0 then nan else if 0 < x then posInf else negInf)
    else ofRat (x / y)
  | finite _, posInf => finite 0
  | finite _, negInf => finite 0
  | posInf, finite y => if 0 ≤ y then posInf else negInf
  | negInf, finite y => if 0 ≤ y then negInf else posInf
  | posInf, posInf => nan
  | posInf, negInf => nan
  | negInf, posInf => nan
  | negInf, negInf => nan

/-- Product of two floats: a NaN operand and 0 * infinity give NaN. -/
def mul : Binary32 → Binary32 → Binary32
  | nan, _ => nan
  | _, nan => nan
  | finite x, finite y => ofRat (x * y)
  | finite x, posInf => if x = 0 then nan else if 0 < x then posInf else negInf
  | finite x, negInf => if x = 0 then nan else if 0 < x then negInf else posInf
  | posInf, finite y => if y = 0 then nan else if 0 < y then posInf else negInf
  | negInf, finite y => if y = 0 then nan else if 0 < y then negInf else posInf
  | posInf, posInf => posInf
  | posInf, negInf => negInf
  | negInf, posInf => negInf
  | negInf, negInf => posInf

/-- The comparison a < b of two floats: false as soon as one of them is a NaN. -/
def lt : Binary32 → Binary32 → Bool
  | nan, _ => false
  | _, nan => false
  | finite x, finite y => decide (x < y)
  | finite _, posInf => true
  | finite _, negInf => false
  | posInf, _ => false
  | negInf, finite _ => true
  | negInf, posInf => true
  | negInf, negInf => false

/-- The expression static_cast<int>(std::floor(x)). For an infinity or a NaN the
conversion is not defined by the language; the value taken here is the one x86
conversion instructions give, -2 ^ 31. -/
def floorToInt : Binary32 → Int
  | finite x => ⌊x⌋
  | _ => -2147483648

end Binary32

/-- The float operations of lines 2053-2064 as the compiled code performs them, in
binary32: static_cast<float> of an int, the float quotient, the product of an int
converted to float with a float, the comparison, and the floor converted to int. -/
def float32Arithmetic : FloatArithmetic :=
  { F := Binary32
    ofInt := fun n => Binary32.ofRat (n : ℚ)
    div := Binary32.div
    mul := Binary32.mul
    lt := Binary32.lt
    floorToInt := Binary32.floorToInt }

/-- What the start of initialize stores: the even window size and the output
rectangle. -/
structure OutputGeometry where
  m_DisplayWidth : Int
  m_DisplayHeight : Int
  m_OutputTexture : TextureInfo

namespace D3D11VARenderer

/-- Lines 2007-2009 of initialize: the decoder width and height are rounded down to
even numbers (x & ~1 on two's-complement integers). -/
def evenDecoderParams (params : DECODER_PARAMETERS) : DECODER_PARAMETERS :=
  { width := Int.land params.width (Int.lnot 1)
    height := Int.land params.height (Int.lnot 1) }

/-- Lines 2038-2068 of initialize, given m_DecoderParams as lines 2007-2009 left it
and the window size that SDL_GetWindowSize returns. The argument of std::floor in
lines 2060 and 2066 is an integer quotient, so that call changes nothing. -/
def computeOutputTexture (A : FloatArithmetic) (decoderParams : DECODER_PARAMETERS)
    (windowWidth windowHeight : Int) : OutputGeometry :=
  let displayWidth := Int.land windowWidth (Int.lnot 1)
  let displayHeight := Int.land windowHeight (Int.lnot 1)
  let ratioWidth := A.div (A.ofInt displayWidth) (A.ofInt decoderParams.width)
  let ratioHeight := A.div (A.ofInt displayHeight) (A.ofInt decoderParams.height)
  let outputTexture : TextureInfo :=
    if A.lt ratioHeight ratioWidth then
      let width :=
        Int.land (A.floorToInt (A.mul (A.ofInt decoderParams.width) ratioHeight)) (Int.lnot 1)
      let left := Int.land (((displayWidth - width).natAbs : Int) / 2) (Int.lnot 1)
      { width := width, height := displayHeight, left := left, top := 0 }
    else if A.lt ratioWidth ratioHeight then
      let height :=
        Int.land (A.floorToInt (A.mul (A.ofInt decoderParams.height) ratioWidth)) (Int.lnot 1)
      let top := Int.land (((displayHeight - height).natAbs : Int) / 2) (Int.lnot 1)
      { width := displayWidth, height := height, left := 0, top := top }
    else
      { width := displayWidth, height := displayHeight, left := 0, top := 0 }
  { m_DisplayWidth := displayWidth
    m_DisplayHeight := displayHeight
    m_OutputTexture := outputTexture }

/-- The start of initialize (lines 2000-2068) as far as sizes are concerned: the
decoder parameters are copied and made even, then the output rectangle is
computed from them and from the window size. -/
def initializeGeometry (A : FloatArithmetic) (params : DECODER_PARAMETERS)
    (windowWidth windowHeight : Int) : DECODER_PARAMETERS × OutputGeometry :=
  let decoderParams := evenDecoderParams params
  (decoderParams, computeOutputTexture A decoderParams windowWidth windowHeight)

end D3D11VARenderer

/-! ## getAdapterIndexByEnhancementCapabilities (lines 701-896) -/

/-- One enumerated adapter together with the outcome of every call that
getAdapterIndexByEnhancementCapabilities makes on it: GetDesc1, the software
flag and vendor of its description, D3D11CreateDevice, createVideoProcessor
(which asks the driver for the processors), and the probes
enable<Vendor>VideoSuperResolution(false, false) and enable<Vendor>HDR(false, false). -/
structure AdapterProbe where
  getDesc1Succeeded : Bool
  isSoftware : Bool
  VendorId : Nat
  createDeviceSucceeded : Bool
  createVideoProcessorSucceeded : Bool
  enableAMDVideoSuperResolution : Bool
  enableIntelVideoSuperResolution : Bool
  enableNvidiaVideoSuperResolution : Bool
  enableAMDHDR : Bool
  enableIntelHDR : Bool
  enableNvidiaHDR : Bool
  deriving DecidableEq, Repr

namespace D3D11VARenderer

/-- Lines 757-779: the score of an adapter on which a device and a video processor
were created. Each condition of the two else-if chains is a vendor test followed
by that vendor's probe; the probes are read here from the adapter record. -/
def adapterScore (a : AdapterProbe) : Int :=
  let amdVSR := isVendorAMD a.VendorId && a.enableAMDVideoSuperResolution
  let intelVSR := isVendorIntel a.VendorId && a.enableIntelVideoSuperResolution
  let nvidiaVSR := isVendorNVIDIA a.VendorId && a.enableNvidiaVideoSuperResolution
  let amdHDR := isVendorAMD a.VendorId && a.enableAMDHDR
  let intelHDR := isVendorIntel a.VendorId && a.enableIntelHDR
  let nvidiaHDR := isVendorNVIDIA a.VendorId && a.enableNvidiaHDR
  let score : Int := -1
  let score :=
    if amdVSR then max score 300
    else if intelVSR then max score 200
    else if nvidiaVSR then max score 400
    else max score 100
  let score :=
    if amdHDR then max score 30
    else if intelHDR then max score 20
    else if nvidiaHDR then max score 40
    else max score 10
  score

/-- The condition under which the loop body scores an adapter (lines 711-751): its
description was read, it is not a software adapter, and both the device and the
video processor were created. -/
def isCandidate (a : AdapterProbe) : Bool :=
  a.getDesc1Succeeded && !a.isSoftware
    && (a.createDeviceSucceeded && a.createVideoProcessorSucceeded)

/-- The while loop of lines 709-790 over the adapters that EnumAdapters1 still has
to return, with the loop variables index, highestScore and adapterIndex; the
result is the final (highestScore, adapterIndex). -/
def scanAdapters : List AdapterProbe → Int → Int → Int → Int × Int
  | [], _, highestScore, adapterIndex => (highestScore, adapterIndex)
  | a :: rest, index, highestScore, adapterIndex =>
    if a.getDesc1Succeeded then
      if a.isSoftware then
        scanAdapters rest (index + 1) highestScore adapterIndex
      else if a.createDeviceSucceeded && a.createVideoProcessorSucceeded then
        let score := adapterScore a
        if score > highestScore then
          scanAdapters rest (index + 1) score index
        else
          scanAdapters rest (index + 1) highestScore adapterIndex
      else
        scanAdapters rest (index + 1) highestScore adapterIndex
    else
      scanAdapters rest (index + 1) highestScore adapterIndex

/-- The value returned by getAdapterIndexByEnhancementCapabilities for the adapters
in enumeration order. Lines 792-893 record capabilities of the chosen adapter in
the VideoEnhancement singleton and release the devices; they do not assign
adapterIndex. -/
def getAdapterIndexByEnhancementCapabilities (adapters : List AdapterProbe) : Int :=
  (scanAdapters adapters 0 (-1) (-1)).2

end D3D11VARenderer

/-! ## renderVideo: the index into m_VideoTextureResourceViews (lines 2764-2917) -/

/-- Size of the decoder buffer pool and of m_VideoTextureResourceViews (d3d11va.h,
line 197). -/
def DECODER_BUFFER_POOL_SIZE : Nat := 17

/-- The part of an AVFrame that renderVideo uses for indexing: data[1], a
pointer-sized value in which FFmpeg stores the texture array index. -/
structure AVFrame where
  data1 : Nat
  deriving DecidableEq, Repr

/-- How a call of renderVideo ends: either it returns before the ToneMapping label
(lines 2861 and 2872), binding no view of m_VideoTextureResourceViews and not
drawing, or it reaches the label, reads m_VideoTextureResourceViews[srvIndex] and
draws (lines 2901-2915). -/
inductive RenderVideoResult where
  | returnedBeforeBinding
  | boundAndDrew (srvIndex : Nat)
  deriving DecidableEq, Repr

namespace D3D11VARenderer

/-- D3D11VARenderer::renderVideo, reduced to its control flow and to srvIndex. The
variable is a UINT, so the value of data[1] is taken modulo 2 ^ 32; SDL_assert is
compiled out of release builds and the explicit test of line 2868 follows it. -/
def renderVideo (r : D3D11VARenderer) (amfInitialized bindDecoderOutputTextures : Bool)
    (frame : AVFrame) : RenderVideoResult :=
  let srvIndex : Nat := 0
  if r.m_VideoEnhancement.isVideoEnhancementEnabled then
    if amfInitialized then
      if r.m_HDRToneMapping then RenderVideoResult.boundAndDrew srvIndex
      else RenderVideoResult.returnedBeforeBinding
    else if r.m_2PassVideoProcessor then
      if isUsingShader r.m_EnhancerType then
        if r.m_HDRToneMapping then RenderVideoResult.boundAndDrew srvIndex
        else RenderVideoResult.returnedBeforeBinding
      else if r.m_HDRToneMapping then RenderVideoResult.boundAndDrew srvIndex
      else RenderVideoResult.returnedBeforeBinding
    else
      if isUsingShader r.m_EnhancerType then
        if r.m_HDRToneMapping then RenderVideoResult.boundAndDrew srvIndex
        else RenderVideoResult.returnedBeforeBinding
      else if r.m_HDRToneMapping then RenderVideoResult.boundAndDrew srvIndex
      else RenderVideoResult.returnedBeforeBinding
  else if bindDecoderOutputTextures then
    let srvIndex : Nat := frame.data1 % 2 ^ 32
    if srvIndex ≥ DECODER_BUFFER_POOL_SIZE then RenderVideoResult.returnedBeforeBinding
    else RenderVideoResult.boundAndDrew srvIndex
  else
    RenderVideoResult.boundAndDrew srvIndex

end D3D11VARenderer

/-! ## initialize: decoder surfaces (lines 2289-2321) -/

/-- Modelled from the spec: FFALIGN is a macro of FFmpeg's libavutil and is not
among the sources; the spec only says that surfaces are aligned to 16 or 128
pixels. The definition is the macro's, (x + a - 1) & ~(a - 1), on
two's-complement integers. -/
def FFALIGN (x a : Int) : Int :=
  Int.land (x + a - 1) (Int.lnot (a - 1))

/-- The members of AVHWFramesContext that lines 2317-2321 assign. -/
structure AVHWFramesContext where
  width : Int
  height : Int
  initial_pool_size : Nat
  deriving DecidableEq, Repr

namespace D3D11VARenderer

/-- Line 2291: m_TextureAlignment. The mask VIDEO_FORMAT_MASK_H264 is declared in
Limelight.h, which is not among the sources, and is a parameter. -/
def textureAlignment (VIDEO_FORMAT_MASK_H264 videoFormat : Nat) : Int :=
  if videoFormat &&& VIDEO_FORMAT_MASK_H264 ≠ 0 then 16 else 128

/-- Lines 2317-2321: the size and pool size requested for the decoder frames. The
width and height are those of the caller's params, not the even m_DecoderParams. -/
def initializeFramesContext (textureAlignment : Int) (params : DECODER_PARAMETERS) :
    AVHWFramesContext :=
  { width := FFALIGN params.width textureAlignment
    height := FFALIGN params.height textureAlignment
    initial_pool_size := DECODER_BUFFER_POOL_SIZE }

end D3D11VARenderer

/-! ## bindColorConversion: the recorded colorspace and range (lines 2630-2730) -/

/-- Indices of m_VideoPixelShaders (enum PixelShaders, d3d11va.h lines 37-42). -/
inductive PixelShaders where
  | GENERIC_YUV_420
  | BT_601_LIMITED_YUV_420
  | BT_2020_LIMITED_YUV_420
  | GENERIC_AYUV
  | GENERIC_Y410
  deriving DecidableEq, Repr

/-- The values of m_TextureFormat that the switch of lines 2645-2655 tells apart:
its two case labels, and every other format (the default label). -/
inductive DXGI_FORMAT where
  | DXGI_FORMAT_AYUV
  | DXGI_FORMAT_Y410
  | otherFormat
  deriving DecidableEq, Repr

/-- The three colorspace identifiers bindColorConversion compares with. They are
declared outside d3d11va.cpp, so their values are left as parameters. -/
structure ColorspaceIds where
  COLORSPACE_REC_601 : Int
  COLORSPACE_REC_709 : Int
  COLORSPACE_REC_2020 : Int
  deriving DecidableEq, Repr

/-- The two members in which bindColorConversion records the colorspace and range
of the last frame it completed (d3d11va.h lines 172-173; the constructor sets them
to -1 and false). -/
structure ColorConversionState where
  m_LastColorSpace : Int
  m_LastFullRange : Bool
  deriving DecidableEq, Repr

/-- What one call of bindColorConversion did: the recorded values it leaves, the
pixel shader it bound (none when the default label of line 2653 is taken), whether
ID3D11Device::CreateBuffer was called, whether the new buffer was bound with
PSSetConstantBuffers, and whether the call ran to an ordinary end (false for the
two error returns: an unknown colorspace at line 2694 and a failed CreateBuffer
at line 2724). -/
structure ColorConversionCall where
  state : ColorConversionState
  pixelShader : Option PixelShaders
  createBufferCalled : Bool
  constantBufferBound : Bool
  completed : Bool
  deriving DecidableEq, Repr

namespace D3D11VARenderer

/-- D3D11VARenderer::bindColorConversion (lines 2630-2730). fullRange and colorspace
are the values isFrameFullRange(frame) and getFrameColorspace(frame) return;
createBufferSucceeded is the outcome of ID3D11Device::CreateBuffer. The content of
the buffer (packCscMatrix and the offsets) does not influence the control flow and
is left out. -/
def bindColorConversion (ids : ColorspaceIds) (m_yuv444 : Bool) (m_TextureFormat : DXGI_FORMAT)
    (createBufferSucceeded : Bool) (st : ColorConversionState)
    (fullRange : Bool) (colorspace : Int) : ColorConversionCall :=
  let limited601 : Bool := !m_yuv444 && !fullRange && decide (colorspace = ids.COLORSPACE_REC_601)
  let limited2020 : Bool :=
    !m_yuv444 && !fullRange && decide (colorspace = ids.COLORSPACE_REC_2020)
  let unchanged : Bool :=
    decide (colorspace = st.m_LastColorSpace) && decide (fullRange = st.m_LastFullRange)
  let knownColorspace : Bool :=
    decide (colorspace = ids.COLORSPACE_REC_601) || decide (colorspace = ids.COLORSPACE_REC_709)
      || decide (colorspace = ids.COLORSPACE_REC_2020)
  if limited601 then
    { state := { m_LastColorSpace := colorspace, m_LastFullRange := fullRange }
      pixelShader := some PixelShaders.BT_601_LIMITED_YUV_420
      createBufferCalled := false
      constantBufferBound := false
      completed := true }
  else if limited2020 then
    { state := { m_LastColorSpace := colorspace, m_LastFullRange := fullRange }
      pixelShader := some PixelShaders.BT_2020_LIMITED_YUV_420
      createBufferCalled := false
      constantBufferBound := false
      completed := true }
  else
    let pixelShader : Option PixelShaders :=
      if m_yuv444 then
        match m_TextureFormat with
        | DXGI_FORMAT.DXGI_FORMAT_AYUV => some PixelShaders.GENERIC_AYUV
        | DXGI_FORMAT.DXGI_FORMAT_Y410 => some PixelShaders.GENERIC_Y410
        | DXGI_FORMAT.otherFormat => none
      else some PixelShaders.GENERIC_YUV_420
    if unchanged then
      { state := st
        pixelShader := pixelShader
        createBufferCalled := false
        constantBufferBound := false
        completed := true }
    else if !knownColorspace then
      { state := st
        pixelShader := pixelShader
        createBufferCalled := false
        constantBufferBound := false
        completed := false }
    else if createBufferSucceeded then
      { state := { m_LastColorSpace := colorspace, m_LastFullRange := fullRange }
        pixelShader := pixelShader
        createBufferCalled := true
        constantBufferBound := true
        completed := true }
    else
      { state := st
        pixelShader := pixelShader
        createBufferCalled := true
        constantBufferBound := false
        completed := false }

end D3D11VARenderer

/-! ## Tearing: initialize (lines 2184-2217) and renderFrame (lines 2518-2573) -/

/-- The two members the tearing branch of renderFrame reads: m_AllowTearing and
m_DecoderParams.enableVsync. -/
structure PresentState where
  m_AllowTearing : Bool
  enableVsync : Bool
  deriving DecidableEq, Repr

/-- What one run of initialize meets as far as tearing is concerned:
params->enableVsync; whether the run gets as far as line 2184 (every earlier
failure returns false); the result and the out value of
CheckFeatureSupport(DXGI_FEATURE_PRESENT_ALLOW_TEARING); and the value of the rest
of the test of lines 2211-2212 (first decoder selection pass, 8-bit format and an
exclusive full-screen window). -/
structure TearingSetup where
  enableVsync : Bool
  reachesSwapChainDesc : Bool
  checkFeatureSupportSucceeded : Bool
  allowTearing : Bool
  exclusiveFullscreenFirstPass : Bool
  deriving DecidableEq, Repr

/-- The flags and the outcome of the assertion of one Present call of renderFrame. -/
structure PresentCall where
  assertionHolds : Bool
  flags : Nat
  deriving DecidableEq, Repr

namespace D3D11VARenderer

/-- The constructor (line 129): m_AllowTearing starts false; m_DecoderParams is not
initialised there, so its vsync field is arbitrary. -/
def constructedPresentState (enableVsync : Bool) : PresentState :=
  { m_AllowTearing := false, enableVsync := enableVsync }

/-- The effect of initialize on the two members: line 2000 copies the parameters,
and lines 2186-2217 set m_AllowTearing when vsync is off and the feature is
supported. The second component tells whether initialize goes on after line 2217
(false when it returned false before). -/
def initializePresentState (st : PresentState) (p : TearingSetup) : PresentState × Bool :=
  let st : PresentState := { st with enableVsync := p.enableVsync }
  if !p.reachesSwapChainDesc then (st, false)
  else if !p.enableVsync then
    let st : PresentState :=
      if p.checkFeatureSupportSucceeded then
        if p.allowTearing then { st with m_AllowTearing := true } else st
      else st
    let fallBackToDXVA2 : Bool := !st.m_AllowTearing && p.exclusiveFullscreenFirstPass
    if fallBackToDXVA2 then (st, false) else (st, true)
  else (st, true)

/-- Lines 2518-2532 and 2573 of renderFrame: the flags handed to
IDXGISwapChain::Present(0, flags) and whether SDL_assert(!m_DecoderParams.enableVsync)
holds where it is evaluated. DXGI_PRESENT_ALLOW_TEARING is a constant of the
Windows SDK and is a parameter. renderFrame writes neither member. -/
def renderFramePresent (DXGI_PRESENT_ALLOW_TEARING : Nat) (st : PresentState) : PresentCall :=
  if st.m_AllowTearing then
    { assertionHolds := !st.enableVsync, flags := DXGI_PRESENT_ALLOW_TEARING }
  else
    { assertionHolds := true, flags := 0 }

end D3D11VARenderer

/-! ## updateDisplayHDRStatusAsync: the background probe (lines 476-505) -/

/-- The observable steps of the background task: the one-second sleep, the query
getDisplayHDRStatus(), and the queued update of m_IsDisplayHDRenabled posted to the
renderer's thread with the value obtained. -/
inductive ProbeStep where
  | sleepOneSecond
  | getDisplayHDRStatus
  | postUpdate (hdrEnabled : Bool)
  deriving DecidableEq, Repr

/-- The value of m_cancelHDRUpdate at the two moments of the task's run that the
cancellation contract speaks of: when the task reaches its sleep and when the
sleep has ended. The flag starts false (line 119) and its only assignment is
"= true" in the destructor (line 156). -/
structure CancelFlag where
  beforeSleep : Bool
  afterSleep : Bool
  deriving DecidableEq, Repr

namespace D3D11VARenderer

/-- The body of the lambda run by QtConcurrent::run (lines 483-503), as the list of
steps it performs. Before the sleep the only test is that of the local swap-chain
copy (line 486); m_cancelHDRUpdate is read once, at line 490, after the sleep. -/
def hdrProbeTask (swapChainPresent : Bool) (cancel : CancelFlag) (displayHDR : Bool) :
    List ProbeStep :=
  if !swapChainPresent then []
  else
    ProbeStep.sleepOneSecond ::
      (if cancel.afterSleep then []
       else [ProbeStep.getDisplayHDRStatus, ProbeStep.postUpdate displayHDR])

/-- D3D11VARenderer::updateDisplayHDRStatusAsync: nothing is started while the
previous task is still running (line 478); otherwise the task is run. -/
def updateDisplayHDRStatusAsync (futureIsRunning swapChainPresent : Bool) (cancel : CancelFlag)
    (displayHDR : Bool) : Option (List ProbeStep) :=
  if futureIsRunning then none
  else some (hdrProbeTask swapChainPresent cancel displayHDR)

end D3D11VARenderer

/-! ## The shader stage: where its result is copied -/

/-- Width and height of a 2D texture (D3D11_TEXTURE2D_DESC, DXGI_SWAP_CHAIN_DESC1). -/
structure TextureSize where
  Width : Int
  Height : Int
  deriving DecidableEq, Repr

/-- A D3D11_BOX. -/
structure D3D11_BOX where
  left : Int
  top : Int
  front : Int
  right : Int
  bottom : Int
  back : Int
  deriving DecidableEq, Repr

/-- The members of a D3D11VAShaders object that decide where its result goes;
m_TextureOut is described by its size. -/
structure ShaderStage where
  m_TextureOut : TextureSize
  m_OutWidth : Int
  m_OutHeight : Int
  m_OffsetTop : Int
  m_OffsetLeft : Int
  m_Enhancer : Enhancer
  m_DestBox : D3D11_BOX
  deriving DecidableEq, Repr

namespace D3D11VAShaders

/-- The constructor (d3d11va_shaders.cpp lines 12-56): the arguments are stored and
m_DestBox is the box (0, 0) - (m_OutWidth, m_OutHeight). -/
def construct (textureOut : TextureSize) (outWidth outHeight offsetTop offsetLeft : Int)
    (enhancer : Enhancer) : ShaderStage :=
  { m_TextureOut := textureOut
    m_OutWidth := outWidth
    m_OutHeight := outHeight
    m_OffsetTop := offsetTop
    m_OffsetLeft := offsetLeft
    m_Enhancer := enhancer
    m_DestBox :=
      { left := 0, top := 0, front := 0, right := outWidth, bottom := outHeight, back := 1 } }

/-- Whether draw() ends with CopySubresourceRegion into m_TextureOut: this is so in
applyFSR1, applyNIS, applyRCAS, applyUPSCALER, applyCOPY and applyTESTCS (the
compute shaders, lines 1322-1563); applyCAS and applyTESTPS draw with a pixel
shader instead and NONE does nothing. -/
def copiesToTextureOut (enhancer : Enhancer) : Bool :=
  match enhancer with
  | .FSR1 => true
  | .NIS => true
  | .NIS_HALF => true
  | .NIS_SHARPEN => true
  | .NIS_SHARPEN_HALF => true
  | .RCAS => true
  | .UPSCALER => true
  | .COPY => true
  | .TESTCS => true
  | _ => false

/-- The region of m_TextureOut that
CopySubresourceRegion(m_TextureOut, 0, m_OffsetLeft, m_OffsetTop, 0, source, 0, &m_DestBox)
writes in draw(): the source box moved to (m_OffsetLeft, m_OffsetTop); none when
the enhancer performs no such copy. -/
def draw (s : ShaderStage) : Option RECT :=
  if copiesToTextureOut s.m_Enhancer then
    some
      { left := s.m_OffsetLeft
        top := s.m_OffsetTop
        right := s.m_OffsetLeft + (s.m_DestBox.right - s.m_DestBox.left)
        bottom := s.m_OffsetTop + (s.m_DestBox.bottom - s.m_DestBox.top) }
  else none

end D3D11VAShaders

/-- Whether a region lies within a texture of the given size. -/
def regionWithinTexture (region : RECT) (size : TextureSize) : Bool :=
  decide (0 ≤ region.left ∧ 0 ≤ region.top ∧ region.left ≤ region.right
    ∧ region.top ≤ region.bottom ∧ region.right ≤ size.Width ∧ region.bottom ≤ size.Height)

namespace D3D11VARenderer

/-- The size of the back buffer: the swap chain is created with m_DisplayWidth and
m_DisplayHeight (lines 2174-2175). -/
def backBufferSize (m_DisplayWidth m_DisplayHeight : Int) : TextureSize :=
  { Width := m_DisplayWidth, Height := m_DisplayHeight }

/-- The size setupEnhancedTexture gives m_VPToneTexture (lines 4112-4114). -/
def toneTextureSize (outputTexture : TextureInfo) : TextureSize :=
  { Width := outputTexture.width, Height := outputTexture.height }

/-- Lines 2402-2417 of initialize: when the enhancer uses a shader, the shader
stage is built on the output rectangle, its destination being m_VPToneTexture when
tone mapping is on and the back buffer otherwise. -/
def setupShaders (r : D3D11VARenderer) (m_DisplayWidth m_DisplayHeight : Int) :
    Option ShaderStage :=
  if isUsingShader r.m_EnhancerType then
    some (D3D11VAShaders.construct
      (if r.m_HDRToneMapping then toneTextureSize r.m_OutputTexture
        else backBufferSize m_DisplayWidth m_DisplayHeight)
      r.m_OutputTexture.width r.m_OutputTexture.height
      r.m_OutputTexture.top r.m_OutputTexture.left r.m_EnhancerType)
  else none

/-- Whether the copy that ends the shader stage stays within its destination
texture: none when no shader stage is built or when the enhancer performs no
copy. -/
def shaderCopyWithinDestination (r : D3D11VARenderer) (m_DisplayWidth m_DisplayHeight : Int) :
    Option Bool :=
  (setupShaders r m_DisplayWidth m_DisplayHeight).bind
    (fun s => (D3D11VAShaders.draw s).map (fun region => regionWithinTexture region s.m_TextureOut))

end D3D11VARenderer

/-! ## Further concrete inputs -/

/-- The output rectangle of a 1280x720 stream in a 1920x1200 window: 1920x1080,
60 rows below the top. -/
def output1080In1200 : TextureInfo :=
  { width := 1920, height := 1080, left := 0, top := 60 }

/-- An adapter with 8 GB of shared system memory and 2030 MB of dedicated video
memory, of the given vendor. -/
def adapter2030MB (vendorId : Nat) : DXGI_ADAPTER_DESC1 :=
  { VendorId := vendorId
    DedicatedVideoMemory := 2030 * 1024 * 1024
    SharedSystemMemory := 8192 * 1024 * 1024 }

/-! ## Properties of enhanceAutoSelection -/

open D3D11VARenderer SuperResolutionMode

/-- The selection written by enhanceAutoSelection when enhancement is enabled is
the one computed by the rules in program order. -/
theorem enhanceAutoSelection_enabled_selection (r : D3D11VARenderer)
    (adapterDesc : DXGI_ADAPTER_DESC1)
    (hEnabled : r.m_VideoEnhancement.isVideoEnhancementEnabled = true) :
    (r.enhanceAutoSelection adapterDesc).m_VendorVSRenabled
        = (enabledSelection adapterDesc r (detectIntegratedGPU adapterDesc)).m_VendorVSRenabled
      ∧ (r.enhanceAutoSelection adapterDesc).m_VendorHDRenabled
        = (enabledSelection adapterDesc r (detectIntegratedGPU adapterDesc)).m_VendorHDRenabled
      ∧ (r.enhanceAutoSelection adapterDesc).m_HDRToneMapping
        = (enabledSelection adapterDesc r (detectIntegratedGPU adapterDesc)).m_HDRToneMapping
      ∧ (r.enhanceAutoSelection adapterDesc).m_2PassVideoProcessor
        = (enabledSelection adapterDesc r (detectIntegratedGPU adapterDesc)).m_2PassVideoProcessor
      ∧ (r.enhanceAutoSelection adapterDesc).m_EnhancerType
        = (enabledSelection adapterDesc r (detectIntegratedGPU adapterDesc)).m_EnhancerType := by
  simp [enhanceAutoSelection, hEnabled]

/-- The selection written by enhanceAutoSelection when enhancement is disabled. -/
theorem enhanceAutoSelection_disabled_selection (r : D3D11VARenderer)
    (adapterDesc : DXGI_ADAPTER_DESC1)
    (hDisabled : r.m_VideoEnhancement.isVideoEnhancementEnabled = false) :
    (r.enhanceAutoSelection adapterDesc).m_VendorVSRenabled = false
      ∧ (r.enhanceAutoSelection adapterDesc).m_VendorHDRenabled = false
      ∧ (r.enhanceAutoSelection adapterDesc).m_HDRToneMapping = true
      ∧ (r.enhanceAutoSelection adapterDesc).m_2PassVideoProcessor = false
      ∧ (r.enhanceAutoSelection adapterDesc).m_EnhancerType = Enhancer.NONE := by
  simp [enhanceAutoSelection, hDisabled, disabledSelection]

/-- C1: for every vendor, GPU type, display HDR status, enhancement-enabled flag
and super-resolution mode, a stream that is both 4:4:4 and HDR ends with no shader
enhancer (m_EnhancerType = NONE) and a single pass (m_2PassVideoProcessor = false). -/
theorem c1_yuv444_hdr_forces_video_processor_only (r : D3D11VARenderer)
    (adapterDesc : DXGI_ADAPTER_DESC1)
    (h444 : r.m_yuv444 = true) (hHDR : r.m_IsDecoderHDR = true) :
    (r.enhanceAutoSelection adapterDesc).m_EnhancerType = Enhancer.NONE
      ∧ (r.enhanceAutoSelection adapterDesc).m_2PassVideoProcessor = false := by
  cases hEnabled : r.m_VideoEnhancement.isVideoEnhancementEnabled
  · have h := enhanceAutoSelection_disabled_selection r adapterDesc hEnabled
    exact ⟨h.2.2.2.2, h.2.2.2.1⟩
  · have h := enhanceAutoSelection_enabled_selection r adapterDesc hEnabled
    rw [h.2.2.2.2, h.2.2.2.1]
    simp [enabledSelection, yuv444HDRSelection, h444, hHDR]

/-- C1 at a concrete input: NVIDIA RTX, forced FSR1 mode, 4:4:4 HDR stream. -/
theorem c1_yuv444_hdr_forces_video_processor_only_witness :
    (rendererWith SRM_03 true 1280 720 output1080 true true true true).m_yuv444 = true
      ∧ (rendererWith SRM_03 true 1280 720 output1080 true true true true).m_IsDecoderHDR = true
      ∧ ((rendererWith SRM_03 true 1280 720 output1080 true true true true).enhanceAutoSelection
            (discreteAdapter VENDOR_ID_NVIDIA)).m_EnhancerType = Enhancer.NONE
      ∧ ((rendererWith SRM_03 true 1280 720 output1080 true true true true).enhanceAutoSelection
            (discreteAdapter VENDOR_ID_NVIDIA)).m_2PassVideoProcessor = false :=
  ⟨rfl, rfl,
    c1_yuv444_hdr_forces_video_processor_only
      (rendererWith SRM_03 true 1280 720 output1080 true true true true)
      (discreteAdapter VENDOR_ID_NVIDIA) rfl rfl⟩

/-- C2, as stated, fails: on a discrete NVIDIA adapter, with enhancement enabled,
auto mode and an output equal to the decoder size, a 4:4:4 HDR stream ends with the
vendor super-resolution feature switched on by the 4:4:4 + HDR rule. -/
theorem c2_native_resolution_counterexample :
    (rendererWith SRM_00 true 1920 1080 output1080 true true false false).m_VideoEnhancement.isVideoEnhancementEnabled
        = true
      ∧ (rendererWith SRM_00 true 1920 1080 output1080 true true false false).m_Preferences.superResolutionMode
        = SRM_00
      ∧ (rendererWith SRM_00 true 1920 1080 output1080 true true false false).m_OutputTexture.width
        = (rendererWith SRM_00 true 1920 1080 output1080 true true false false).m_DecoderParams.width
      ∧ (rendererWith SRM_00 true 1920 1080 output1080 true true false false).m_OutputTexture.height
        = (rendererWith SRM_00 true 1920 1080 output1080 true true false false).m_DecoderParams.height
      ∧ ¬ (((rendererWith SRM_00 true 1920 1080 output1080 true true false false).enhanceAutoSelection
              (discreteAdapter VENDOR_ID_NVIDIA)).m_VendorVSRenabled = false
            ∧ isUpscaler ((rendererWith SRM_00 true 1920 1080 output1080 true true false
                false).enhanceAutoSelection (discreteAdapter VENDOR_ID_NVIDIA)).m_EnhancerType
              = false) := by
  decide

/-- C2, amended: with enhancement enabled, auto mode and output dimensions equal to
the decoder dimensions, the enhancer is NONE for every vendor, hence no upscaling
shader is selected, and the vendor super-resolution feature is on exactly when the
stream is both 4:4:4 and HDR and the adapter is not AMD (it is off in every other
case). -/
theorem c2_native_resolution_disables_upscaling (r : D3D11VARenderer)
    (adapterDesc : DXGI_ADAPTER_DESC1)
    (hEnabled : r.m_VideoEnhancement.isVideoEnhancementEnabled = true)
    (hMode : r.m_Preferences.superResolutionMode = SRM_00)
    (_hWidth : r.m_OutputTexture.width = r.m_DecoderParams.width)
    (hHeight : r.m_OutputTexture.height = r.m_DecoderParams.height) :
    (r.enhanceAutoSelection adapterDesc).m_EnhancerType = Enhancer.NONE
      ∧ isUpscaler (r.enhanceAutoSelection adapterDesc).m_EnhancerType = false
      ∧ (r.enhanceAutoSelection adapterDesc).m_VendorVSRenabled
          = (r.m_yuv444 && r.m_IsDecoderHDR && !isVendorAMD adapterDesc.VendorId) := by
  have h := enhanceAutoSelection_enabled_selection r adapterDesc hEnabled
  rw [h.2.2.2.2, h.1]
  cases h444 : r.m_yuv444 <;> cases hHDR : r.m_IsDecoderHDR <;>
    cases hAMD : isVendorAMD adapterDesc.VendorId <;>
    simp [enabledSelection, yuv444HDRSelection, nativeResolutionSelection, hMode, hHeight,
      h444, hHDR, hAMD, isUpscaler]

/-- C2 amended, at a concrete input: Intel integrated GPU, SDR 4:2:0 stream shown
at its native 1920x1080 size. -/
theorem c2_native_resolution_disables_upscaling_witness :
    ((rendererWith SRM_00 true 1920 1080 output1080 false false false false).enhanceAutoSelection
          (integratedAdapter VENDOR_ID_INTEL)).m_EnhancerType = Enhancer.NONE
      ∧ isUpscaler ((rendererWith SRM_00 true 1920 1080 output1080 false false false
            false).enhanceAutoSelection (integratedAdapter VENDOR_ID_INTEL)).m_EnhancerType = false
      ∧ ((rendererWith SRM_00 true 1920 1080 output1080 false false false false).enhanceAutoSelection
          (integratedAdapter VENDOR_ID_INTEL)).m_VendorVSRenabled
          = ((rendererWith SRM_00 true 1920 1080 output1080 false false false false).m_yuv444
              && (rendererWith SRM_00 true 1920 1080 output1080 false false false false).m_IsDecoderHDR
              && !isVendorAMD (integratedAdapter VENDOR_ID_INTEL).VendorId) :=
  c2_native_resolution_disables_upscaling
    (rendererWith SRM_00 true 1920 1080 output1080 false false false false)
    (integratedAdapter VENDOR_ID_INTEL) rfl rfl rfl rfl

/-- C3, as stated, fails: NVIDIA classified as not RTX-or-newer, enhancement
enabled, auto mode, SDR 4:2:0 stream, but shown at its native height: the
native-resolution rule replaces NIS by NONE. -/
theorem c3_nvidia_non_rtx_counterexample :
    (rendererWith SRM_00 true 1920 1080 output1080 false false false false).m_VideoEnhancement.isVideoEnhancementEnabled
        = true
      ∧ (rendererWith SRM_00 true 1920 1080 output1080 false false false false).m_Preferences.superResolutionMode
        = SRM_00
      ∧ isVendorNVIDIA (discreteAdapter VENDOR_ID_NVIDIA).VendorId = true
      ∧ (rendererWith SRM_00 true 1920 1080 output1080 false false false false).nvidiaRTXorNewer = false
      ∧ (rendererWith SRM_00 true 1920 1080 output1080 false false false false).m_IsDecoderHDR = false
      ∧ (rendererWith SRM_00 true 1920 1080 output1080 false false false false).m_yuv444 = false
      ∧ ((rendererWith SRM_00 true 1920 1080 output1080 false false false false).enhanceAutoSelection
            (discreteAdapter VENDOR_ID_NVIDIA)).m_EnhancerType ≠ Enhancer.NIS := by
  decide

/-- C3, amended: with enhancement enabled, auto mode, vendor NVIDIA classified as
not RTX-or-newer, decoder HDR off, 4:4:4 off and an output height different from
the decoder height, the NIS shader is selected with tone mapping disabled and a
single compositor pass. -/
theorem c3_nvidia_non_rtx_sdr_selects_nis (r : D3D11VARenderer)
    (adapterDesc : DXGI_ADAPTER_DESC1)
    (hEnabled : r.m_VideoEnhancement.isVideoEnhancementEnabled = true)
    (hMode : r.m_Preferences.superResolutionMode = SRM_00)
    (hNvidia : isVendorNVIDIA adapterDesc.VendorId = true)
    (hRTX : r.nvidiaRTXorNewer = false)
    (hHDR : r.m_IsDecoderHDR = false)
    (h444 : r.m_yuv444 = false)
    (hHeight : r.m_OutputTexture.height ≠ r.m_DecoderParams.height) :
    (r.enhanceAutoSelection adapterDesc).m_EnhancerType = Enhancer.NIS
      ∧ (r.enhanceAutoSelection adapterDesc).m_HDRToneMapping = false
      ∧ (r.enhanceAutoSelection adapterDesc).m_2PassVideoProcessor = false := by
  have h := enhanceAutoSelection_enabled_selection r adapterDesc hEnabled
  rw [h.2.2.2.2, h.2.2.1, h.2.2.2.1]
  have hId : adapterDesc.VendorId = 0x10DE := by
    simpa [isVendorNVIDIA, VENDOR_ID_NVIDIA] using hNvidia
  cases hDisp : r.m_IsDisplayHDRenabled <;>
    simp [enabledSelection, yuv444HDRSelection, nativeResolutionSelection, crossConstraints,
      forcedModeSelection, vendorAutoSelection, resetSelection, isVendorAMD, isVendorIntel,
      isVendorNVIDIA, VENDOR_ID_AMD, VENDOR_ID_INTEL, VENDOR_ID_NVIDIA, hId, hMode, hHeight,
      h444, hHDR, hRTX, hDisp, isUpscaler]

/-- C3 amended, at a concrete input: a 1920x1080 stream in a 2560x1440 window. -/
theorem c3_nvidia_non_rtx_sdr_selects_nis_witness :
    ((rendererWith SRM_00 true 1920 1080 output1440 false false true false).enhanceAutoSelection
          (discreteAdapter VENDOR_ID_NVIDIA)).m_EnhancerType = Enhancer.NIS
      ∧ ((rendererWith SRM_00 true 1920 1080 output1440 false false true false).enhanceAutoSelection
          (discreteAdapter VENDOR_ID_NVIDIA)).m_HDRToneMapping = false
      ∧ ((rendererWith SRM_00 true 1920 1080 output1440 false false true false).enhanceAutoSelection
          (discreteAdapter VENDOR_ID_NVIDIA)).m_2PassVideoProcessor = false :=
  c3_nvidia_non_rtx_sdr_selects_nis
    (rendererWith SRM_00 true 1920 1080 output1440 false false true false)
    (discreteAdapter VENDOR_ID_NVIDIA) rfl rfl rfl rfl rfl rfl (by decide)

/-- C4: running enhanceAutoSelection a second time on its own result, with the same
adapter description, changes nothing: the read-only members are untouched by the
first run and every written member (flags, enhancer kind, nine rectangles, six
color-space tags, three background flags) is recomputed to the same value. -/
theorem c4_enhanceAutoSelection_idempotent (r : D3D11VARenderer)
    (adapterDesc : DXGI_ADAPTER_DESC1) :
    (r.enhanceAutoSelection adapterDesc).enhanceAutoSelection adapterDesc
      = r.enhanceAutoSelection adapterDesc := by
  cases hEnabled : r.m_VideoEnhancement.isVideoEnhancementEnabled <;>
    simp [enhanceAutoSelection, enabledSelection, hEnabled]

/-- C5: when video enhancement is disabled, whatever the vendor, mode and stream:
vendor super-resolution off, vendor HDR simulation off, single pass, enhancer NONE
(neither an upscaler nor a sharpener) and m_HDRToneMapping = true. -/
theorem c5_disabled_bypasses_pipeline (r : D3D11VARenderer)
    (adapterDesc : DXGI_ADAPTER_DESC1)
    (hDisabled : r.m_VideoEnhancement.isVideoEnhancementEnabled = false) :
    (r.enhanceAutoSelection adapterDesc).m_VendorVSRenabled = false
      ∧ (r.enhanceAutoSelection adapterDesc).m_VendorHDRenabled = false
      ∧ (r.enhanceAutoSelection adapterDesc).m_2PassVideoProcessor = false
      ∧ (r.enhanceAutoSelection adapterDesc).m_EnhancerType = Enhancer.NONE
      ∧ isUpscaler (r.enhanceAutoSelection adapterDesc).m_EnhancerType = false
      ∧ isSharpener (r.enhanceAutoSelection adapterDesc).m_EnhancerType = false
      ∧ (r.enhanceAutoSelection adapterDesc).m_HDRToneMapping = true := by
  have h := enhanceAutoSelection_disabled_selection r adapterDesc hDisabled
  refine ⟨h.1, h.2.1, h.2.2.2.1, h.2.2.2.2, ?_, ?_, h.2.2.1⟩
  · rw [h.2.2.2.2]; rfl
  · rw [h.2.2.2.2]; rfl

/-- C5 at a concrete input: NVIDIA RTX, forced driver mode, HDR stream, enhancement
disabled. -/
theorem c5_disabled_bypasses_pipeline_witness :
    (rendererWith SRM_01 false 1280 720 output1080 true false true true).m_VideoEnhancement.isVideoEnhancementEnabled
        = false
      ∧ ((rendererWith SRM_01 false 1280 720 output1080 true false true true).enhanceAutoSelection
            (discreteAdapter VENDOR_ID_NVIDIA)).m_VendorVSRenabled = false
      ∧ ((rendererWith SRM_01 false 1280 720 output1080 true false true true).enhanceAutoSelection
            (discreteAdapter VENDOR_ID_NVIDIA)).m_VendorHDRenabled = false
      ∧ ((rendererWith SRM_01 false 1280 720 output1080 true false true true).enhanceAutoSelection
            (discreteAdapter VENDOR_ID_NVIDIA)).m_2PassVideoProcessor = false
      ∧ ((rendererWith SRM_01 false 1280 720 output1080 true false true true).enhanceAutoSelection
            (discreteAdapter VENDOR_ID_NVIDIA)).m_EnhancerType = Enhancer.NONE
      ∧ isUpscaler ((rendererWith SRM_01 false 1280 720 output1080 true false true
            true).enhanceAutoSelection (discreteAdapter VENDOR_ID_NVIDIA)).m_EnhancerType = false
      ∧ isSharpener ((rendererWith SRM_01 false 1280 720 output1080 true false true
            true).enhanceAutoSelection (discreteAdapter VENDOR_ID_NVIDIA)).m_EnhancerType = false
      ∧ ((rendererWith SRM_01 false 1280 720 output1080 true false true true).enhanceAutoSelection
            (discreteAdapter VENDOR_ID_NVIDIA)).m_HDRToneMapping = true :=
  ⟨rfl, c5_disabled_bypasses_pipeline
      (rendererWith SRM_01 false 1280 720 output1080 true false true true)
      (discreteAdapter VENDOR_ID_NVIDIA) rfl⟩

/-- After the cross constraints, the native-resolution rule and the 4:4:4 + HDR
rule, whatever selection entered them: vendor HDR simulation is on only for an SDR
stream on an HDR display, and tone mapping is on only for an HDR stream with
vendor HDR simulation off. -/
theorem final_rules_hdr_and_tone (mode : SuperResolutionMode) (vendorId : Nat)
    (outputHeight decoderHeight : Int) (isDecoderHDR isDisplayHDRenabled yuv444 : Bool)
    (s : EnhancementSelection) :
    ((yuv444HDRSelection vendorId yuv444 isDecoderHDR
        (nativeResolutionSelection mode outputHeight decoderHeight isDecoderHDR
          (crossConstraints isDecoderHDR isDisplayHDRenabled s))).m_VendorHDRenabled = true
        → isDecoderHDR = false ∧ isDisplayHDRenabled = true)
      ∧ ((yuv444HDRSelection vendorId yuv444 isDecoderHDR
        (nativeResolutionSelection mode outputHeight decoderHeight isDecoderHDR
          (crossConstraints isDecoderHDR isDisplayHDRenabled s))).m_HDRToneMapping = true
        → isDecoderHDR = true
          ∧ (yuv444HDRSelection vendorId yuv444 isDecoderHDR
              (nativeResolutionSelection mode outputHeight decoderHeight isDecoderHDR
                (crossConstraints isDecoderHDR isDisplayHDRenabled s))).m_VendorHDRenabled
            = false) := by
  obtain ⟨vsr, hdrSim, tone, twoPass, enhancer⟩ := s
  by_cases hNative : mode = SRM_00 ∧ outputHeight = decoderHeight <;>
    cases isDecoderHDR <;> cases isDisplayHDRenabled <;> cases yuv444 <;>
    cases vsr <;> cases hdrSim <;> cases tone <;> cases hUp : isUpscaler enhancer <;>
    simp [yuv444HDRSelection, nativeResolutionSelection, crossConstraints, hNative, hUp]

/-- C6: in every configuration produced by enhanceAutoSelection, vendor SDR to HDR
simulation (m_VendorHDRenabled) is on only if the decoder stream is not HDR and the
client display has HDR enabled. -/
theorem c6_vendor_hdr_only_for_sdr_stream_on_hdr_display (r : D3D11VARenderer)
    (adapterDesc : DXGI_ADAPTER_DESC1)
    (hOn : (r.enhanceAutoSelection adapterDesc).m_VendorHDRenabled = true) :
    r.m_IsDecoderHDR = false ∧ r.m_IsDisplayHDRenabled = true := by
  cases hEnabled : r.m_VideoEnhancement.isVideoEnhancementEnabled
  · have h := enhanceAutoSelection_disabled_selection r adapterDesc hEnabled
    rw [h.2.1] at hOn
    exact absurd hOn (by decide)
  · have h := enhanceAutoSelection_enabled_selection r adapterDesc hEnabled
    rw [h.2.1] at hOn
    exact (final_rules_hdr_and_tone _ _ _ _ _ _ _ _).1 hOn

/-- C6 at a concrete input where the simulation is on: NVIDIA not RTX-or-newer,
SDR stream, HDR display, auto mode, 1920x1080 in a 2560x1440 window. -/
theorem c6_vendor_hdr_only_for_sdr_stream_on_hdr_display_witness :
    ((rendererWith SRM_00 true 1920 1080 output1440 false false true false).enhanceAutoSelection
          (discreteAdapter VENDOR_ID_NVIDIA)).m_VendorHDRenabled = true
      ∧ (rendererWith SRM_00 true 1920 1080 output1440 false false true false).m_IsDecoderHDR = false
      ∧ (rendererWith SRM_00 true 1920 1080 output1440 false false true false).m_IsDisplayHDRenabled
          = true :=
  ⟨by decide,
    c6_vendor_hdr_only_for_sdr_stream_on_hdr_display
      (rendererWith SRM_00 true 1920 1080 output1440 false false true false)
      (discreteAdapter VENDOR_ID_NVIDIA) (by decide)⟩

/-- C7: in every configuration produced by enhanceAutoSelection with video
enhancement enabled, m_HDRToneMapping is on only if the decoder stream is HDR and
vendor HDR simulation is off; it is off for every SDR stream. -/
theorem c7_tone_mapping_only_for_hdr_stream (r : D3D11VARenderer)
    (adapterDesc : DXGI_ADAPTER_DESC1)
    (hEnabled : r.m_VideoEnhancement.isVideoEnhancementEnabled = true) :
    ((r.enhanceAutoSelection adapterDesc).m_HDRToneMapping = true
        → r.m_IsDecoderHDR = true
          ∧ (r.enhanceAutoSelection adapterDesc).m_VendorHDRenabled = false)
      ∧ (r.m_IsDecoderHDR = false
        → (r.enhanceAutoSelection adapterDesc).m_HDRToneMapping = false) := by
  have h := enhanceAutoSelection_enabled_selection r adapterDesc hEnabled
  rw [h.2.2.1, h.2.1]
  have hTone := (final_rules_hdr_and_tone r.m_Preferences.superResolutionMode
    adapterDesc.VendorId r.m_OutputTexture.height r.m_DecoderParams.height r.m_IsDecoderHDR
    r.m_IsDisplayHDRenabled r.m_yuv444
    (forcedModeSelection r.m_Preferences.superResolutionMode adapterDesc.VendorId
      r.m_IsDecoderHDR
      (vendorAutoSelection adapterDesc.VendorId (detectIntegratedGPU adapterDesc)
        r.nvidiaRTXorNewer r.m_IsDecoderHDR resetSelection))).2
  refine ⟨hTone, ?_⟩
  intro hSDR
  cases hT : (enabledSelection adapterDesc r (detectIntegratedGPU adapterDesc)).m_HDRToneMapping
  · rfl
  · have := (hTone hT).1
    rw [hSDR] at this
    exact absurd this (by decide)

/-- C7 at a concrete input where tone mapping is on: AMD, HDR 4:2:0 stream, auto
mode, 1280x720 in a 1920x1080 window. -/
theorem c7_tone_mapping_only_for_hdr_stream_witness :
    ((rendererWith SRM_00 true 1280 720 output1080 true false false false).enhanceAutoSelection
          (discreteAdapter VENDOR_ID_AMD)).m_HDRToneMapping = true
      ∧ (rendererWith SRM_00 true 1280 720 output1080 true false false false).m_IsDecoderHDR = true
      ∧ ((rendererWith SRM_00 true 1280 720 output1080 true false false false).enhanceAutoSelection
          (discreteAdapter VENDOR_ID_AMD)).m_VendorHDRenabled = false :=
  ⟨by decide,
    (c7_tone_mapping_only_for_hdr_stream
      (rendererWith SRM_00 true 1280 720 output1080 true false false false)
      (discreteAdapter VENDOR_ID_AMD) rfl).1 (by decide)⟩

/-- C8: in every two-pass configuration produced by enhanceAutoSelection, the
second stage reads what the extension stage writes: m_InputColorSpace equals
m_OutputColorSpaceExt, and m_SourceRect equals m_DestRectExt, both being the full
output-texture size at the origin. -/
theorem c8_two_pass_second_stage_matches_first (r : D3D11VARenderer)
    (adapterDesc : DXGI_ADAPTER_DESC1)
    (hTwoPass : (r.enhanceAutoSelection adapterDesc).m_2PassVideoProcessor = true) :
    (r.enhanceAutoSelection adapterDesc).m_InputColorSpace
        = (r.enhanceAutoSelection adapterDesc).m_OutputColorSpaceExt
      ∧ (r.enhanceAutoSelection adapterDesc).m_SourceRect
        = (r.enhanceAutoSelection adapterDesc).m_DestRectExt
      ∧ (r.enhanceAutoSelection adapterDesc).m_DestRectExt
        = { left := 0, top := 0, right := r.m_OutputTexture.width,
            bottom := r.m_OutputTexture.height } := by
  cases hEnabled : r.m_VideoEnhancement.isVideoEnhancementEnabled
  · have h := enhanceAutoSelection_disabled_selection r adapterDesc hEnabled
    rw [h.2.2.2.1] at hTwoPass
    exact absurd hTwoPass (by decide)
  · have h := enhanceAutoSelection_enabled_selection r adapterDesc hEnabled
    rw [h.2.2.2.1] at hTwoPass
    simp [enhanceAutoSelection, hEnabled, defineColorSpaces, defineRectangles, hTwoPass]

/-- C8 at a concrete two-pass input: NVIDIA RTX, SDR stream, auto mode, 1920x1080 in
a 2560x1440 window. -/
theorem c8_two_pass_second_stage_matches_first_witness :
    ((rendererWith SRM_00 true 1920 1080 output1440 false false false true).enhanceAutoSelection
          (discreteAdapter VENDOR_ID_NVIDIA)).m_2PassVideoProcessor = true
      ∧ ((rendererWith SRM_00 true 1920 1080 output1440 false false false true).enhanceAutoSelection
          (discreteAdapter VENDOR_ID_NVIDIA)).m_InputColorSpace
        = ((rendererWith SRM_00 true 1920 1080 output1440 false false false
            true).enhanceAutoSelection (discreteAdapter VENDOR_ID_NVIDIA)).m_OutputColorSpaceExt
      ∧ ((rendererWith SRM_00 true 1920 1080 output1440 false false false true).enhanceAutoSelection
          (discreteAdapter VENDOR_ID_NVIDIA)).m_SourceRect
        = ((rendererWith SRM_00 true 1920 1080 output1440 false false false
            true).enhanceAutoSelection (discreteAdapter VENDOR_ID_NVIDIA)).m_DestRectExt
      ∧ ((rendererWith SRM_00 true 1920 1080 output1440 false false false true).enhanceAutoSelection
          (discreteAdapter VENDOR_ID_NVIDIA)).m_DestRectExt
        = { left := 0, top := 0,
            right := (rendererWith SRM_00 true 1920 1080 output1440 false false false
              true).m_OutputTexture.width,
            bottom := (rendererWith SRM_00 true 1920 1080 output1440 false false false
              true).m_OutputTexture.height } :=
  ⟨by decide,
    c8_two_pass_second_stage_matches_first
      (rendererWith SRM_00 true 1920 1080 output1440 false false false true)
      (discreteAdapter VENDOR_ID_NVIDIA) (by decide)⟩

/-- In every configuration produced by enhanceAutoSelection in which a shader
enhancer and tone mapping are both selected, the main stage declares an RGB output
tag and the tone stage a YCbCr input tag. -/
theorem shader_and_tone_stage_tags (r : D3D11VARenderer) (adapterDesc : DXGI_ADAPTER_DESC1)
    (hShader : isUsingShader (r.enhanceAutoSelection adapterDesc).m_EnhancerType = true)
    (hTone : (r.enhanceAutoSelection adapterDesc).m_HDRToneMapping = true) :
    (r.enhanceAutoSelection adapterDesc).m_OutputColorSpace
        = DXGI_COLOR_SPACE_RGB_FULL_G2084_NONE_P2020
      ∧ (r.enhanceAutoSelection adapterDesc).m_InputColorSpaceTone
        = DXGI_COLOR_SPACE_YCBCR_STUDIO_G2084_LEFT_P2020 := by
  cases hEnabled : r.m_VideoEnhancement.isVideoEnhancementEnabled
  · have h := enhanceAutoSelection_disabled_selection r adapterDesc hEnabled
    rw [h.2.2.2.2] at hShader
    exact absurd hShader (by decide)
  · have hC7 := (final_rules_hdr_and_tone r.m_Preferences.superResolutionMode
      adapterDesc.VendorId r.m_OutputTexture.height r.m_DecoderParams.height r.m_IsDecoderHDR
      r.m_IsDisplayHDRenabled r.m_yuv444
      (forcedModeSelection r.m_Preferences.superResolutionMode adapterDesc.VendorId
        r.m_IsDecoderHDR
        (vendorAutoSelection adapterDesc.VendorId (detectIntegratedGPU adapterDesc)
          r.nvidiaRTXorNewer r.m_IsDecoderHDR resetSelection))).2
    have h := enhanceAutoSelection_enabled_selection r adapterDesc hEnabled
    rw [h.2.2.2.2] at hShader
    rw [h.2.2.1] at hTone
    have hHDR : r.m_IsDecoderHDR = true := (hC7 hTone).1
    have h444 : r.m_yuv444 = false := by
      cases h4 : r.m_yuv444
      · rfl
      · simp [enabledSelection, yuv444HDRSelection, h4, hHDR] at hTone
    simp [enhanceAutoSelection, hEnabled, defineColorSpaces, hShader, hTone, hHDR, h444]

/-- C9, the code at a failing input: AMD, enhancement enabled, auto mode, HDR 4:2:0
stream of 1280x720 shown at 1920x1080. The NIS shader and tone mapping are both
selected, the main stage declares the RGB tag for its output and the tone stage
declares a YCbCr tag for its input, so the two tags differ. -/
theorem c9_tone_stage_input_tag_differs_from_main_output :
    isUsingShader ((rendererWith SRM_00 true 1280 720 output1080 true false false
          false).enhanceAutoSelection (discreteAdapter VENDOR_ID_AMD)).m_EnhancerType = true
      ∧ ((rendererWith SRM_00 true 1280 720 output1080 true false false false).enhanceAutoSelection
          (discreteAdapter VENDOR_ID_AMD)).m_HDRToneMapping = true
      ∧ ((rendererWith SRM_00 true 1280 720 output1080 true false false false).enhanceAutoSelection
          (discreteAdapter VENDOR_ID_AMD)).m_OutputColorSpace
        = DXGI_COLOR_SPACE_RGB_FULL_G2084_NONE_P2020
      ∧ ((rendererWith SRM_00 true 1280 720 output1080 true false false false).enhanceAutoSelection
          (discreteAdapter VENDOR_ID_AMD)).m_InputColorSpaceTone
        = DXGI_COLOR_SPACE_YCBCR_STUDIO_G2084_LEFT_P2020
      ∧ ((rendererWith SRM_00 true 1280 720 output1080 true false false false).enhanceAutoSelection
          (discreteAdapter VENDOR_ID_AMD)).m_InputColorSpaceTone
        ≠ ((rendererWith SRM_00 true 1280 720 output1080 true false false
            false).enhanceAutoSelection (discreteAdapter VENDOR_ID_AMD)).m_OutputColorSpace := by
  decide

/-- C10, as stated, fails: on AMD with an HDR 4:2:0 stream of 1280x720 shown at
1920x1080, auto mode and the forced mode SRM_02 agree on the four flags (decoder
HDR, vendor HDR simulation, two-pass, 4:4:4) but give different m_OutputColorSpace
tags, because auto mode selects a shader and SRM_02 does not. -/
theorem c10_color_space_tags_counterexample :
    (rendererWith SRM_00 true 1280 720 output1080 true false false false).m_VideoEnhancement.isVideoEnhancementEnabled
        = true
      ∧ (rendererWith SRM_02 true 1280 720 output1080 true false false false).m_VideoEnhancement.isVideoEnhancementEnabled
        = true
      ∧ ((rendererWith SRM_00 true 1280 720 output1080 true false false false).enhanceAutoSelection
          (discreteAdapter VENDOR_ID_AMD)).m_IsDecoderHDR
        = ((rendererWith SRM_02 true 1280 720 output1080 true false false
            false).enhanceAutoSelection (discreteAdapter VENDOR_ID_AMD)).m_IsDecoderHDR
      ∧ ((rendererWith SRM_00 true 1280 720 output1080 true false false false).enhanceAutoSelection
          (discreteAdapter VENDOR_ID_AMD)).m_VendorHDRenabled
        = ((rendererWith SRM_02 true 1280 720 output1080 true false false
            false).enhanceAutoSelection (discreteAdapter VENDOR_ID_AMD)).m_VendorHDRenabled
      ∧ ((rendererWith SRM_00 true 1280 720 output1080 true false false false).enhanceAutoSelection
          (discreteAdapter VENDOR_ID_AMD)).m_2PassVideoProcessor
        = ((rendererWith SRM_02 true 1280 720 output1080 true false false
            false).enhanceAutoSelection (discreteAdapter VENDOR_ID_AMD)).m_2PassVideoProcessor
      ∧ ((rendererWith SRM_00 true 1280 720 output1080 true false false false).enhanceAutoSelection
          (discreteAdapter VENDOR_ID_AMD)).m_yuv444
        = ((rendererWith SRM_02 true 1280 720 output1080 true false false
            false).enhanceAutoSelection (discreteAdapter VENDOR_ID_AMD)).m_yuv444
      ∧ ((rendererWith SRM_00 true 1280 720 output1080 true false false false).enhanceAutoSelection
          (discreteAdapter VENDOR_ID_AMD)).m_OutputColorSpace
        ≠ ((rendererWith SRM_02 true 1280 720 output1080 true false false
            false).enhanceAutoSelection (discreteAdapter VENDOR_ID_AMD)).m_OutputColorSpace := by
  decide

/-- C10, amended: for two enhancement-enabled configurations that agree on the four
flags (decoder HDR, vendor HDR simulation active, two-pass active, 4:4:4 active),
the tags m_InputColorSpaceExt, m_OutputColorSpaceExt, m_InputColorSpace,
m_InputColorSpaceTone and m_OutputColorSpaceTone are identical; m_OutputColorSpace
is identical as soon as the two also agree on m_HDRToneMapping and on whether a
shader is used. -/
theorem c10_color_space_tags_determined_by_flags (r₁ r₂ : D3D11VARenderer)
    (adapterDesc₁ adapterDesc₂ : DXGI_ADAPTER_DESC1)
    (hEnabled₁ : r₁.m_VideoEnhancement.isVideoEnhancementEnabled = true)
    (hEnabled₂ : r₂.m_VideoEnhancement.isVideoEnhancementEnabled = true)
    (hHDR : (r₁.enhanceAutoSelection adapterDesc₁).m_IsDecoderHDR
      = (r₂.enhanceAutoSelection adapterDesc₂).m_IsDecoderHDR)
    (hSim : (r₁.enhanceAutoSelection adapterDesc₁).m_VendorHDRenabled
      = (r₂.enhanceAutoSelection adapterDesc₂).m_VendorHDRenabled)
    (hTwoPass : (r₁.enhanceAutoSelection adapterDesc₁).m_2PassVideoProcessor
      = (r₂.enhanceAutoSelection adapterDesc₂).m_2PassVideoProcessor)
    (h444 : (r₁.enhanceAutoSelection adapterDesc₁).m_yuv444
      = (r₂.enhanceAutoSelection adapterDesc₂).m_yuv444) :
    (r₁.enhanceAutoSelection adapterDesc₁).m_InputColorSpaceExt
        = (r₂.enhanceAutoSelection adapterDesc₂).m_InputColorSpaceExt
      ∧ (r₁.enhanceAutoSelection adapterDesc₁).m_OutputColorSpaceExt
        = (r₂.enhanceAutoSelection adapterDesc₂).m_OutputColorSpaceExt
      ∧ (r₁.enhanceAutoSelection adapterDesc₁).m_InputColorSpace
        = (r₂.enhanceAutoSelection adapterDesc₂).m_InputColorSpace
      ∧ (r₁.enhanceAutoSelection adapterDesc₁).m_InputColorSpaceTone
        = (r₂.enhanceAutoSelection adapterDesc₂).m_InputColorSpaceTone
      ∧ (r₁.enhanceAutoSelection adapterDesc₁).m_OutputColorSpaceTone
        = (r₂.enhanceAutoSelection adapterDesc₂).m_OutputColorSpaceTone
      ∧ ((r₁.enhanceAutoSelection adapterDesc₁).m_HDRToneMapping
            = (r₂.enhanceAutoSelection adapterDesc₂).m_HDRToneMapping
          → isUsingShader (r₁.enhanceAutoSelection adapterDesc₁).m_EnhancerType
            = isUsingShader (r₂.enhanceAutoSelection adapterDesc₂).m_EnhancerType
          → (r₁.enhanceAutoSelection adapterDesc₁).m_OutputColorSpace
            = (r₂.enhanceAutoSelection adapterDesc₂).m_OutputColorSpace) := by
  simp only [enhanceAutoSelection, hEnabled₁, hEnabled₂, Bool.not_true, Bool.false_eq_true,
    if_false] at hHDR hSim hTwoPass h444 ⊢
  generalize enabledSelection adapterDesc₁ r₁ (detectIntegratedGPU adapterDesc₁) = s₁
    at hSim hTwoPass ⊢
  generalize enabledSelection adapterDesc₂ r₂ (detectIntegratedGPU adapterDesc₂) = s₂
    at hSim hTwoPass ⊢
  simp only [defineColorSpaces, hHDR, hSim, hTwoPass, h444]
  refine ⟨trivial, trivial, trivial, trivial, trivial, ?_⟩
  intro hTone hShader
  rw [hTone, hShader]

/-- C10 amended, at a concrete pair: AMD discrete (1280x720 at 1920x1080, SDR
display) and Intel integrated (1920x1080 at 2560x1440, HDR display), both with an
HDR 4:2:0 stream in auto mode; they agree on the four flags, on tone mapping and on
shader use, and all six tags coincide. -/
theorem c10_color_space_tags_determined_by_flags_witness :
    ((rendererWith SRM_00 true 1280 720 output1080 true false false false).enhanceAutoSelection
          (discreteAdapter VENDOR_ID_AMD)).m_InputColorSpaceExt
        = ((rendererWith SRM_00 true 1920 1080 output1440 true false true false).enhanceAutoSelection
          (integratedAdapter VENDOR_ID_INTEL)).m_InputColorSpaceExt
      ∧ ((rendererWith SRM_00 true 1280 720 output1080 true false false false).enhanceAutoSelection
          (discreteAdapter VENDOR_ID_AMD)).m_OutputColorSpaceExt
        = ((rendererWith SRM_00 true 1920 1080 output1440 true false true false).enhanceAutoSelection
          (integratedAdapter VENDOR_ID_INTEL)).m_OutputColorSpaceExt
      ∧ ((rendererWith SRM_00 true 1280 720 output1080 true false false false).enhanceAutoSelection
          (discreteAdapter VENDOR_ID_AMD)).m_InputColorSpace
        = ((rendererWith SRM_00 true 1920 1080 output1440 true false true false).enhanceAutoSelection
          (integratedAdapter VENDOR_ID_INTEL)).m_InputColorSpace
      ∧ ((rendererWith SRM_00 true 1280 720 output1080 true false false false).enhanceAutoSelection
          (discreteAdapter VENDOR_ID_AMD)).m_InputColorSpaceTone
        = ((rendererWith SRM_00 true 1920 1080 output1440 true false true false).enhanceAutoSelection
          (integratedAdapter VENDOR_ID_INTEL)).m_InputColorSpaceTone
      ∧ ((rendererWith SRM_00 true 1280 720 output1080 true false false false).enhanceAutoSelection
          (discreteAdapter VENDOR_ID_AMD)).m_OutputColorSpaceTone
        = ((rendererWith SRM_00 true 1920 1080 output1440 true false true false).enhanceAutoSelection
          (integratedAdapter VENDOR_ID_INTEL)).m_OutputColorSpaceTone
      ∧ ((rendererWith SRM_00 true 1280 720 output1080 true false false false).enhanceAutoSelection
          (discreteAdapter VENDOR_ID_AMD)).m_OutputColorSpace
        = ((rendererWith SRM_00 true 1920 1080 output1440 true false true false).enhanceAutoSelection
          (integratedAdapter VENDOR_ID_INTEL)).m_OutputColorSpace :=
  have h := c10_color_space_tags_determined_by_flags
    (rendererWith SRM_00 true 1280 720 output1080 true false false false)
    (rendererWith SRM_00 true 1920 1080 output1440 true false true false)
    (discreteAdapter VENDOR_ID_AMD) (integratedAdapter VENDOR_ID_INTEL)
    rfl rfl (by decide) (by decide) (by decide) (by decide)
  ⟨h.1, h.2.1, h.2.2.1, h.2.2.2.1, h.2.2.2.2.1, h.2.2.2.2.2 (by decide) (by decide)⟩

/-! ## Forced modes and vendor defaults -/

/-- The vendor default leaves m_VendorHDRenabled set exactly for NVIDIA with an SDR
stream, whatever the integrated-GPU and RTX classifications are. -/
theorem vendorAutoSelection_vendorHDR (vendorId : Nat)
    (isIntegratedGPU rtxOrNewer isDecoderHDR : Bool) :
    (vendorAutoSelection vendorId isIntegratedGPU rtxOrNewer isDecoderHDR
        resetSelection).m_VendorHDRenabled
      = (!isVendorAMD vendorId && !isVendorIntel vendorId && isVendorNVIDIA vendorId
          && !isDecoderHDR) := by
  cases hA : isVendorAMD vendorId <;> cases hI : isVendorIntel vendorId <;>
    cases hN : isVendorNVIDIA vendorId <;> cases isIntegratedGPU <;> cases rtxOrNewer <;>
    cases isDecoderHDR <;> simp [vendorAutoSelection, resetSelection, hA, hI, hN]

/-- A forced mode reads the selection it is given only through m_VendorHDRenabled. -/
theorem forcedModeSelection_congr (mode : SuperResolutionMode) (vendorId : Nat)
    (isDecoderHDR : Bool) (s₁ s₂ : EnhancementSelection) (hForced : mode ≠ SRM_00)
    (hSim : s₁.m_VendorHDRenabled = s₂.m_VendorHDRenabled) :
    forcedModeSelection mode vendorId isDecoderHDR s₁
      = forcedModeSelection mode vendorId isDecoderHDR s₂ := by
  cases mode <;> simp_all [forcedModeSelection]

/-- C11: with enhancement enabled and a forced mode (SRM_01 to SRM_13), for fixed
vendor, stream flags, display HDR status and sizes, the four flags and the enhancer
kind that enhanceAutoSelection writes do not depend on the integrated-GPU
classification (the memory sizes of the adapter description) nor on the
RTX-or-newer classification. -/
theorem c11_forced_mode_ignores_gpu_classification (r : D3D11VARenderer)
    (adapterDesc₁ adapterDesc₂ : DXGI_ADAPTER_DESC1) (rtxOrNewer₂ : Bool)
    (hEnabled : r.m_VideoEnhancement.isVideoEnhancementEnabled = true)
    (hForced : r.m_Preferences.superResolutionMode ≠ SRM_00)
    (hVendor : adapterDesc₁.VendorId = adapterDesc₂.VendorId) :
    (r.enhanceAutoSelection adapterDesc₁).m_VendorVSRenabled
        = (({ r with nvidiaRTXorNewer := rtxOrNewer₂ } : D3D11VARenderer).enhanceAutoSelection
            adapterDesc₂).m_VendorVSRenabled
      ∧ (r.enhanceAutoSelection adapterDesc₁).m_VendorHDRenabled
        = (({ r with nvidiaRTXorNewer := rtxOrNewer₂ } : D3D11VARenderer).enhanceAutoSelection
            adapterDesc₂).m_VendorHDRenabled
      ∧ (r.enhanceAutoSelection adapterDesc₁).m_HDRToneMapping
        = (({ r with nvidiaRTXorNewer := rtxOrNewer₂ } : D3D11VARenderer).enhanceAutoSelection
            adapterDesc₂).m_HDRToneMapping
      ∧ (r.enhanceAutoSelection adapterDesc₁).m_2PassVideoProcessor
        = (({ r with nvidiaRTXorNewer := rtxOrNewer₂ } : D3D11VARenderer).enhanceAutoSelection
            adapterDesc₂).m_2PassVideoProcessor
      ∧ (r.enhanceAutoSelection adapterDesc₁).m_EnhancerType
        = (({ r with nvidiaRTXorNewer := rtxOrNewer₂ } : D3D11VARenderer).enhanceAutoSelection
            adapterDesc₂).m_EnhancerType := by
  have h₁ := enhanceAutoSelection_enabled_selection r adapterDesc₁ hEnabled
  have h₂ := enhanceAutoSelection_enabled_selection
    ({ r with nvidiaRTXorNewer := rtxOrNewer₂ } : D3D11VARenderer) adapterDesc₂ hEnabled
  have hSel : enabledSelection adapterDesc₁ r (detectIntegratedGPU adapterDesc₁)
      = enabledSelection adapterDesc₂ ({ r with nvidiaRTXorNewer := rtxOrNewer₂ } : D3D11VARenderer)
          (detectIntegratedGPU adapterDesc₂) := by
    simp only [enabledSelection, hVendor]
    rw [forcedModeSelection_congr r.m_Preferences.superResolutionMode adapterDesc₂.VendorId
      r.m_IsDecoderHDR
      (vendorAutoSelection adapterDesc₂.VendorId (detectIntegratedGPU adapterDesc₁)
        r.nvidiaRTXorNewer r.m_IsDecoderHDR resetSelection)
      (vendorAutoSelection adapterDesc₂.VendorId (detectIntegratedGPU adapterDesc₂)
        rtxOrNewer₂ r.m_IsDecoderHDR resetSelection) hForced
      (by rw [vendorAutoSelection_vendorHDR, vendorAutoSelection_vendorHDR])]
  rw [h₁.1, h₁.2.1, h₁.2.2.1, h₁.2.2.2.1, h₁.2.2.2.2, h₂.1, h₂.2.1, h₂.2.2.1, h₂.2.2.2.1,
    h₂.2.2.2.2, hSel]
  exact ⟨rfl, rfl, rfl, rfl, rfl⟩

/-- C11 at a concrete input: NVIDIA, forced NIS sharpener (SRM_06), SDR stream on an
HDR display, once as a discrete non-RTX adapter and once as an integrated RTX one. -/
theorem c11_forced_mode_ignores_gpu_classification_witness :
    ((rendererWith SRM_06 true 1920 1080 output1440 false false true false).enhanceAutoSelection
          (discreteAdapter VENDOR_ID_NVIDIA)).m_VendorVSRenabled
        = (({ (rendererWith SRM_06 true 1920 1080 output1440 false false true false) with
              nvidiaRTXorNewer := true } : D3D11VARenderer).enhanceAutoSelection
            (integratedAdapter VENDOR_ID_NVIDIA)).m_VendorVSRenabled
      ∧ ((rendererWith SRM_06 true 1920 1080 output1440 false false true false).enhanceAutoSelection
          (discreteAdapter VENDOR_ID_NVIDIA)).m_VendorHDRenabled
        = (({ (rendererWith SRM_06 true 1920 1080 output1440 false false true false) with
              nvidiaRTXorNewer := true } : D3D11VARenderer).enhanceAutoSelection
            (integratedAdapter VENDOR_ID_NVIDIA)).m_VendorHDRenabled
      ∧ ((rendererWith SRM_06 true 1920 1080 output1440 false false true false).enhanceAutoSelection
          (discreteAdapter VENDOR_ID_NVIDIA)).m_HDRToneMapping
        = (({ (rendererWith SRM_06 true 1920 1080 output1440 false false true false) with
              nvidiaRTXorNewer := true } : D3D11VARenderer).enhanceAutoSelection
            (integratedAdapter VENDOR_ID_NVIDIA)).m_HDRToneMapping
      ∧ ((rendererWith SRM_06 true 1920 1080 output1440 false false true false).enhanceAutoSelection
          (discreteAdapter VENDOR_ID_NVIDIA)).m_2PassVideoProcessor
        = (({ (rendererWith SRM_06 true 1920 1080 output1440 false false true false) with
              nvidiaRTXorNewer := true } : D3D11VARenderer).enhanceAutoSelection
            (integratedAdapter VENDOR_ID_NVIDIA)).m_2PassVideoProcessor
      ∧ ((rendererWith SRM_06 true 1920 1080 output1440 false false true false).enhanceAutoSelection
          (discreteAdapter VENDOR_ID_NVIDIA)).m_EnhancerType
        = (({ (rendererWith SRM_06 true 1920 1080 output1440 false false true false) with
              nvidiaRTXorNewer := true } : D3D11VARenderer).enhanceAutoSelection
            (integratedAdapter VENDOR_ID_NVIDIA)).m_EnhancerType :=
  c11_forced_mode_ignores_gpu_classification
    (rendererWith SRM_06 true 1920 1080 output1440 false false true false)
    (discreteAdapter VENDOR_ID_NVIDIA) (integratedAdapter VENDOR_ID_NVIDIA) true
    rfl (by decide) rfl

/-- C12, as stated, fails: an NVIDIA adapter that the memory test classifies as
integrated (128 MB dedicated, 8 GB shared), not RTX-or-newer, enhancement enabled,
auto mode, SDR 4:2:0 stream of 1920x1080 shown at 2560x1440: the NVIDIA branch has
no integrated case and selects NIS, not CAS. -/
theorem c12_integrated_gpu_counterexample :
    detectIntegratedGPU (integratedAdapter VENDOR_ID_NVIDIA) = true
      ∧ (rendererWith SRM_00 true 1920 1080 output1440 false false false false).m_VideoEnhancement.isVideoEnhancementEnabled
        = true
      ∧ (rendererWith SRM_00 true 1920 1080 output1440 false false false false).m_Preferences.superResolutionMode
        = SRM_00
      ∧ (rendererWith SRM_00 true 1920 1080 output1440 false false false false).m_IsDecoderHDR = false
      ∧ (rendererWith SRM_00 true 1920 1080 output1440 false false false false).m_yuv444 = false
      ∧ (rendererWith SRM_00 true 1920 1080 output1440 false false false false).m_OutputTexture.height
        ≠ (rendererWith SRM_00 true 1920 1080 output1440 false false false false).m_DecoderParams.height
      ∧ ((rendererWith SRM_00 true 1920 1080 output1440 false false false false).enhanceAutoSelection
            (integratedAdapter VENDOR_ID_NVIDIA)).m_IsIntegratedGPU = true
      ∧ ((rendererWith SRM_00 true 1920 1080 output1440 false false false false).enhanceAutoSelection
            (integratedAdapter VENDOR_ID_NVIDIA)).m_EnhancerType ≠ Enhancer.CAS := by
  decide

/-- C12, amended: for an integrated GPU of vendor AMD or Intel, with enhancement
enabled, auto mode, an SDR 4:2:0 stream and an output height different from the
decoder height, the selection is the single-pass compositor pipeline followed by
the CAS sharpening shader: m_EnhancerType = CAS, m_2PassVideoProcessor = false and
m_VendorVSRenabled = false. -/
theorem c12_amd_intel_integrated_gpu_selects_cas (r : D3D11VARenderer)
    (adapterDesc : DXGI_ADAPTER_DESC1)
    (hEnabled : r.m_VideoEnhancement.isVideoEnhancementEnabled = true)
    (hMode : r.m_Preferences.superResolutionMode = SRM_00)
    (hVendor : isVendorAMD adapterDesc.VendorId = true
      ∨ isVendorIntel adapterDesc.VendorId = true)
    (hIntegrated : detectIntegratedGPU adapterDesc = true)
    (hHDR : r.m_IsDecoderHDR = false)
    (h444 : r.m_yuv444 = false)
    (hHeight : r.m_OutputTexture.height ≠ r.m_DecoderParams.height) :
    (r.enhanceAutoSelection adapterDesc).m_IsIntegratedGPU = true
      ∧ (r.enhanceAutoSelection adapterDesc).m_EnhancerType = Enhancer.CAS
      ∧ (r.enhanceAutoSelection adapterDesc).m_2PassVideoProcessor = false
      ∧ (r.enhanceAutoSelection adapterDesc).m_VendorVSRenabled = false := by
  have h := enhanceAutoSelection_enabled_selection r adapterDesc hEnabled
  rw [h.2.2.2.2, h.2.2.2.1, h.1]
  refine ⟨by simp [enhanceAutoSelection, hEnabled, hIntegrated], ?_⟩
  cases hDisp : r.m_IsDisplayHDRenabled <;> rcases hVendor with hAMD | hIntel
  all_goals
    cases hA : isVendorAMD adapterDesc.VendorId <;>
    simp_all [enabledSelection, yuv444HDRSelection, nativeResolutionSelection, crossConstraints,
      forcedModeSelection, vendorAutoSelection, resetSelection, isUpscaler]

/-- C12 amended, at a concrete input: Intel integrated adapter, 1920x1080 SDR stream
shown at 2560x1440. -/
theorem c12_amd_intel_integrated_gpu_selects_cas_witness :
    ((rendererWith SRM_00 true 1920 1080 output1440 false false false false).enhanceAutoSelection
          (integratedAdapter VENDOR_ID_INTEL)).m_IsIntegratedGPU = true
      ∧ ((rendererWith SRM_00 true 1920 1080 output1440 false false false false).enhanceAutoSelection
          (integratedAdapter VENDOR_ID_INTEL)).m_EnhancerType = Enhancer.CAS
      ∧ ((rendererWith SRM_00 true 1920 1080 output1440 false false false false).enhanceAutoSelection
          (integratedAdapter VENDOR_ID_INTEL)).m_2PassVideoProcessor = false
      ∧ ((rendererWith SRM_00 true 1920 1080 output1440 false false false false).enhanceAutoSelection
          (integratedAdapter VENDOR_ID_INTEL)).m_VendorVSRenabled = false :=
  c12_amd_intel_integrated_gpu_selects_cas
    (rendererWith SRM_00 true 1920 1080 output1440 false false false false)
    (integratedAdapter VENDOR_ID_INTEL) rfl rfl (Or.inr (by decide)) (by decide) rfl rfl
    (by decide)

/-- C13, as stated, fails: an adapter whose vendor is none of AMD, Intel and NVIDIA
(here the identifier 0x4D4F4351), enhancement enabled, auto mode, HDR 4:2:0 stream
of 1280x720 shown at 1920x1080: no vendor branch applies, the reset values stay, and
neither a shader upscaler nor tone mapping is selected. -/
theorem c13_hdr_stream_counterexample :
    isVendorNVIDIA (discreteAdapter 0x4D4F4351).VendorId = false
      ∧ (rendererWith SRM_00 true 1280 720 output1080 true false false false).m_VideoEnhancement.isVideoEnhancementEnabled
        = true
      ∧ (rendererWith SRM_00 true 1280 720 output1080 true false false false).m_Preferences.superResolutionMode
        = SRM_00
      ∧ (rendererWith SRM_00 true 1280 720 output1080 true false false false).m_IsDecoderHDR = true
      ∧ (rendererWith SRM_00 true 1280 720 output1080 true false false false).m_yuv444 = false
      ∧ (rendererWith SRM_00 true 1280 720 output1080 true false false false).m_OutputTexture.height
        ≠ (rendererWith SRM_00 true 1280 720 output1080 true false false false).m_DecoderParams.height
      ∧ isUpscaler ((rendererWith SRM_00 true 1280 720 output1080 true false false false).enhanceAutoSelection
            (discreteAdapter 0x4D4F4351)).m_EnhancerType = false
      ∧ ((rendererWith SRM_00 true 1280 720 output1080 true false false false).enhanceAutoSelection
            (discreteAdapter 0x4D4F4351)).m_HDRToneMapping = false := by
  decide

/-- C13, amended: for vendor AMD, Intel, or NVIDIA not classified RTX-or-newer, with
enhancement enabled, auto mode, an HDR 4:2:0 stream and an output height different
from the decoder height, the NIS shader is selected, which is an upscaler
(isUpscaler(m_EnhancerType) = true), with m_HDRToneMapping = true. -/
theorem c13_hdr_stream_selects_shader_upscaler (r : D3D11VARenderer)
    (adapterDesc : DXGI_ADAPTER_DESC1)
    (hEnabled : r.m_VideoEnhancement.isVideoEnhancementEnabled = true)
    (hMode : r.m_Preferences.superResolutionMode = SRM_00)
    (hVendor : isVendorAMD adapterDesc.VendorId = true
      ∨ isVendorIntel adapterDesc.VendorId = true
      ∨ (isVendorNVIDIA adapterDesc.VendorId = true ∧ r.nvidiaRTXorNewer = false))
    (hHDR : r.m_IsDecoderHDR = true)
    (h444 : r.m_yuv444 = false)
    (hHeight : r.m_OutputTexture.height ≠ r.m_DecoderParams.height) :
    (r.enhanceAutoSelection adapterDesc).m_EnhancerType = Enhancer.NIS
      ∧ isUpscaler (r.enhanceAutoSelection adapterDesc).m_EnhancerType = true
      ∧ (r.enhanceAutoSelection adapterDesc).m_HDRToneMapping = true := by
  have h := enhanceAutoSelection_enabled_selection r adapterDesc hEnabled
  rw [h.2.2.2.2, h.2.2.1]
  cases hDisp : r.m_IsDisplayHDRenabled <;>
    cases hIGPU : detectIntegratedGPU adapterDesc <;>
    cases hA : isVendorAMD adapterDesc.VendorId <;>
    cases hI : isVendorIntel adapterDesc.VendorId <;>
    simp_all [enabledSelection, yuv444HDRSelection, nativeResolutionSelection, crossConstraints,
      forcedModeSelection, vendorAutoSelection, resetSelection, isUpscaler]

/-- C13 amended, at a concrete input: NVIDIA not RTX-or-newer, HDR 1280x720 stream
shown at 1920x1080. -/
theorem c13_hdr_stream_selects_shader_upscaler_witness :
    ((rendererWith SRM_00 true 1280 720 output1080 true false false false).enhanceAutoSelection
          (discreteAdapter VENDOR_ID_NVIDIA)).m_EnhancerType = Enhancer.NIS
      ∧ isUpscaler ((rendererWith SRM_00 true 1280 720 output1080 true false false false).enhanceAutoSelection
          (discreteAdapter VENDOR_ID_NVIDIA)).m_EnhancerType = true
      ∧ ((rendererWith SRM_00 true 1280 720 output1080 true false false false).enhanceAutoSelection
          (discreteAdapter VENDOR_ID_NVIDIA)).m_HDRToneMapping = true :=
  c13_hdr_stream_selects_shader_upscaler
    (rendererWith SRM_00 true 1280 720 output1080 true false false false)
    (discreteAdapter VENDOR_ID_NVIDIA) rfl rfl (Or.inr (Or.inr ⟨by decide, rfl⟩)) rfl rfl
    (by decide)

/-! ## Packing of the conversion matrix -/

/-- C14: for every raw row-major 3x3 matrix, the packing loop of bindColorConversion
gives a 12-element buffer with packed[i * 4 + j] = raw[j * 3 + i] for all i, j in
0..2, so that reading index i * 4 + j returns each of the nine values, and the
three padding slots packed[3], packed[7] and packed[11] are zero. -/
theorem c14_packed_matrix_is_padded_transpose {α : Type} [Zero α]
    (rawCscMatrix : Fin 9 → α) :
    (∀ i j : Fin 3,
        packCscMatrix rawCscMatrix ⟨i.val * 4 + j.val, by omega⟩
          = rawCscMatrix ⟨j.val * 3 + i.val, by omega⟩)
      ∧ (∀ k : Fin 9,
        packCscMatrix rawCscMatrix ⟨(k.val % 3) * 4 + k.val / 3, by omega⟩ = rawCscMatrix k)
      ∧ packCscMatrix rawCscMatrix 3 = 0
      ∧ packCscMatrix rawCscMatrix 7 = 0
      ∧ packCscMatrix rawCscMatrix 11 = 0 := by
  refine ⟨?_, ?_, rfl, rfl, rfl⟩
  · intro i j
    fin_cases i <;> fin_cases j <;> rfl
  · intro k
    fin_cases k <;> rfl

/-! ## Clearing low bits of two's-complement integers -/

/-- Clearing the k low bits of a natural number. -/
theorem nat_ldiff_two_pow_sub_one (n k : Nat) :
    Nat.ldiff n (2 ^ k - 1) = 2 ^ k * (n / 2 ^ k) := by
  apply Nat.eq_of_testBit_eq
  intro i
  rw [Nat.testBit_ldiff, Nat.testBit_two_pow_sub_one]
  have h := Nat.testBit_mul_pow_two_add (n / 2 ^ k) (Nat.two_pow_pos k) i
  rw [Nat.add_zero] at h
  rw [h]
  by_cases hi : i < k
  · simp [hi]
  · simp only [hi, decide_False, Bool.not_false, Bool.and_true, if_false]
    rw [← Nat.shiftRight_eq_div_pow, Nat.testBit_shiftRight]
    congr 1
    omega

/-- Setting the k low bits of a natural number. -/
theorem nat_lor_two_pow_sub_one (n k : Nat) :
    n ||| (2 ^ k - 1) = 2 ^ k * (n / 2 ^ k) + (2 ^ k - 1) := by
  apply Nat.eq_of_testBit_eq
  intro i
  rw [Nat.testBit_or, Nat.testBit_two_pow_sub_one]
  have hlt : 2 ^ k - 1 < 2 ^ k := Nat.sub_lt (Nat.two_pow_pos k) (by decide)
  rw [Nat.testBit_mul_pow_two_add (n / 2 ^ k) hlt i]
  by_cases hi : i < k
  · simp [hi]
  · simp only [hi, decide_False, Bool.or_false, if_false]
    rw [← Nat.shiftRight_eq_div_pow, Nat.testBit_shiftRight]
    congr 1
    omega

/-- On two's-complement integers, x & ~(2 ^ k - 1) is x rounded down to a multiple
of 2 ^ k. -/
theorem int_land_lnot_two_pow_sub_one (x : Int) (k : Nat) :
    Int.land x (Int.lnot (((2 ^ k - 1 : Nat) : Int))) = x - x % ((2 ^ k : Nat) : Int) := by
  have hp : (0 : Nat) < 2 ^ k := Nat.two_pow_pos k
  cases x with
  | ofNat n =>
    show ((Nat.ldiff n (2 ^ k - 1) : Nat) : Int) = _
    rw [nat_ldiff_two_pow_sub_one]
    generalize 2 ^ k = p at hp ⊢
    have h1 := Int.emod_add_ediv (n : Int) (p : Int)
    simp only [Int.ofNat_eq_coe]
    push_cast
    omega
  | negSucc n =>
    show Int.negSucc (n ||| (2 ^ k - 1)) = _
    rw [nat_lor_two_pow_sub_one]
    generalize 2 ^ k = p at hp ⊢
    have hpos : (0 : Int) < (p : Int) := by exact_mod_cast hp
    rw [Int.negSucc_emod n hpos, Int.negSucc_eq, Int.negSucc_eq]
    have h1 := Int.emod_add_ediv (n : Int) (p : Int)
    push_cast [Nat.cast_sub hp]
    omega

/-- The C expression x & ~1 is x - x % 2. -/
theorem int_land_lnot_one (x : Int) : Int.land x (Int.lnot 1) = x - x % 2 := by
  have h := int_land_lnot_two_pow_sub_one x 1
  simpa using h

/-- The C expression x & ~15 is x - x % 16. -/
theorem int_land_lnot_15 (x : Int) : Int.land x (Int.lnot 15) = x - x % 16 := by
  have h := int_land_lnot_two_pow_sub_one x 4
  simpa using h

/-- The C expression x & ~127 is x - x % 128. -/
theorem int_land_lnot_127 (x : Int) : Int.land x (Int.lnot 127) = x - x % 128 := by
  have h := int_land_lnot_two_pow_sub_one x 7
  simpa using h

/-! ## Rounding to binary32 -/

/-- Rounding an integer gives that integer. -/
theorem roundHalfEven_intCast (z : Int) : roundHalfEven (z : ℚ) = z := by
  simp [roundHalfEven]

/-- Rounding to the nearest integer moves a number by at most one half. -/
theorem roundHalfEven_error (y : ℚ) : |((roundHalfEven y : Int) : ℚ) - y| ≤ 1 / 2 := by
  have h1 := Int.floor_le y
  have h2 := Int.lt_floor_add_one y
  unfold roundHalfEven
  split_ifs with a b c <;> rw [abs_le] <;> constructor <;> push_cast <;> linarith

/-- Rounding to the nearest integer is monotone. -/
theorem roundHalfEven_mono {y₁ y₂ : ℚ} (h : y₁ ≤ y₂) : roundHalfEven y₁ ≤ roundHalfEven y₂ := by
  rcases eq_or_lt_of_le h with h | h
  · rw [h]
  · by_contra hc
    push_neg at hc
    have h1 := abs_le.mp (roundHalfEven_error y₁)
    have h2 := abs_le.mp (roundHalfEven_error y₂)
    have h3 : ((roundHalfEven y₂ : Int) : ℚ) + 1 ≤ (roundHalfEven y₁ : Int) := by exact_mod_cast hc
    linarith [h1.1, h1.2, h2.1, h2.2]

/-- The spacing is positive. -/
theorem binary32Quantum_pos (x : ℚ) : 0 < binary32Quantum x := by
  unfold binary32Quantum
  positivity

/-- Zero is a binary32 value. -/
theorem roundToBinary32_zero : roundToBinary32 0 = 0 := by
  simp [roundToBinary32, roundHalfEven]

/-- Rounding to binary32 moves a number by at most half the spacing. -/
theorem roundToBinary32_error (x : ℚ) : |roundToBinary32 x - x| ≤ binary32Quantum x / 2 := by
  have hq := binary32Quantum_pos x
  have h := roundHalfEven_error (x / binary32Quantum x)
  unfold roundToBinary32
  have e : (roundHalfEven (x / binary32Quantum x) : ℚ) * binary32Quantum x - x
      = ((roundHalfEven (x / binary32Quantum x) : ℚ) - x / binary32Quantum x)
        * binary32Quantum x := by
    field_simp
  rw [e, abs_mul, abs_of_pos hq]
  calc |((roundHalfEven (x / binary32Quantum x) : Int) : ℚ) - x / binary32Quantum x|
        * binary32Quantum x ≤ 1 / 2 * binary32Quantum x := mul_le_mul_of_nonneg_right h hq.le
    _ = binary32Quantum x / 2 := by ring

/-- In the normal range the spacing is 2 ^ (e - 23), where e is the binary exponent of
x. -/
theorem binary32Quantum_eq_of_normal {x : ℚ} (hx : (2 : ℚ) ^ (-126 : ℤ) ≤ x) :
    binary32Quantum x = (2 : ℚ) ^ (Int.log 2 x - 23) ∧ (2 : ℚ) ^ (Int.log 2 x) ≤ x
      ∧ x < (2 : ℚ) ^ (Int.log 2 x + 1) := by
  have hpos : 0 < x := lt_of_lt_of_le (by positivity) hx
  have h1 : ((2 : ℕ) : ℚ) ^ (Int.log 2 x) ≤ x := Int.zpow_log_le_self (by norm_num) hpos
  have h2 : x < ((2 : ℕ) : ℚ) ^ (Int.log 2 x + 1) := Int.lt_zpow_succ_log_self (by norm_num) x
  have h3 : (-126 : ℤ) ≤ Int.log 2 x := by
    rw [← Int.zpow_le_iff_le_log (by norm_num) hpos]
    exact_mod_cast hx
  refine ⟨?_, by exact_mod_cast h1, by exact_mod_cast h2⟩
  unfold binary32Quantum
  rw [abs_of_pos hpos, max_eq_left h3]

/-- In the normal range the spacing is at most x / 2 ^ 23. -/
theorem binary32Quantum_le {x : ℚ} (hx : (2 : ℚ) ^ (-126 : ℤ) ≤ x) :
    binary32Quantum x ≤ x / 2 ^ 23 := by
  obtain ⟨hq, h1, _⟩ := binary32Quantum_eq_of_normal hx
  rw [hq, zpow_sub₀ (by norm_num : (2 : ℚ) ≠ 0)]
  have : ((2 : ℚ) ^ (23 : ℤ)) = 2 ^ 23 := by norm_num
  rw [this]
  exact div_le_div_of_nonneg_right h1 (by positivity)

/-- Rounding to binary32 has a relative error of at most 2 ^ (-24), for zero and for
every positive number of the normal range. -/
theorem roundToBinary32_rel {x : ℚ} (hx : x = 0 ∨ (2 : ℚ) ^ (-126 : ℤ) ≤ x) :
    x * (1 - 1 / 2 ^ 24) ≤ roundToBinary32 x ∧ roundToBinary32 x ≤ x * (1 + 1 / 2 ^ 24) := by
  rcases hx with h | h
  · subst h
    simp [roundToBinary32_zero]
  · have h1 := abs_le.mp (roundToBinary32_error x)
    have h2 := binary32Quantum_le h
    constructor <;> linarith [h1.1, h1.2]

/-- A positive number lies below 2 ^ 24 spacings and its rounding does not exceed them.
-/
theorem roundToBinary32_le_top {x : ℚ} (hpos : 0 < x) :
    x < 2 ^ 24 * binary32Quantum x ∧ roundToBinary32 x ≤ 2 ^ 24 * binary32Quantum x := by
  have hq := binary32Quantum_pos x
  have h2 : x < ((2 : ℕ) : ℚ) ^ (Int.log 2 x + 1) := Int.lt_zpow_succ_log_self (by norm_num) x
  have h2' : x < (2 : ℚ) ^ (Int.log 2 x + 1) := by exact_mod_cast h2
  have hle : (2 : ℚ) ^ (Int.log 2 x + 1) ≤ 2 ^ 24 * binary32Quantum x := by
    unfold binary32Quantum
    rw [abs_of_pos hpos]
    have h24 : (2 : ℚ) ^ 24 = (2 : ℚ) ^ (24 : ℤ) := by norm_num
    rw [h24, ← zpow_add₀ (by norm_num : (2 : ℚ) ≠ 0)]
    apply zpow_le_zpow_right₀ (by norm_num)
    have := le_max_left (Int.log 2 x) (-126)
    omega
  have hx : x < 2 ^ 24 * binary32Quantum x := lt_of_lt_of_le h2' hle
  refine ⟨hx, ?_⟩
  have hdiv : x / binary32Quantum x ≤ (((2 ^ 24 : Int) : ℚ)) := by
    rw [div_le_iff₀ hq]
    push_cast
    exact hx.le
  have hr := roundHalfEven_mono hdiv
  rw [roundHalfEven_intCast] at hr
  unfold roundToBinary32
  have hr' : ((roundHalfEven (x / binary32Quantum x) : Int) : ℚ) ≤ 2 ^ 24 := by exact_mod_cast hr
  exact mul_le_mul_of_nonneg_right hr' hq.le

/-- A number of the normal range is at least 2 ^ 23 spacings and so is its rounding. -/
theorem roundToBinary32_ge_bottom {x : ℚ} (hx : (2 : ℚ) ^ (-126 : ℤ) ≤ x) :
    2 ^ 23 * binary32Quantum x ≤ x ∧ 2 ^ 23 * binary32Quantum x ≤ roundToBinary32 x := by
  have hq := binary32Quantum_pos x
  obtain ⟨hqe, h1, _⟩ := binary32Quantum_eq_of_normal hx
  have hle : 2 ^ 23 * binary32Quantum x ≤ x := by
    rw [hqe]
    have h23 : (2 : ℚ) ^ 23 = (2 : ℚ) ^ (23 : ℤ) := by norm_num
    rw [h23, ← zpow_add₀ (by norm_num : (2 : ℚ) ≠ 0)]
    have : (23 : ℤ) + (Int.log 2 x - 23) = Int.log 2 x := by ring
    rw [this]
    exact h1
  refine ⟨hle, ?_⟩
  have hdiv : (((2 ^ 23 : Int) : ℚ)) ≤ x / binary32Quantum x := by
    rw [le_div_iff₀ hq]
    push_cast
    exact hle
  have hr := roundHalfEven_mono hdiv
  rw [roundHalfEven_intCast] at hr
  unfold roundToBinary32
  have hr' : (2 : ℚ) ^ 23 ≤ ((roundHalfEven (x / binary32Quantum x) : Int) : ℚ) := by
    exact_mod_cast hr
  exact mul_le_mul_of_nonneg_right hr' hq.le

/-- Rounding a non-negative number gives a non-negative number. -/
theorem roundToBinary32_nonneg {x : ℚ} (hx : 0 ≤ x) : 0 ≤ roundToBinary32 x := by
  have hq := binary32Quantum_pos x
  have hdiv : (((0 : Int) : ℚ)) ≤ x / binary32Quantum x := by
    push_cast
    exact div_nonneg hx hq.le
  have hr := roundHalfEven_mono hdiv
  rw [roundHalfEven_intCast] at hr
  unfold roundToBinary32
  have hr' : (0 : ℚ) ≤ ((roundHalfEven (x / binary32Quantum x) : Int) : ℚ) := by
    exact_mod_cast hr
  exact mul_nonneg hr' hq.le

/-- Rounding to binary32 is monotone on non-negative numbers. -/
theorem roundToBinary32_mono {x y : ℚ} (hx : 0 ≤ x) (hxy : x ≤ y) :
    roundToBinary32 x ≤ roundToBinary32 y := by
  rcases eq_or_lt_of_le hx with h0 | hpos
  · rw [← h0, roundToBinary32_zero]
    exact roundToBinary32_nonneg (le_trans hx hxy)
  · have hy : 0 < y := lt_of_lt_of_le hpos hxy
    have hlog : Int.log 2 x ≤ Int.log 2 y := Int.log_mono_right hpos hxy
    have hqx : binary32Quantum x = (2 : ℚ) ^ (max (Int.log 2 x) (-126) - 23) := by
      unfold binary32Quantum; rw [abs_of_pos hpos]
    have hqy : binary32Quantum y = (2 : ℚ) ^ (max (Int.log 2 y) (-126) - 23) := by
      unfold binary32Quantum; rw [abs_of_pos hy]
    have hmax : max (Int.log 2 x) (-126) ≤ max (Int.log 2 y) (-126) := max_le_max hlog le_rfl
    rcases eq_or_lt_of_le hmax with heq | hlt
    · have hq : binary32Quantum x = binary32Quantum y := by rw [hqx, hqy, heq]
      have hqpos := binary32Quantum_pos y
      unfold roundToBinary32
      rw [hq]
      have hdiv : x / binary32Quantum y ≤ y / binary32Quantum y :=
        div_le_div_of_nonneg_right hxy hqpos.le
      have hr := roundHalfEven_mono hdiv
      have hr' : ((roundHalfEven (x / binary32Quantum y) : Int) : ℚ)
          ≤ ((roundHalfEven (y / binary32Quantum y) : Int) : ℚ) := by exact_mod_cast hr
      exact mul_le_mul_of_nonneg_right hr' hqpos.le
    · have hny : (-126 : ℤ) ≤ Int.log 2 y := by
        by_contra hc
        push_neg at hc
        have h1 : max (Int.log 2 y) (-126) = -126 := max_eq_right hc.le
        have h2 := le_max_right (Int.log 2 x) (-126)
        omega
      have hynorm : (2 : ℚ) ^ (-126 : ℤ) ≤ y := by
        have := (Int.zpow_le_iff_le_log (R := ℚ) (b := 2) (by norm_num) hy (x := -126)).mpr hny
        exact_mod_cast this
      have h1 := (roundToBinary32_le_top hpos).2
      have h2 := (roundToBinary32_ge_bottom hynorm).2
      have h3 : 2 ^ 24 * binary32Quantum x ≤ 2 ^ 23 * binary32Quantum y := by
        rw [hqx, hqy]
        have h24 : (2 : ℚ) ^ 24 = (2 : ℚ) ^ (24 : ℤ) := by norm_num
        have h23 : (2 : ℚ) ^ 23 = (2 : ℚ) ^ (23 : ℤ) := by norm_num
        rw [h24, h23, ← zpow_add₀ (by norm_num : (2 : ℚ) ≠ 0),
          ← zpow_add₀ (by norm_num : (2 : ℚ) ≠ 0)]
        apply zpow_le_zpow_right₀ (by norm_num)
        omega
      linarith

/-- Integers of magnitude below 2 ^ 24 are binary32 values. -/
theorem roundToBinary32_intCast (n : Int) (hn : |n| < 2 ^ 24) :
    roundToBinary32 (n : ℚ) = n := by
  rcases eq_or_ne n 0 with h0 | h0
  · subst h0
    simpa using roundToBinary32_zero
  · have habs : (1 : ℚ) ≤ |(n : ℚ)| := by
      have : (1 : Int) ≤ |n| := Int.one_le_abs h0
      exact_mod_cast this
    have hpos : (0 : ℚ) < |(n : ℚ)| := lt_of_lt_of_le one_pos habs
    have hlt : |(n : ℚ)| < (2 : ℚ) ^ (24 : ℤ) := by
      have : ((|n| : Int) : ℚ) < ((2 ^ 24 : Int) : ℚ) := by exact_mod_cast hn
      push_cast at this
      exact_mod_cast this
    have hlo : (0 : ℤ) ≤ Int.log 2 |(n : ℚ)| := by
      rw [← Int.zpow_le_iff_le_log (by norm_num) hpos]
      simpa using habs
    have hhi : Int.log 2 |(n : ℚ)| < 24 := by
      rw [← Int.lt_zpow_iff_log_lt (by norm_num) hpos]
      exact_mod_cast hlt
    obtain ⟨k, hk⟩ : ∃ k : ℕ, Int.log 2 |(n : ℚ)| - 23 = -(k : ℤ) :=
      ⟨(23 - Int.log 2 |(n : ℚ)|).toNat, by omega⟩
    have hq : binary32Quantum (n : ℚ) = ((2 : ℚ) ^ k)⁻¹ := by
      unfold binary32Quantum
      rw [max_eq_left (by omega), hk, zpow_neg, zpow_natCast]
    have hdiv : (n : ℚ) / binary32Quantum (n : ℚ) = ((n * 2 ^ k : Int) : ℚ) := by
      rw [hq]
      push_cast
      field_simp
    unfold roundToBinary32
    rw [hdiv, roundHalfEven_intCast, hq]
    push_cast
    field_simp

/-- The nearest integer, given an integer at distance less than one half. -/
theorem roundHalfEven_of_near (y : ℚ) (n : Int) (h : |y - n| < 1 / 2) : roundHalfEven y = n := by
  have hy := abs_lt.mp h
  have he := abs_le.mp (roundHalfEven_error y)
  have h1 : ((roundHalfEven y : Int) : ℚ) < (n : ℚ) + 1 := by linarith [he.2, hy.2]
  have h2 : (n : ℚ) - 1 < ((roundHalfEven y : Int) : ℚ) := by linarith [he.1, hy.1]
  have h1' : roundHalfEven y < n + 1 := by exact_mod_cast h1
  have h2' : n - 1 < roundHalfEven y := by exact_mod_cast h2
  omega

/-- The spacing around a positive number whose binary exponent is known. -/
theorem binary32Quantum_eval (x : ℚ) (e : Int) (he : -126 ≤ e)
    (h1 : (2 : ℚ) ^ e ≤ x) (h2 : x < (2 : ℚ) ^ (e + 1)) :
    binary32Quantum x = (2 : ℚ) ^ (e - 23) := by
  have hpos : (0 : ℚ) < x := lt_of_lt_of_le (by positivity) h1
  have hlog : Int.log 2 x = e := by
    apply le_antisymm
    · have : Int.log 2 x < e + 1 := by
        rw [← Int.lt_zpow_iff_log_lt (by norm_num) hpos]
        exact_mod_cast h2
      omega
    · rw [← Int.zpow_le_iff_le_log (by norm_num) hpos]
      exact_mod_cast h1
  unfold binary32Quantum
  rw [abs_of_pos hpos, hlog, max_eq_left he]

/-- The binary32 value nearest to a positive number, from its binary exponent and the
nearest multiple of the spacing. -/
theorem roundToBinary32_eval (x q : ℚ) (e n : Int) (he : -126 ≤ e)
    (h1 : (2 : ℚ) ^ e ≤ x) (h2 : x < (2 : ℚ) ^ (e + 1))
    (hq : (2 : ℚ) ^ (e - 23) = q)
    (hn : roundHalfEven (x / q) = n) :
    roundToBinary32 x = n * q := by
  unfold roundToBinary32
  rw [binary32Quantum_eval x e he h1 h2, hq, hn]

/-- No overflow: zero and the numbers from 2 ^ (-126) to 2 ^ 100 round to a finite
float. -/
theorem ofRat_of_range {x : ℚ} (h0 : x = 0 ∨ (2 : ℚ) ^ (-126 : ℤ) ≤ x) (h1 : x ≤ 2 ^ 100) :
    Binary32.ofRat x = Binary32.finite (roundToBinary32 x) := by
  have hx : 0 ≤ x := by
    rcases h0 with h | h
    · rw [h]
    · exact le_trans (by positivity) h
  have hr := roundToBinary32_rel h0
  have hn := roundToBinary32_nonneg hx
  unfold Binary32.ofRat
  rw [if_neg]
  rw [abs_of_nonneg hn]
  push_neg
  have : roundToBinary32 x ≤ 2 ^ 100 * (1 + 1 / 2 ^ 24) := by
    refine le_trans hr.2 ?_
    exact mul_le_mul_of_nonneg_right h1 (by norm_num)
  refine lt_of_le_of_lt this ?_
  norm_num

/-- The conversion static_cast<float> is exact on integers of magnitude below 2 ^ 24. -/
theorem ofRat_intCast (n : Int) (hn : |n| < 2 ^ 24) :
    Binary32.ofRat (n : ℚ) = Binary32.finite n := by
  unfold Binary32.ofRat
  rw [roundToBinary32_intCast n hn, if_neg]
  push_neg
  have h1 : ((|n| : Int) : ℚ) < ((2 ^ 24 : Int) : ℚ) := by exact_mod_cast hn
  push_cast at h1
  refine lt_trans h1 ?_
  norm_num

/-- The float quotient of a size a by a positive size b, both below 2 ^ 22: it is the
rounding of a / b, zero or at least 2 ^ (-23), at most 2 ^ 23, and within a relative
error of 2 ^ (-24) of a / b. -/
theorem float32_ratio (a b : Int) (ha : 0 ≤ a) (ha2 : a < 2 ^ 22) (hb : 0 < b)
    (hb2 : b < 2 ^ 22) :
    Binary32.div (Binary32.ofRat (a : ℚ)) (Binary32.ofRat (b : ℚ))
        = Binary32.finite (roundToBinary32 ((a : ℚ) / b))
      ∧ (roundToBinary32 ((a : ℚ) / b) = 0 ∨ 1 / 2 ^ 23 ≤ roundToBinary32 ((a : ℚ) / b))
      ∧ roundToBinary32 ((a : ℚ) / b) ≤ 2 ^ 23
      ∧ (a : ℚ) / b * (1 - 1 / 2 ^ 24) ≤ roundToBinary32 ((a : ℚ) / b)
      ∧ roundToBinary32 ((a : ℚ) / b) ≤ (a : ℚ) / b * (1 + 1 / 2 ^ 24) := by
  have hbq : (0 : ℚ) < (b : ℚ) := by exact_mod_cast hb
  have hbq2 : (b : ℚ) < 2 ^ 22 := by exact_mod_cast hb2
  have haq : (0 : ℚ) ≤ (a : ℚ) := by exact_mod_cast ha
  have haq2 : (a : ℚ) < 2 ^ 22 := by exact_mod_cast ha2
  have hb1 : (1 : ℚ) ≤ (b : ℚ) := by exact_mod_cast hb
  have hle : (a : ℚ) / b ≤ 2 ^ 22 := by
    rw [div_le_iff₀ hbq]
    nlinarith
  have h0 : (a : ℚ) / b = 0 ∨ (2 : ℚ) ^ (-126 : ℤ) ≤ (a : ℚ) / b := by
    rcases eq_or_lt_of_le ha with h | h
    · left; rw [← h]; simp
    · right
      have ha1 : (1 : ℚ) ≤ (a : ℚ) := by exact_mod_cast h
      rw [le_div_iff₀ hbq]
      have : (2 : ℚ) ^ (-126 : ℤ) * b ≤ 1 := by
        have h126 : (2 : ℚ) ^ (-126 : ℤ) = 1 / 2 ^ 126 := by
          rw [zpow_neg, one_div]; norm_cast
        rw [h126]
        have : (b : ℚ) ≤ 2 ^ 126 := le_trans hbq2.le (by norm_num)
        rw [div_mul_eq_mul_div, one_mul, div_le_one (by positivity)]
        exact this
      linarith
  have hrel := roundToBinary32_rel h0
  have hdiv : Binary32.div (Binary32.ofRat (a : ℚ)) (Binary32.ofRat (b : ℚ))
      = Binary32.finite (roundToBinary32 ((a : ℚ) / b)) := by
    rw [ofRat_intCast a (by rw [abs_of_nonneg ha]; omega),
      ofRat_intCast b (by rw [abs_of_pos hb]; omega)]
    simp only [Binary32.div]
    rw [if_neg (ne_of_gt hbq)]
    exact ofRat_of_range h0 (le_trans hle (by norm_num))
  refine ⟨hdiv, ?_, ?_, hrel.1, hrel.2⟩
  · rcases eq_or_lt_of_le ha with h | h
    · left
      rw [← h]
      simp [roundToBinary32_zero]
    · right
      have ha1 : (1 : ℚ) ≤ (a : ℚ) := by exact_mod_cast h
      have hge : (1 : ℚ) / 2 ^ 22 ≤ (a : ℚ) / b := by
        rw [le_div_iff₀ hbq]
        linarith
      nlinarith [hrel.1]
  · nlinarith [hrel.2]

/-- The float product of a size n below 2 ^ 22 with a ratio r: it is the rounding of n *
r, non-negative and within a relative error of 2 ^ (-24) of n * r. -/
theorem float32_scaled (n : Int) (r : ℚ) (hn : 0 ≤ n) (hn2 : n < 2 ^ 22)
    (hr : r = 0 ∨ 1 / 2 ^ 23 ≤ r) (hr2 : r ≤ 2 ^ 23) :
    Binary32.mul (Binary32.ofRat (n : ℚ)) (Binary32.finite r)
        = Binary32.finite (roundToBinary32 ((n : ℚ) * r))
      ∧ 0 ≤ roundToBinary32 ((n : ℚ) * r)
      ∧ (n : ℚ) * r * (1 - 1 / 2 ^ 24) ≤ roundToBinary32 ((n : ℚ) * r)
      ∧ roundToBinary32 ((n : ℚ) * r) ≤ (n : ℚ) * r * (1 + 1 / 2 ^ 24) := by
  have hnq : (0 : ℚ) ≤ (n : ℚ) := by exact_mod_cast hn
  have hnq2 : (n : ℚ) < 2 ^ 22 := by exact_mod_cast hn2
  have hr0 : 0 ≤ r := by
    rcases hr with h | h
    · rw [h]
    · exact le_trans (by positivity) h
  have hx : 0 ≤ (n : ℚ) * r := mul_nonneg hnq hr0
  have h0 : (n : ℚ) * r = 0 ∨ (2 : ℚ) ^ (-126 : ℤ) ≤ (n : ℚ) * r := by
    rcases eq_or_lt_of_le hn with h | h
    · left; rw [← h]; simp
    · rcases hr with h' | h'
      · left; rw [h']; simp
      · right
        have hn1 : (1 : ℚ) ≤ (n : ℚ) := by exact_mod_cast h
        have h126 : (2 : ℚ) ^ (-126 : ℤ) = 1 / 2 ^ 126 := by
          rw [zpow_neg, one_div]; norm_cast
        rw [h126]
        have h3 : (1 : ℚ) / 2 ^ 126 ≤ 1 / 2 ^ 23 := by norm_num
        nlinarith
  have hle : (n : ℚ) * r ≤ 2 ^ 100 := by
    have : (n : ℚ) * r ≤ 2 ^ 22 * 2 ^ 23 := mul_le_mul hnq2.le hr2 hr0 (by positivity)
    exact le_trans this (by norm_num)
  have hrel := roundToBinary32_rel h0
  refine ⟨?_, roundToBinary32_nonneg hx, hrel.1, hrel.2⟩
  rw [ofRat_intCast n (by rw [abs_of_nonneg hn]; omega)]
  simp only [Binary32.mul]
  exact ofRat_of_range h0 hle

/-- The output rectangle in closed form when the float computation meets no division by
zero: positive decoder sizes and positive window sizes, all below 2 ^ 22. -/
theorem computeOutputTexture_float32 (dw dh ww wh : Int)
    (hdw : 0 < dw) (hdw2 : dw < 2 ^ 22) (hdh : 0 < dh) (hdh2 : dh < 2 ^ 22)
    (hww : 0 < ww) (hww2 : ww < 2 ^ 22) (hwh : 0 < wh) (hwh2 : wh < 2 ^ 22) :
    computeOutputTexture float32Arithmetic { width := dw, height := dh } ww wh
      = { m_DisplayWidth := ww - ww % 2
          m_DisplayHeight := wh - wh % 2
          m_OutputTexture :=
            if roundToBinary32 (((wh - wh % 2 : Int) : ℚ) / dh)
                < roundToBinary32 (((ww - ww % 2 : Int) : ℚ) / dw) then
              { width :=
                  ⌊roundToBinary32 ((dw : ℚ) * roundToBinary32 (((wh - wh % 2 : Int) : ℚ) / dh))⌋
                  - ⌊roundToBinary32
                      ((dw : ℚ) * roundToBinary32 (((wh - wh % 2 : Int) : ℚ) / dh))⌋ % 2
                height := wh - wh % 2
                left :=
                  ((ww - ww % 2
                    - (⌊roundToBinary32
                        ((dw : ℚ) * roundToBinary32 (((wh - wh % 2 : Int) : ℚ) / dh))⌋
                      - ⌊roundToBinary32
                          ((dw : ℚ) * roundToBinary32 (((wh - wh % 2 : Int) : ℚ) / dh))⌋
                        % 2)).natAbs : Int) / 2
                  - ((ww - ww % 2
                    - (⌊roundToBinary32
                        ((dw : ℚ) * roundToBinary32 (((wh - wh % 2 : Int) : ℚ) / dh))⌋
                      - ⌊roundToBinary32
                          ((dw : ℚ) * roundToBinary32 (((wh - wh % 2 : Int) : ℚ) / dh))⌋
                        % 2)).natAbs : Int) / 2 % 2
                top := 0 }
            else if roundToBinary32 (((ww - ww % 2 : Int) : ℚ) / dw)
                < roundToBinary32 (((wh - wh % 2 : Int) : ℚ) / dh) then
              { width := ww - ww % 2
                height :=
                  ⌊roundToBinary32 ((dh : ℚ) * roundToBinary32 (((ww - ww % 2 : Int) : ℚ) / dw))⌋
                  - ⌊roundToBinary32
                      ((dh : ℚ) * roundToBinary32 (((ww - ww % 2 : Int) : ℚ) / dw))⌋ % 2
                left := 0
                top :=
                  ((wh - wh % 2
                    - (⌊roundToBinary32
                        ((dh : ℚ) * roundToBinary32 (((ww - ww % 2 : Int) : ℚ) / dw))⌋
                      - ⌊roundToBinary32
                          ((dh : ℚ) * roundToBinary32 (((ww - ww % 2 : Int) : ℚ) / dw))⌋
                        % 2)).natAbs : Int) / 2
                  - ((wh - wh % 2
                    - (⌊roundToBinary32
                        ((dh : ℚ) * roundToBinary32 (((ww - ww % 2 : Int) : ℚ) / dw))⌋
                      - ⌊roundToBinary32
                          ((dh : ℚ) * roundToBinary32 (((ww - ww % 2 : Int) : ℚ) / dw))⌋
                        % 2)).natAbs : Int) / 2 % 2 }
            else
              { width := ww - ww % 2, height := wh - wh % 2, left := 0, top := 0 } } := by
  have hDW0 : 0 ≤ ww - ww % 2 := by omega
  have hDW2 : ww - ww % 2 < 2 ^ 22 := by omega
  have hDH0 : 0 ≤ wh - wh % 2 := by omega
  have hDH2 : wh - wh % 2 < 2 ^ 22 := by omega
  obtain ⟨hW, hW0, hW2, -, -⟩ := float32_ratio (ww - ww % 2) dw hDW0 hDW2 hdw hdw2
  obtain ⟨hH, hH0, hH2, -, -⟩ := float32_ratio (wh - wh % 2) dh hDH0 hDH2 hdh hdh2
  have hMW := (float32_scaled dw _ hdw.le hdw2 hH0 hH2).1
  have hMH := (float32_scaled dh _ hdh.le hdh2 hW0 hW2).1
  simp only [computeOutputTexture, float32Arithmetic, int_land_lnot_one, hW, hH, hMW, hMH,
    Binary32.lt, Binary32.floorToInt, decide_eq_true_eq]

/-- A size n scaled by the float ratio of a to b: the floor of the float product is non-
negative and lies within (-2, 1) of the exact product n * (a / b), when that product is
at most 2 ^ 22. -/
theorem float32_scaled_floor (n a b : Int) (hn : 0 < n) (hn2 : n < 2 ^ 22)
    (ha : 0 ≤ a) (ha2 : a < 2 ^ 22) (hb : 0 < b) (hb2 : b < 2 ^ 22)
    (hE : (n : ℚ) * ((a : ℚ) / b) ≤ 2 ^ 22) :
    0 ≤ ⌊roundToBinary32 ((n : ℚ) * roundToBinary32 ((a : ℚ) / b))⌋
      ∧ ((⌊roundToBinary32 ((n : ℚ) * roundToBinary32 ((a : ℚ) / b))⌋ : Int) : ℚ)
        < (n : ℚ) * ((a : ℚ) / b) + 1
      ∧ (n : ℚ) * ((a : ℚ) / b) - 2
        < ((⌊roundToBinary32 ((n : ℚ) * roundToBinary32 ((a : ℚ) / b))⌋ : Int) : ℚ) := by
  obtain ⟨-, hr0, hr2, hrl, hru⟩ := float32_ratio a b ha ha2 hb hb2
  obtain ⟨-, hp0, hpl, hpu⟩ := float32_scaled n _ hn.le hn2 hr0 hr2
  have hnq : (0 : ℚ) ≤ (n : ℚ) := by exact_mod_cast hn.le
  have haq : (0 : ℚ) ≤ (a : ℚ) := by exact_mod_cast ha
  have hbq : (0 : ℚ) < (b : ℚ) := by exact_mod_cast hb
  have hE0 : 0 ≤ (n : ℚ) * ((a : ℚ) / b) := mul_nonneg hnq (div_nonneg haq hbq.le)
  have hxl : (n : ℚ) * ((a : ℚ) / b) * (1 - 1 / 2 ^ 24)
      ≤ (n : ℚ) * roundToBinary32 ((a : ℚ) / b) := by
    have := mul_le_mul_of_nonneg_left hrl hnq
    linarith
  have hxu : (n : ℚ) * roundToBinary32 ((a : ℚ) / b)
      ≤ (n : ℚ) * ((a : ℚ) / b) * (1 + 1 / 2 ^ 24) := by
    have := mul_le_mul_of_nonneg_left hru hnq
    linarith
  have hfl := Int.floor_le (roundToBinary32 ((n : ℚ) * roundToBinary32 ((a : ℚ) / b)))
  have hfu := Int.lt_floor_add_one (roundToBinary32 ((n : ℚ) * roundToBinary32 ((a : ℚ) / b)))
  refine ⟨Int.floor_nonneg.mpr hp0, ?_, ?_⟩
  · generalize (n : ℚ) * ((a : ℚ) / b) = E at *
    generalize (n : ℚ) * roundToBinary32 ((a : ℚ) / b) = x at *
    generalize roundToBinary32 x = p at *
    generalize ((⌊p⌋ : Int) : ℚ) = f at *
    norm_num at hxl hxu hpl hpu hE ⊢
    linarith
  · generalize (n : ℚ) * ((a : ℚ) / b) = E at *
    generalize (n : ℚ) * roundToBinary32 ((a : ℚ) / b) = x at *
    generalize roundToBinary32 x = p at *
    generalize ((⌊p⌋ : Int) : ℚ) = f at *
    norm_num at hxl hxu hpl hpu hE ⊢
    linarith

/-- The float computation on positive decoder sizes and positive window sizes, all below
2 ^ 22: the window is rounded down to even, the rectangle lies inside it and is centred
to within 2, it fills the window in the limiting dimension, and in each dimension its
length is within (-3, 1) of the exact aspect-preserving length. -/
theorem computeOutputTexture_float32_bounds (dw dh ww wh : Int)
    (hdw : 0 < dw) (hdw2 : dw < 2 ^ 22) (hdh : 0 < dh) (hdh2 : dh < 2 ^ 22)
    (hww : 0 < ww) (hww2 : ww < 2 ^ 22) (hwh : 0 < wh) (hwh2 : wh < 2 ^ 22)
    (g : OutputGeometry)
    (hg : g = computeOutputTexture float32Arithmetic { width := dw, height := dh } ww wh) :
    (g.m_DisplayWidth = ww - ww % 2 ∧ g.m_DisplayHeight = wh - wh % 2)
      ∧ (0 ≤ g.m_OutputTexture.left ∧ 0 ≤ g.m_OutputTexture.top
        ∧ 0 ≤ g.m_OutputTexture.width ∧ 0 ≤ g.m_OutputTexture.height
        ∧ g.m_OutputTexture.left + g.m_OutputTexture.width ≤ g.m_DisplayWidth
        ∧ g.m_OutputTexture.top + g.m_OutputTexture.height ≤ g.m_DisplayHeight
        ∧ (g.m_DisplayWidth - (g.m_OutputTexture.left + g.m_OutputTexture.width)
              - g.m_OutputTexture.left = 0
          ∨ g.m_DisplayWidth - (g.m_OutputTexture.left + g.m_OutputTexture.width)
              - g.m_OutputTexture.left = 2)
        ∧ (g.m_DisplayHeight - (g.m_OutputTexture.top + g.m_OutputTexture.height)
              - g.m_OutputTexture.top = 0
          ∨ g.m_DisplayHeight - (g.m_OutputTexture.top + g.m_OutputTexture.height)
              - g.m_OutputTexture.top = 2))
      ∧ ((((ww - ww % 2 : Int) : ℚ) / dw ≤ ((wh - wh % 2 : Int) : ℚ) / dh
            → g.m_OutputTexture.width = ww - ww % 2)
        ∧ (((wh - wh % 2 : Int) : ℚ) / dh ≤ ((ww - ww % 2 : Int) : ℚ) / dw
            → g.m_OutputTexture.height = wh - wh % 2))
      ∧ ((g.m_OutputTexture.width : ℚ)
            < dw * min (((ww - ww % 2 : Int) : ℚ) / dw) (((wh - wh % 2 : Int) : ℚ) / dh) + 1
        ∧ (dw : ℚ) * min (((ww - ww % 2 : Int) : ℚ) / dw) (((wh - wh % 2 : Int) : ℚ) / dh) - 3
            < (g.m_OutputTexture.width : ℚ)
        ∧ (g.m_OutputTexture.height : ℚ)
            < dh * min (((ww - ww % 2 : Int) : ℚ) / dw) (((wh - wh % 2 : Int) : ℚ) / dh) + 1
        ∧ (dh : ℚ) * min (((ww - ww % 2 : Int) : ℚ) / dw) (((wh - wh % 2 : Int) : ℚ) / dh) - 3
            < (g.m_OutputTexture.height : ℚ)) := by
  subst hg
  rw [computeOutputTexture_float32 dw dh ww wh hdw hdw2 hdh hdh2 hww hww2 hwh hwh2]
  have hDW0 : 0 ≤ ww - ww % 2 := by omega
  have hDW2 : ww - ww % 2 < 2 ^ 22 := by omega
  have hDWe : (ww - ww % 2) % 2 = 0 := by omega
  have hDH0 : 0 ≤ wh - wh % 2 := by omega
  have hDH2 : wh - wh % 2 < 2 ^ 22 := by omega
  have hDHe : (wh - wh % 2) % 2 = 0 := by omega
  generalize ww - ww % 2 = DW at hDW0 hDW2 hDWe ⊢
  generalize wh - wh % 2 = DH at hDH0 hDH2 hDHe ⊢
  have ha : (0 : ℚ) < (dw : ℚ) := by exact_mod_cast hdw
  have hb : (0 : ℚ) < (dh : ℚ) := by exact_mod_cast hdh
  have hDWq : (0 : ℚ) ≤ (DW : ℚ) := by exact_mod_cast hDW0
  have hDHq : (0 : ℚ) ≤ (DH : ℚ) := by exact_mod_cast hDH0
  have hDWq2 : (DW : ℚ) < 2 ^ 22 := by exact_mod_cast hDW2
  have hDHq2 : (DH : ℚ) < 2 ^ 22 := by exact_mod_cast hDH2
  have hxa : (dw : ℚ) * ((DW : ℚ) / dw) = DW := by field_simp
  have hyb : (dh : ℚ) * ((DH : ℚ) / dh) = DH := by field_simp
  have hRW0 : (0 : ℚ) ≤ (DW : ℚ) / dw := div_nonneg hDWq ha.le
  have hRH0 : (0 : ℚ) ≤ (DH : ℚ) / dh := div_nonneg hDHq hb.le
  obtain ⟨-, -, -, hWl, hWu⟩ := float32_ratio DW dw hDW0 hDW2 hdw hdw2
  obtain ⟨-, -, -, hHl, hHu⟩ := float32_ratio DH dh hDH0 hDH2 hdh hdh2
  rcases lt_trichotomy (roundToBinary32 ((DH : ℚ) / dh)) (roundToBinary32 ((DW : ℚ) / dw))
    with h | h | h
  · -- the width is scaled
    have hlt : (DH : ℚ) / dh < (DW : ℚ) / dw := by
      by_contra hc
      push_neg at hc
      have := roundToBinary32_mono hRW0 hc
      linarith
    have hE : (dw : ℚ) * ((DH : ℚ) / dh) < DW := by
      rw [← hxa]; exact mul_lt_mul_of_pos_left hlt ha
    obtain ⟨hf0, hfu, hfl⟩ := float32_scaled_floor dw DH dh hdw hdw2 hDH0 hDH2 hdh hdh2
      (by linarith)
    have hfDW : ⌊roundToBinary32 ((dw : ℚ) * roundToBinary32 ((DH : ℚ) / dh))⌋ ≤ DW := by
      have h1 : ((⌊roundToBinary32 ((dw : ℚ) * roundToBinary32 ((DH : ℚ) / dh))⌋ : Int) : ℚ)
          < ((DW + 1 : Int) : ℚ) := by push_cast; linarith
      have h2 : ⌊roundToBinary32 ((dw : ℚ) * roundToBinary32 ((DH : ℚ) / dh))⌋ < DW + 1 := by
        exact_mod_cast h1
      omega
    rw [if_pos h, min_eq_right hlt.le]
    dsimp only
    generalize ⌊roundToBinary32 ((dw : ℚ) * roundToBinary32 ((DH : ℚ) / dh))⌋ = f at *
    have hw1 : ((f - f % 2 : Int) : ℚ) ≤ (f : ℚ) := by
      have : f - f % 2 ≤ f := by omega
      exact_mod_cast this
    have hw2 : (f : ℚ) - 1 ≤ ((f - f % 2 : Int) : ℚ) := by
      have : f - 1 ≤ f - f % 2 := by omega
      exact_mod_cast this
    refine ⟨⟨rfl, rfl⟩, ?_, ⟨fun h2 => absurd hlt (not_lt.mpr h2), fun _ => rfl⟩, ?_, ?_, ?_, ?_⟩
    · omega
    · linarith
    · linarith
    · linarith
    · linarith
  · -- both ratios round to the same float
    rw [h, if_neg (lt_irrefl _), if_neg (lt_irrefl _)]
    dsimp only
    have hcross1 : (DH : ℚ) * (1 - 1 / 2 ^ 24) ≤ (dh : ℚ) * ((DW : ℚ) / dw) * (1 + 1 / 2 ^ 24) := by
      have h1 := mul_le_mul_of_nonneg_left hHl hb.le
      have h2 := mul_le_mul_of_nonneg_left hWu hb.le
      rw [h] at h1
      nlinarith
    have hcross2 : (DW : ℚ) * (1 - 1 / 2 ^ 24) ≤ (dw : ℚ) * ((DH : ℚ) / dh) * (1 + 1 / 2 ^ 24) := by
      have h1 := mul_le_mul_of_nonneg_left hWl ha.le
      have h2 := mul_le_mul_of_nonneg_left hHu ha.le
      rw [← h] at h1
      nlinarith
    refine ⟨⟨rfl, rfl⟩, ?_, ⟨fun _ => rfl, fun _ => rfl⟩, ?_⟩
    · omega
    · rcases le_total ((DW : ℚ) / dw) ((DH : ℚ) / dh) with hc | hc
      · have hA : (dh : ℚ) * ((DW : ℚ) / dw) ≤ DH := by
          rw [← hyb]; exact mul_le_mul_of_nonneg_left hc hb.le
        rw [min_eq_left hc, hxa]
        norm_num at hcross1
        refine ⟨by linarith, by linarith, ?_, ?_⟩ <;> linarith
      · have hA : (dw : ℚ) * ((DH : ℚ) / dh) ≤ DW := by
          rw [← hxa]; exact mul_le_mul_of_nonneg_left hc ha.le
        rw [min_eq_right hc, hyb]
        norm_num at hcross2
        refine ⟨?_, ?_, by linarith, by linarith⟩ <;> linarith
  · -- the height is scaled
    have hlt : (DW : ℚ) / dw < (DH : ℚ) / dh := by
      by_contra hc
      push_neg at hc
      have := roundToBinary32_mono hRH0 hc
      linarith
    have hE : (dh : ℚ) * ((DW : ℚ) / dw) < DH := by
      rw [← hyb]; exact mul_lt_mul_of_pos_left hlt hb
    obtain ⟨hf0, hfu, hfl⟩ := float32_scaled_floor dh DW dw hdh hdh2 hDW0 hDW2 hdw hdw2
      (by linarith)
    have hfDH : ⌊roundToBinary32 ((dh : ℚ) * roundToBinary32 ((DW : ℚ) / dw))⌋ ≤ DH := by
      have h1 : ((⌊roundToBinary32 ((dh : ℚ) * roundToBinary32 ((DW : ℚ) / dw))⌋ : Int) : ℚ)
          < ((DH + 1 : Int) : ℚ) := by push_cast; linarith
      have h2 : ⌊roundToBinary32 ((dh : ℚ) * roundToBinary32 ((DW : ℚ) / dw))⌋ < DH + 1 := by
        exact_mod_cast h1
      omega
    rw [if_neg (not_lt.mpr h.le), if_pos h, min_eq_left hlt.le]
    dsimp only
    generalize ⌊roundToBinary32 ((dh : ℚ) * roundToBinary32 ((DW : ℚ) / dw))⌋ = f at *
    have hw1 : ((f - f % 2 : Int) : ℚ) ≤ (f : ℚ) := by
      have : f - f % 2 ≤ f := by omega
      exact_mod_cast this
    have hw2 : (f : ℚ) - 1 ≤ ((f - f % 2 : Int) : ℚ) := by
      have : f - 1 ≤ f - f % 2 := by omega
      exact_mod_cast this
    refine ⟨⟨rfl, rfl⟩, ?_, ⟨fun _ => rfl, fun h2 => absurd hlt (not_lt.mpr h2)⟩, ?_, ?_, ?_, ?_⟩
    · omega
    · linarith
    · linarith
    · linarith
    · linarith

/-- The start of initialize computes the rectangle from the decoder size rounded down to
even. -/
theorem initializeGeometry_eq (A : FloatArithmetic) (params : DECODER_PARAMETERS)
    (ww wh : Int) :
    initializeGeometry A params ww wh
      = ({ width := params.width - params.width % 2, height := params.height - params.height % 2 },
          computeOutputTexture A
            { width := params.width - params.width % 2,
              height := params.height - params.height % 2 } ww wh) := by
  simp only [initializeGeometry, evenDecoderParams, int_land_lnot_one]

/-- The float nearest to 21 / 20 = 1.05 (not a binary32 value). -/
theorem roundToBinary32_21_20 : roundToBinary32 (21 / 20) = 4404019 / 4194304 := by
  rw [roundToBinary32_eval (21 / 20) (1 / 8388608) 0 8808038 (by norm_num) (by norm_num)
    (by norm_num) (by norm_num)
    (roundHalfEven_of_near _ _ (by norm_num [abs_lt]))]
  norm_num

/-- The float nearest to 10 / 9. -/
theorem roundToBinary32_10_9 : roundToBinary32 (10 / 9) = 2330169 / 2097152 := by
  rw [roundToBinary32_eval (10 / 9) (1 / 8388608) 0 9320676 (by norm_num) (by norm_num)
    (by norm_num) (by norm_num)
    (roundHalfEven_of_near _ _ (by norm_num [abs_lt]))]
  norm_num

/-- The float product of 720 with the float nearest to 1.05: just below 756. -/
theorem roundToBinary32_756 :
    roundToBinary32 (720 * (4404019 / 4194304)) = 12386303 / 16384 := by
  rw [roundToBinary32_eval (720 * (4404019 / 4194304)) (1 / 16384) 9 12386303 (by norm_num)
    (by norm_num) (by norm_num) (by norm_num)
    (roundHalfEven_of_near _ _ (by norm_num [abs_lt]))]
  norm_num

/-- A 1280x720 stream in a 1344x800 window, in binary32: the rectangle is 1344x754 at
(0, 22). -/
theorem eval_1280_720_in_1344_800 :
    computeOutputTexture float32Arithmetic { width := 1280, height := 720 } 1344 800
      = { m_DisplayWidth := 1344, m_DisplayHeight := 800,
          m_OutputTexture := { width := 1344, height := 754, left := 0, top := 22 } } := by
  rw [computeOutputTexture_float32 1280 720 1344 800 (by norm_num) (by norm_num) (by norm_num)
    (by norm_num) (by norm_num) (by norm_num) (by norm_num) (by norm_num)]
  have hW : (((1344 - 1344 % 2 : Int) : ℚ) / ((1280 : Int) : ℚ)) = 21 / 20 := by norm_num
  have hH : (((800 - 800 % 2 : Int) : ℚ) / ((720 : Int) : ℚ)) = 10 / 9 := by norm_num
  rw [hW, hH, roundToBinary32_21_20, roundToBinary32_10_9]
  have hc1 : ¬ ((2330169 : ℚ) / 2097152 < 4404019 / 4194304) := by norm_num
  have hc2 : ((4404019 : ℚ) / 4194304 < 2330169 / 2097152) := by norm_num
  rw [if_neg hc1, if_pos hc2]
  have hp : (((720 : Int) : ℚ) * (4404019 / 4194304)) = 720 * (4404019 / 4194304) := by norm_num
  rw [hp, roundToBinary32_756]
  have hf : ⌊(12386303 : ℚ) / 16384⌋ = 755 := by
    rw [Int.floor_eq_iff]
    constructor <;> norm_num
  rw [hf]
  norm_num

/-- A 1920x1080 stream in a 2560x1440 window, in binary32: both ratios are the same
float and the rectangle is the window. -/
theorem eval_1920_1080_in_2560_1440 :
    computeOutputTexture float32Arithmetic { width := 1920, height := 1080 } 2560 1440
      = { m_DisplayWidth := 2560, m_DisplayHeight := 1440,
          m_OutputTexture := { width := 2560, height := 1440, left := 0, top := 0 } } := by
  rw [computeOutputTexture_float32 1920 1080 2560 1440 (by norm_num) (by norm_num) (by norm_num)
    (by norm_num) (by norm_num) (by norm_num) (by norm_num) (by norm_num)]
  have hW : (((2560 - 2560 % 2 : Int) : ℚ) / ((1920 : Int) : ℚ)) = 4 / 3 := by norm_num
  have hH : (((1440 - 1440 % 2 : Int) : ℚ) / ((1080 : Int) : ℚ)) = 4 / 3 := by norm_num
  rw [hW, hH, if_neg (lt_irrefl _), if_neg (lt_irrefl _)]
  norm_num

/-- The float nearest to 5 / 3. -/
theorem roundToBinary32_5_3 : roundToBinary32 (5 / 3) = 13981013 / 8388608 := by
  rw [roundToBinary32_eval (5 / 3) (1 / 8388608) 0 13981013 (by norm_num) (by norm_num)
    (by norm_num) (by norm_num)
    (roundHalfEven_of_near _ _ (by norm_num [abs_lt]))]
  norm_num

/-- The number 3 / 2 is a binary32 value. -/
theorem roundToBinary32_3_2 : roundToBinary32 (3 / 2) = 3 / 2 := by
  rw [roundToBinary32_eval (3 / 2) (1 / 8388608) 0 12582912 (by norm_num) (by norm_num)
    (by norm_num) (by norm_num)
    (roundHalfEven_of_near _ _ (by norm_num [abs_lt]))]
  norm_num

/-- A 1280x720 stream in a 1920x1200 window, in binary32: the rectangle is 1920x1080 at
(0, 60). -/
theorem eval_1280_720_in_1920_1200 :
    computeOutputTexture float32Arithmetic { width := 1280, height := 720 } 1920 1200
      = { m_DisplayWidth := 1920, m_DisplayHeight := 1200,
          m_OutputTexture := { width := 1920, height := 1080, left := 0, top := 60 } } := by
  rw [computeOutputTexture_float32 1280 720 1920 1200 (by norm_num) (by norm_num) (by norm_num)
    (by norm_num) (by norm_num) (by norm_num) (by norm_num) (by norm_num)]
  have hW : (((1920 - 1920 % 2 : Int) : ℚ) / ((1280 : Int) : ℚ)) = 3 / 2 := by norm_num
  have hH : (((1200 - 1200 % 2 : Int) : ℚ) / ((720 : Int) : ℚ)) = 5 / 3 := by norm_num
  rw [hW, hH, roundToBinary32_3_2, roundToBinary32_5_3]
  have hc1 : ¬ ((13981013 : ℚ) / 8388608 < 3 / 2) := by norm_num
  have hc2 : ((3 : ℚ) / 2 < 13981013 / 8388608) := by norm_num
  rw [if_neg hc1, if_pos hc2]
  have hp : (((720 : Int) : ℚ) * (3 / 2)) = ((1080 : Int) : ℚ) := by norm_num
  rw [hp, roundToBinary32_intCast 1080 (by norm_num), Int.floor_intCast]
  norm_num

/-- For even decoder sizes the start of initialize computes the rectangle from the
sizes as given. -/
theorem initializeGeometry_of_even (A : FloatArithmetic) (params : DECODER_PARAMETERS)
    (ww wh : Int) (hWidth : params.width % 2 = 0) (hHeight : params.height % 2 = 0) :
    (initializeGeometry A params ww wh).2 = computeOutputTexture A params ww wh := by
  rw [initializeGeometry_eq]
  obtain ⟨w, h⟩ := params
  simp only at hWidth hHeight
  simp only [hWidth, hHeight, sub_zero]

/-- C15: for every decoder size and window size, and whatever the float type
computes, the output rectangle stored by the start of initialize has even left and
top offsets and even width and height; so has the case of a 1920x1080 stream in a
2560x1440 window, where the rectangle computed in binary32 is 2560x1440 at (0, 0). -/
theorem c15_output_rectangle_is_even (A : FloatArithmetic) (params : DECODER_PARAMETERS)
    (windowWidth windowHeight : Int) :
    (initializeGeometry A params windowWidth windowHeight).2.m_OutputTexture.left % 2 = 0
      ∧ (initializeGeometry A params windowWidth windowHeight).2.m_OutputTexture.top % 2 = 0
      ∧ (initializeGeometry A params windowWidth windowHeight).2.m_OutputTexture.width % 2 = 0
      ∧ (initializeGeometry A params windowWidth windowHeight).2.m_OutputTexture.height % 2 = 0
      ∧ (initializeGeometry float32Arithmetic { width := 1920, height := 1080 } 2560
            1440).2.m_OutputTexture
          = { width := 2560, height := 1440, left := 0, top := 0 } := by
  refine ⟨?_, ?_, ?_, ?_, ?_⟩
  · simp only [initializeGeometry, computeOutputTexture, int_land_lnot_one]
    split_ifs <;> simp only [] <;> omega
  · simp only [initializeGeometry, computeOutputTexture, int_land_lnot_one]
    split_ifs <;> simp only [] <;> omega
  · simp only [initializeGeometry, computeOutputTexture, int_land_lnot_one]
    split_ifs <;> simp only [] <;> omega
  · simp only [initializeGeometry, computeOutputTexture, int_land_lnot_one]
    split_ifs <;> simp only [] <;> omega
  · rw [initializeGeometry_of_even float32Arithmetic { width := 1920, height := 1080 } 2560 1440
      (by decide) (by decide), eval_1920_1080_in_2560_1440]

/-- C16, as stated, fails for the program, which computes the ratios in float. For
a 1280x720 stream in a 1344x800 window the width is the limiting dimension
(1344 / 1280 < 800 / 720) and the exact aspect-preserving height is
720 * (1344 / 1280) = 756; the code gives the height 754: the float nearest to 1.05
lies below 1.05, the float product with 720 lies just below 756, its floor is 755
and rounding down to even gives 754. The shortfall is 2, not less than 2. -/
theorem c16_float_rounding_counterexample :
    (initializeGeometry float32Arithmetic { width := 1280, height := 720 } 1344 800).2
        = { m_DisplayWidth := 1344, m_DisplayHeight := 800,
            m_OutputTexture := { width := 1344, height := 754, left := 0, top := 22 } }
      ∧ (1344 : ℚ) / 1280 < 800 / 720
      ∧ (720 : ℚ) * min (1344 / 1280) (800 / 720) = 756
      ∧ ¬ ((720 : ℚ) * min (1344 / 1280) (800 / 720) - 2
          < (((initializeGeometry float32Arithmetic { width := 1280, height := 720 } 1344
              800).2.m_OutputTexture.height : Int) : ℚ)) := by
  have hg : (initializeGeometry float32Arithmetic { width := 1280, height := 720 } 1344 800).2
      = { m_DisplayWidth := 1344, m_DisplayHeight := 800,
          m_OutputTexture := { width := 1344, height := 754, left := 0, top := 22 } } := by
    rw [initializeGeometry_of_even float32Arithmetic { width := 1280, height := 720 } 1344 800
      (by decide) (by decide), eval_1280_720_in_1344_800]
  have hmin : min ((1344 : ℚ) / 1280) (800 / 720) = 1344 / 1280 :=
    min_eq_left (by norm_num)
  refine ⟨hg, by norm_num, ?_, ?_⟩
  · rw [hmin]; norm_num
  · rw [hg, hmin]; norm_num

/-- C16, amended: with the two scale ratios computed in binary32 as the code does,
for all decoder sizes of at least 2 and all positive window sizes, all below
2 ^ 22, the output rectangle computed by the start of initialize preserves the
aspect ratio of the source rounded down to even sizes. Writing s for the smaller
of the exact ratios even window width / even decoder width and even window
height / even decoder height: the rectangle has the even window size in the
limiting dimension, and in each dimension its length is less than the exact
length even decoder length * s plus 1 and more than that length minus 3. For a
1920x1080 source in a 2560x1440 window it is 2560x1440 at offset (0, 0). -/
theorem c16_output_rectangle_preserves_aspect_ratio (params : DECODER_PARAMETERS)
    (windowWidth windowHeight : Int)
    (hWidth : 2 ≤ params.width) (hWidthBound : params.width < 2 ^ 22)
    (hHeight : 2 ≤ params.height) (hHeightBound : params.height < 2 ^ 22)
    (hWindowWidth : 0 < windowWidth) (hWindowWidthBound : windowWidth < 2 ^ 22)
    (hWindowHeight : 0 < windowHeight) (hWindowHeightBound : windowHeight < 2 ^ 22) :
    (initializeGeometry float32Arithmetic params windowWidth windowHeight).1
        = { width := params.width - params.width % 2,
            height := params.height - params.height % 2 }
      ∧ (initializeGeometry float32Arithmetic params windowWidth
          windowHeight).2.m_DisplayWidth = windowWidth - windowWidth % 2
      ∧ (initializeGeometry float32Arithmetic params windowWidth
          windowHeight).2.m_DisplayHeight = windowHeight - windowHeight % 2
      ∧ (((windowWidth - windowWidth % 2 : Int) : ℚ) / ((params.width - params.width % 2 : Int) : ℚ)
            ≤ ((windowHeight - windowHeight % 2 : Int) : ℚ)
              / ((params.height - params.height % 2 : Int) : ℚ)
          → (initializeGeometry float32Arithmetic params windowWidth
              windowHeight).2.m_OutputTexture.width = windowWidth - windowWidth % 2)
      ∧ (((windowHeight - windowHeight % 2 : Int) : ℚ)
              / ((params.height - params.height % 2 : Int) : ℚ)
            ≤ ((windowWidth - windowWidth % 2 : Int) : ℚ)
              / ((params.width - params.width % 2 : Int) : ℚ)
          → (initializeGeometry float32Arithmetic params windowWidth
              windowHeight).2.m_OutputTexture.height = windowHeight - windowHeight % 2)
      ∧ (((initializeGeometry float32Arithmetic params windowWidth
              windowHeight).2.m_OutputTexture.width : Int) : ℚ)
          < ((params.width - params.width % 2 : Int) : ℚ)
            * min (((windowWidth - windowWidth % 2 : Int) : ℚ)
                / ((params.width - params.width % 2 : Int) : ℚ))
              (((windowHeight - windowHeight % 2 : Int) : ℚ)
                / ((params.height - params.height % 2 : Int) : ℚ)) + 1
      ∧ ((params.width - params.width % 2 : Int) : ℚ)
            * min (((windowWidth - windowWidth % 2 : Int) : ℚ)
                / ((params.width - params.width % 2 : Int) : ℚ))
              (((windowHeight - windowHeight % 2 : Int) : ℚ)
                / ((params.height - params.height % 2 : Int) : ℚ)) - 3
          < (((initializeGeometry float32Arithmetic params windowWidth
              windowHeight).2.m_OutputTexture.width : Int) : ℚ)
      ∧ (((initializeGeometry float32Arithmetic params windowWidth
              windowHeight).2.m_OutputTexture.height : Int) : ℚ)
          < ((params.height - params.height % 2 : Int) : ℚ)
            * min (((windowWidth - windowWidth % 2 : Int) : ℚ)
                / ((params.width - params.width % 2 : Int) : ℚ))
              (((windowHeight - windowHeight % 2 : Int) : ℚ)
                / ((params.height - params.height % 2 : Int) : ℚ)) + 1
      ∧ ((params.height - params.height % 2 : Int) : ℚ)
            * min (((windowWidth - windowWidth % 2 : Int) : ℚ)
                / ((params.width - params.width % 2 : Int) : ℚ))
              (((windowHeight - windowHeight % 2 : Int) : ℚ)
                / ((params.height - params.height % 2 : Int) : ℚ)) - 3
          < (((initializeGeometry float32Arithmetic params windowWidth
              windowHeight).2.m_OutputTexture.height : Int) : ℚ)
      ∧ (initializeGeometry float32Arithmetic { width := 1920, height := 1080 } 2560
            1440).2.m_OutputTexture
          = { width := 2560, height := 1440, left := 0, top := 0 } := by
  have hConcrete : (initializeGeometry float32Arithmetic { width := 1920, height := 1080 } 2560
      1440).2.m_OutputTexture = { width := 2560, height := 1440, left := 0, top := 0 } := by
    rw [initializeGeometry_of_even float32Arithmetic { width := 1920, height := 1080 } 2560 1440
      (by decide) (by decide), eval_1920_1080_in_2560_1440]
  have hParams : (initializeGeometry float32Arithmetic params windowWidth windowHeight).1
      = { width := params.width - params.width % 2,
          height := params.height - params.height % 2 } := by
    rw [initializeGeometry_eq]
  have hg : (initializeGeometry float32Arithmetic params windowWidth windowHeight).2
      = computeOutputTexture float32Arithmetic
          { width := params.width - params.width % 2,
            height := params.height - params.height % 2 } windowWidth windowHeight := by
    rw [initializeGeometry_eq]
  have h := computeOutputTexture_float32_bounds (params.width - params.width % 2)
    (params.height - params.height % 2) windowWidth windowHeight (by omega) (by omega)
    (by omega) (by omega) hWindowWidth hWindowWidthBound hWindowHeight hWindowHeightBound _ hg
  exact ⟨hParams, h.1.1, h.1.2, h.2.2.1.1, h.2.2.1.2, h.2.2.2.1, h.2.2.2.2.1, h.2.2.2.2.2.1,
    h.2.2.2.2.2.2, hConcrete⟩

/-- C16 (amended) at a concrete input: a 1920x1080 source in a 3440x1440 window,
where the height is the limiting dimension: the rectangle is 1440 high and its
width is less than the exact aspect-preserving width 1920 * (1440 / 1080) = 2560
plus 1. -/
theorem c16_output_rectangle_preserves_aspect_ratio_witness :
    (2 : Int) ≤ ({ width := 1920, height := 1080 } : DECODER_PARAMETERS).width
      ∧ ({ width := 1920, height := 1080 } : DECODER_PARAMETERS).width < 2 ^ 22
      ∧ (2 : Int) ≤ ({ width := 1920, height := 1080 } : DECODER_PARAMETERS).height
      ∧ ({ width := 1920, height := 1080 } : DECODER_PARAMETERS).height < 2 ^ 22
      ∧ (0 : Int) < 3440 ∧ (3440 : Int) < 2 ^ 22 ∧ (0 : Int) < 1440 ∧ (1440 : Int) < 2 ^ 22
      ∧ (initializeGeometry float32Arithmetic
          ({ width := 1920, height := 1080 } : DECODER_PARAMETERS) 3440
          1440).2.m_OutputTexture.height = 1440 - 1440 % 2
      ∧ (((initializeGeometry float32Arithmetic
              ({ width := 1920, height := 1080 } : DECODER_PARAMETERS) 3440
              1440).2.m_OutputTexture.width : Int) : ℚ)
          < (((1920 : Int) - 1920 % 2 : Int) : ℚ)
            * min ((((3440 : Int) - 3440 % 2 : Int) : ℚ) / (((1920 : Int) - 1920 % 2 : Int) : ℚ))
              ((((1440 : Int) - 1440 % 2 : Int) : ℚ) / (((1080 : Int) - 1080 % 2 : Int) : ℚ))
            + 1 :=
  ⟨by decide, by decide, by decide, by decide, by decide, by decide, by decide, by decide,
    (c16_output_rectangle_preserves_aspect_ratio
      ({ width := 1920, height := 1080 } : DECODER_PARAMETERS) 3440 1440
      (by decide) (by decide) (by decide) (by decide) (by decide) (by decide) (by decide)
      (by decide)).2.2.2.2.1 (by norm_num),
    (c16_output_rectangle_preserves_aspect_ratio
      ({ width := 1920, height := 1080 } : DECODER_PARAMETERS) 3440 1440
      (by decide) (by decide) (by decide) (by decide) (by decide) (by decide) (by decide)
      (by decide)).2.2.2.2.2.1⟩

/-! ## Adapter selection -/

/-- The score of lines 757-779 in closed form: the second chain never changes it. -/
theorem adapterScore_eq (a : AdapterProbe) :
    adapterScore a
      = if (isVendorAMD a.VendorId && a.enableAMDVideoSuperResolution) = true then 300
        else if (isVendorIntel a.VendorId && a.enableIntelVideoSuperResolution) = true then 200
        else if (isVendorNVIDIA a.VendorId && a.enableNvidiaVideoSuperResolution) = true then 400
        else 100 := by
  simp only [adapterScore]
  split_ifs <;> decide

/-- Every score is at least 100. -/
theorem adapterScore_ge (a : AdapterProbe) : 100 ≤ adapterScore a := by
  rw [adapterScore_eq]
  split_ifs <;> decide

/-- The loop skips an adapter that is not a candidate. -/
theorem scanAdapters_cons_of_not_candidate (a : AdapterProbe) (rest : List AdapterProbe)
    (index highestScore adapterIndex : Int) (h : isCandidate a = false) :
    scanAdapters (a :: rest) index highestScore adapterIndex
      = scanAdapters rest (index + 1) highestScore adapterIndex := by
  obtain ⟨d, sw, v, dev, vp, p1, p2, p3, p4, p5, p6⟩ := a
  cases d <;> cases sw <;> cases dev <;> cases vp <;>
    simp_all [scanAdapters, isCandidate]

/-- The loop scores a candidate and keeps it when it beats the highest score so far. -/
theorem scanAdapters_cons_of_candidate (a : AdapterProbe) (rest : List AdapterProbe)
    (index highestScore adapterIndex : Int) (h : isCandidate a = true) :
    scanAdapters (a :: rest) index highestScore adapterIndex
      = if adapterScore a > highestScore then scanAdapters rest (index + 1) (adapterScore a) index
        else scanAdapters rest (index + 1) highestScore adapterIndex := by
  obtain ⟨d, sw, v, dev, vp, p1, p2, p3, p4, p5, p6⟩ := a
  cases d <;> cases sw <;> cases dev <;> cases vp <;>
    simp_all [scanAdapters, isCandidate]

/-- What the loop computes on the remaining adapters: either no candidate beats the
highest score so far and the loop variables are unchanged, or the loop ends on the
earliest candidate of maximal score, which beats the score it started with. -/
theorem scanAdapters_spec (l : List AdapterProbe) :
    ∀ index highestScore adapterIndex : Int,
      (scanAdapters l index highestScore adapterIndex = (highestScore, adapterIndex)
          ∧ ∀ b ∈ l, isCandidate b = true → adapterScore b ≤ highestScore)
        ∨ ∃ (i : Nat) (a : AdapterProbe), l[i]? = some a ∧ isCandidate a = true
            ∧ scanAdapters l index highestScore adapterIndex = (adapterScore a, index + i)
            ∧ highestScore < adapterScore a
            ∧ ∀ (j : Nat) (b : AdapterProbe), l[j]? = some b → isCandidate b = true →
                adapterScore b ≤ adapterScore a ∧ (adapterScore b = adapterScore a → i ≤ j) := by
  induction l with
  | nil =>
    intro index highestScore adapterIndex
    left
    exact ⟨rfl, by simp⟩
  | cons a rest ih =>
    intro index highestScore adapterIndex
    cases hc : isCandidate a
    · rw [scanAdapters_cons_of_not_candidate a rest index highestScore adapterIndex hc]
      rcases ih (index + 1) highestScore adapterIndex with ⟨hEq, hAll⟩ | ⟨i, a', hGet, hCand, hEq, hLt, hMax⟩
      · left
        refine ⟨hEq, ?_⟩
        intro b hb hbc
        rcases List.mem_cons.mp hb with rfl | hb'
        · rw [hc] at hbc; exact absurd hbc (by decide)
        · exact hAll b hb' hbc
      · right
        refine ⟨i + 1, a', by simpa using hGet, hCand, ?_, hLt, ?_⟩
        · rw [hEq]; push_cast; congr 1; ring
        · intro j b hj hbc
          cases j with
          | zero =>
            simp at hj
            subst hj
            rw [hc] at hbc; exact absurd hbc (by decide)
          | succ j' =>
            have := hMax j' b (by simpa using hj) hbc
            exact ⟨this.1, fun h => Nat.succ_le_succ (this.2 h)⟩
    · rw [scanAdapters_cons_of_candidate a rest index highestScore adapterIndex hc]
      by_cases hBeat : adapterScore a > highestScore
      · rw [if_pos hBeat]
        right
        rcases ih (index + 1) (adapterScore a) index with ⟨hEq, hAll⟩ | ⟨i, a', hGet, hCand, hEq, hLt, hMax⟩
        · refine ⟨0, a, by simp, hc, ?_, hBeat, ?_⟩
          · rw [hEq]; simp
          · intro j b hj hbc
            cases j with
            | zero =>
              simp at hj
              subst hj
              exact ⟨le_refl _, fun _ => le_refl _⟩
            | succ j' =>
              have hmem : b ∈ rest := List.getElem?_mem (by simpa using hj)
              exact ⟨hAll b hmem hbc, fun _ => Nat.zero_le _⟩
        · refine ⟨i + 1, a', by simpa using hGet, hCand, ?_, lt_trans hBeat hLt, ?_⟩
          · rw [hEq]; push_cast; congr 1; ring
          · intro j b hj hbc
            cases j with
            | zero =>
              simp at hj
              subst hj
              exact ⟨le_of_lt hLt, fun h => absurd h (ne_of_lt hLt)⟩
            | succ j' =>
              have := hMax j' b (by simpa using hj) hbc
              exact ⟨this.1, fun h => Nat.succ_le_succ (this.2 h)⟩
      · rw [if_neg hBeat]
        have hLe : adapterScore a ≤ highestScore := not_lt.mp hBeat
        rcases ih (index + 1) highestScore adapterIndex with ⟨hEq, hAll⟩ | ⟨i, a', hGet, hCand, hEq, hLt, hMax⟩
        · left
          refine ⟨hEq, ?_⟩
          intro b hb hbc
          rcases List.mem_cons.mp hb with rfl | hb'
          · exact hLe
          · exact hAll b hb' hbc
        · right
          refine ⟨i + 1, a', by simpa using hGet, hCand, ?_, hLt, ?_⟩
          · rw [hEq]; push_cast; congr 1; ring
          · intro j b hj hbc
            cases j with
            | zero =>
              simp at hj
              subst hj
              have hlt : adapterScore a < adapterScore a' := lt_of_le_of_lt hLe hLt
              exact ⟨le_of_lt hlt, fun h => absurd h (ne_of_lt hlt)⟩
            | succ j' =>
              have := hMax j' b (by simpa using hj) hbc
              exact ⟨this.1, fun h => Nat.succ_le_succ (this.2 h)⟩

/-- C17: getAdapterIndexByEnhancementCapabilities returns -1 exactly when no adapter
is a candidate (a non-software adapter on which the device and the one-pass video
processor were created); otherwise it returns the index of a candidate whose score
is maximal among all candidates and which is the earliest in enumeration order
among the candidates of that score. -/
theorem c17_adapter_index_is_earliest_best_candidate (adapters : List AdapterProbe) :
    (getAdapterIndexByEnhancementCapabilities adapters = -1
        ↔ ∀ a ∈ adapters, isCandidate a = false)
      ∧ (getAdapterIndexByEnhancementCapabilities adapters ≠ -1 →
          ∃ (i : Nat) (a : AdapterProbe), adapters[i]? = some a
            ∧ getAdapterIndexByEnhancementCapabilities adapters = (i : Int)
            ∧ isCandidate a = true
            ∧ ∀ (j : Nat) (b : AdapterProbe), adapters[j]? = some b → isCandidate b = true →
                adapterScore b ≤ adapterScore a
                  ∧ (adapterScore b = adapterScore a → i ≤ j)) := by
  unfold getAdapterIndexByEnhancementCapabilities
  rcases scanAdapters_spec adapters 0 (-1) (-1) with ⟨hEq, hAll⟩ | ⟨i, a, hGet, hCand, hEq, hLt, hMax⟩
  · have hNone : ∀ a ∈ adapters, isCandidate a = false := by
      intro a ha
      cases hc : isCandidate a
      · rfl
      · have h1 := hAll a ha hc
        have h2 := adapterScore_ge a
        omega
    rw [hEq]
    exact ⟨⟨fun _ => hNone, fun _ => rfl⟩, fun h => absurd rfl h⟩
  · rw [hEq]
    have hIdx : ((0 : Int) + (i : Int)) = (i : Int) := by omega
    simp only [hIdx]
    refine ⟨⟨fun h => ?_, fun h => ?_⟩, fun _ => ⟨i, a, hGet, rfl, hCand, hMax⟩⟩
    · omega
    · have := h a (List.getElem?_mem hGet)
      rw [hCand] at this
      exact absurd this (by decide)

/-- C18: the score of a candidate adapter is 400 for NVIDIA with working
super-resolution, 300 for AMD with working super-resolution, 200 for Intel with
working super-resolution and 100 otherwise; the results of the HDR-simulation
probes never change it; hence an adapter with working vendor super-resolution
outranks every adapter without it, whatever the HDR probes say, and
NVIDIA outranks AMD outranks Intel outranks the rest. -/
theorem c18_adapter_score_values (a b : AdapterProbe) (amdHDR intelHDR nvidiaHDR : Bool) :
    adapterScore a
        = (if isVendorNVIDIA a.VendorId = true ∧ a.enableNvidiaVideoSuperResolution = true
            then 400
          else if isVendorAMD a.VendorId = true ∧ a.enableAMDVideoSuperResolution = true
            then 300
          else if isVendorIntel a.VendorId = true ∧ a.enableIntelVideoSuperResolution = true
            then 200
          else 100)
      ∧ adapterScore
          { a with
            enableAMDHDR := amdHDR
            enableIntelHDR := intelHDR
            enableNvidiaHDR := nvidiaHDR } = adapterScore a
      ∧ (adapterScore a ≠ 100 → adapterScore b = 100 → adapterScore b < adapterScore a)
      ∧ ((400 : Int) > 300 ∧ (300 : Int) > 200 ∧ (200 : Int) > 100) := by
  refine ⟨?_, ?_, ?_, by decide⟩
  · rw [adapterScore_eq]
    have hA : isVendorAMD a.VendorId = true → isVendorNVIDIA a.VendorId = false := by
      simp only [isVendorAMD, isVendorNVIDIA, VENDOR_ID_AMD, VENDOR_ID_NVIDIA, beq_iff_eq]
      intro h
      simp [h]
    have hI : isVendorIntel a.VendorId = true → isVendorNVIDIA a.VendorId = false := by
      simp only [isVendorIntel, isVendorNVIDIA, VENDOR_ID_INTEL, VENDOR_ID_NVIDIA, beq_iff_eq]
      intro h
      simp [h]
    cases hAMD : isVendorAMD a.VendorId <;> cases hIntel : isVendorIntel a.VendorId <;>
      cases hNV : isVendorNVIDIA a.VendorId <;> simp_all
  · rw [adapterScore_eq, adapterScore_eq]
  · intro hNe hEq
    have h := adapterScore_ge a
    omega

/-! ## renderVideo and the decoder pool -/

/-- C19, as stated, fails: srvIndex is a 32-bit UINT, so a pool index of 2 ^ 32 + 3,
which is 17 or more, is read as 3; with enhancement disabled and decoder textures
bound, renderVideo does not reject the frame but binds view 3 and draws. -/
theorem c19_pool_index_truncation_counterexample :
    DECODER_BUFFER_POOL_SIZE ≤ ({ data1 := 2 ^ 32 + 3 } : AVFrame).data1
      ∧ (rendererWith SRM_00 false 1280 720 output1080 false false false false).renderVideo
          false true { data1 := 2 ^ 32 + 3 }
        = RenderVideoResult.boundAndDrew 3 := by
  decide

/-- C19, amended: every index with which renderVideo reads
m_VideoTextureResourceViews is below DECODER_BUFFER_POOL_SIZE = 17, for every frame
and every mode. With enhancement enabled and in the copy path the index is 0; in
the bind-decoder-textures path the pool index is read into the 32-bit UINT
srvIndex, and a frame whose pool index modulo 2 ^ 32 is 17 or more makes renderVideo
return before it binds a view or draws; so every pool index from 17 to 2 ^ 32 - 1
is rejected. -/
theorem c19_view_index_below_pool_size (r : D3D11VARenderer)
    (amfInitialized bindDecoderOutputTextures : Bool) (frame : AVFrame) :
    DECODER_BUFFER_POOL_SIZE = 17
      ∧ (∀ srvIndex : Nat,
          r.renderVideo amfInitialized bindDecoderOutputTextures frame
              = RenderVideoResult.boundAndDrew srvIndex
            → srvIndex < DECODER_BUFFER_POOL_SIZE)
      ∧ (r.m_VideoEnhancement.isVideoEnhancementEnabled = true →
          ∀ srvIndex : Nat,
            r.renderVideo amfInitialized bindDecoderOutputTextures frame
                = RenderVideoResult.boundAndDrew srvIndex
              → srvIndex = 0)
      ∧ (r.m_VideoEnhancement.isVideoEnhancementEnabled = false →
          bindDecoderOutputTextures = false →
          r.renderVideo amfInitialized bindDecoderOutputTextures frame
            = RenderVideoResult.boundAndDrew 0)
      ∧ (r.m_VideoEnhancement.isVideoEnhancementEnabled = false →
          bindDecoderOutputTextures = true →
          17 ≤ frame.data1 % 2 ^ 32 →
          r.renderVideo amfInitialized bindDecoderOutputTextures frame
            = RenderVideoResult.returnedBeforeBinding)
      ∧ (r.m_VideoEnhancement.isVideoEnhancementEnabled = false →
          bindDecoderOutputTextures = true →
          frame.data1 < 2 ^ 32 → 17 ≤ frame.data1 →
          r.renderVideo amfInitialized bindDecoderOutputTextures frame
            = RenderVideoResult.returnedBeforeBinding) := by
  refine ⟨rfl, ?_, ?_, ?_, ?_, ?_⟩
  · intro srvIndex h
    simp only [renderVideo, DECODER_BUFFER_POOL_SIZE] at h ⊢
    split_ifs at h <;> simp_all <;> omega
  · intro hEnabled srvIndex h
    simp only [renderVideo, hEnabled, if_true] at h
    split_ifs at h <;> simp_all
  · intro hDisabled hBind
    simp [renderVideo, hDisabled, hBind]
  · intro hDisabled hBind hIndex
    simp only [renderVideo, hDisabled, hBind, DECODER_BUFFER_POOL_SIZE, Bool.false_eq_true,
      if_false, if_true]
    rw [if_pos hIndex]
  · intro hDisabled hBind hFits hIndex
    have hMod : frame.data1 % 2 ^ 32 = frame.data1 := Nat.mod_eq_of_lt hFits
    simp only [renderVideo, hDisabled, hBind, DECODER_BUFFER_POOL_SIZE, Bool.false_eq_true,
      if_false, if_true, hMod]
    rw [if_pos hIndex]

/-! ## Decoder surfaces -/

/-- FFALIGN with alignment 16 or 128 gives the least multiple of the alignment that
is not smaller than its argument. -/
theorem FFALIGN_least_multiple (x a : Int) (ha : a = 16 ∨ a = 128) :
    a ∣ FFALIGN x a ∧ x ≤ FFALIGN x a ∧ ∀ m : Int, a ∣ m → x ≤ m → FFALIGN x a ≤ m := by
  rcases ha with rfl | rfl
  · have h : FFALIGN x 16 = (x + 15) - (x + 15) % 16 := by
      unfold FFALIGN
      have h1 : x + 16 - 1 = x + 15 := by ring
      have h2 : ((16 : Int) - 1) = 15 := by norm_num
      rw [h1, h2, int_land_lnot_15]
    rw [h]
    refine ⟨by omega, by omega, ?_⟩
    intro m hm hx
    omega
  · have h : FFALIGN x 128 = (x + 127) - (x + 127) % 128 := by
      unfold FFALIGN
      have h1 : x + 128 - 1 = x + 127 := by ring
      have h2 : ((128 : Int) - 1) = 127 := by norm_num
      rw [h1, h2, int_land_lnot_127]
    rw [h]
    refine ⟨by omega, by omega, ?_⟩
    intro m hm hx
    omega

/-- C20: initialize requests a texture alignment of 16 when the video format is
H.264 (its bits under VIDEO_FORMAT_MASK_H264 are not all zero) and of 128
otherwise, a decoder pool of exactly 17 surfaces, and frame dimensions
FFALIGN(width, alignment) and FFALIGN(height, alignment), which are the least
multiples of the alignment that are not smaller than the stream width and
height. -/
theorem c20_decoder_surface_alignment_and_pool (VIDEO_FORMAT_MASK_H264 videoFormat : Nat)
    (params : DECODER_PARAMETERS) :
    (videoFormat &&& VIDEO_FORMAT_MASK_H264 ≠ 0 →
        textureAlignment VIDEO_FORMAT_MASK_H264 videoFormat = 16)
      ∧ (videoFormat &&& VIDEO_FORMAT_MASK_H264 = 0 →
        textureAlignment VIDEO_FORMAT_MASK_H264 videoFormat = 128)
      ∧ (initializeFramesContext (textureAlignment VIDEO_FORMAT_MASK_H264 videoFormat)
          params).initial_pool_size = 17
      ∧ (initializeFramesContext (textureAlignment VIDEO_FORMAT_MASK_H264 videoFormat)
          params).width
          = FFALIGN params.width (textureAlignment VIDEO_FORMAT_MASK_H264 videoFormat)
      ∧ (initializeFramesContext (textureAlignment VIDEO_FORMAT_MASK_H264 videoFormat)
          params).height
          = FFALIGN params.height (textureAlignment VIDEO_FORMAT_MASK_H264 videoFormat)
      ∧ (textureAlignment VIDEO_FORMAT_MASK_H264 videoFormat
            ∣ (initializeFramesContext (textureAlignment VIDEO_FORMAT_MASK_H264 videoFormat)
                params).width
          ∧ params.width
            ≤ (initializeFramesContext (textureAlignment VIDEO_FORMAT_MASK_H264 videoFormat)
                params).width
          ∧ ∀ m : Int, textureAlignment VIDEO_FORMAT_MASK_H264 videoFormat ∣ m →
              params.width ≤ m →
              (initializeFramesContext (textureAlignment VIDEO_FORMAT_MASK_H264 videoFormat)
                params).width ≤ m)
      ∧ (textureAlignment VIDEO_FORMAT_MASK_H264 videoFormat
            ∣ (initializeFramesContext (textureAlignment VIDEO_FORMAT_MASK_H264 videoFormat)
                params).height
          ∧ params.height
            ≤ (initializeFramesContext (textureAlignment VIDEO_FORMAT_MASK_H264 videoFormat)
                params).height
          ∧ ∀ m : Int, textureAlignment VIDEO_FORMAT_MASK_H264 videoFormat ∣ m →
              params.height ≤ m →
              (initializeFramesContext (textureAlignment VIDEO_FORMAT_MASK_H264 videoFormat)
                params).height ≤ m) := by
  have hAlign : textureAlignment VIDEO_FORMAT_MASK_H264 videoFormat = 16
      ∨ textureAlignment VIDEO_FORMAT_MASK_H264 videoFormat = 128 := by
    unfold textureAlignment
    split_ifs
    · exact Or.inl rfl
    · exact Or.inr rfl
  refine ⟨?_, ?_, rfl, rfl, rfl, ?_, ?_⟩
  · intro h
    simp [textureAlignment, h]
  · intro h
    simp [textureAlignment, h]
  · exact FFALIGN_least_multiple params.width _ hAlign
  · exact FFALIGN_least_multiple params.height _ hAlign


/-! ## Invariants of the selection -/

/-- After the vendor default and the forced mode, a shader that upscales never
comes with two passes. -/
theorem forcedModeSelection_upscaler_single_pass (mode : SuperResolutionMode) (vendorId : Nat)
    (isIntegratedGPU rtxOrNewer isDecoderHDR : Bool)
    (hUp : isUpscaler (forcedModeSelection mode vendorId isDecoderHDR
      (vendorAutoSelection vendorId isIntegratedGPU rtxOrNewer isDecoderHDR
        resetSelection)).m_EnhancerType = true) :
    (forcedModeSelection mode vendorId isDecoderHDR
      (vendorAutoSelection vendorId isIntegratedGPU rtxOrNewer isDecoderHDR
        resetSelection)).m_2PassVideoProcessor = false := by
  revert hUp
  unfold vendorAutoSelection
  split_ifs <;> cases mode <;> simp [forcedModeSelection, resetSelection, isUpscaler]

/-- The cross constraints, the native-resolution rule and the 4:4:4 + HDR rule,
entered with a selection in which an upscaling shader comes with a single pass,
leave a selection in which two passes need a vendor extension and an upscaling
shader excludes vendor super-resolution and two passes. -/
theorem final_rules_two_pass_and_upscaler (mode : SuperResolutionMode) (vendorId : Nat)
    (outputHeight decoderHeight : Int) (isDecoderHDR isDisplayHDRenabled yuv444 : Bool)
    (s : EnhancementSelection)
    (hs : isUpscaler s.m_EnhancerType = true → s.m_2PassVideoProcessor = false) :
    ((yuv444HDRSelection vendorId yuv444 isDecoderHDR
          (nativeResolutionSelection mode outputHeight decoderHeight isDecoderHDR
            (crossConstraints isDecoderHDR isDisplayHDRenabled s))).m_2PassVideoProcessor = true →
        (yuv444HDRSelection vendorId yuv444 isDecoderHDR
            (nativeResolutionSelection mode outputHeight decoderHeight isDecoderHDR
              (crossConstraints isDecoderHDR isDisplayHDRenabled s))).m_VendorVSRenabled = true
          ∨ (yuv444HDRSelection vendorId yuv444 isDecoderHDR
            (nativeResolutionSelection mode outputHeight decoderHeight isDecoderHDR
              (crossConstraints isDecoderHDR isDisplayHDRenabled s))).m_VendorHDRenabled = true)
      ∧ (isUpscaler (yuv444HDRSelection vendorId yuv444 isDecoderHDR
          (nativeResolutionSelection mode outputHeight decoderHeight isDecoderHDR
            (crossConstraints isDecoderHDR isDisplayHDRenabled s))).m_EnhancerType = true →
        (yuv444HDRSelection vendorId yuv444 isDecoderHDR
            (nativeResolutionSelection mode outputHeight decoderHeight isDecoderHDR
              (crossConstraints isDecoderHDR isDisplayHDRenabled s))).m_VendorVSRenabled = false
          ∧ (yuv444HDRSelection vendorId yuv444 isDecoderHDR
            (nativeResolutionSelection mode outputHeight decoderHeight isDecoderHDR
              (crossConstraints isDecoderHDR isDisplayHDRenabled s))).m_2PassVideoProcessor
            = false) := by
  obtain ⟨vsr, hdr, tone, twoPass, enhancer⟩ := s
  simp only at hs
  have hNone : isUpscaler Enhancer.NONE = false := rfl
  by_cases hNative : mode = SuperResolutionMode.SRM_00 ∧ outputHeight = decoderHeight
  · cases yuv444 <;> cases isDecoderHDR <;> cases isDisplayHDRenabled <;> cases vsr <;>
      cases hdr <;>
      simp [yuv444HDRSelection, nativeResolutionSelection, crossConstraints, hNative, hNone]
  · cases hUp : isUpscaler enhancer
    · cases yuv444 <;> cases isDecoderHDR <;> cases isDisplayHDRenabled <;> cases vsr <;>
        cases hdr <;> cases twoPass <;>
        simp [yuv444HDRSelection, nativeResolutionSelection, crossConstraints, hNative, hUp,
          hNone]
    · have hTwo := hs hUp
      subst hTwo
      cases yuv444 <;> cases isDecoderHDR <;> cases isDisplayHDRenabled <;> cases vsr <;>
        cases hdr <;>
        simp [yuv444HDRSelection, nativeResolutionSelection, crossConstraints, hNative, hUp,
          hNone]

/-- The selection reached when enhancement is enabled: two passes need a vendor
extension, and an upscaling shader excludes vendor super-resolution and two
passes. -/
theorem enabledSelection_two_pass_and_upscaler (adapterDesc : DXGI_ADAPTER_DESC1)
    (r : D3D11VARenderer) (isIntegratedGPU : Bool) :
    ((enabledSelection adapterDesc r isIntegratedGPU).m_2PassVideoProcessor = true →
        (enabledSelection adapterDesc r isIntegratedGPU).m_VendorVSRenabled = true
          ∨ (enabledSelection adapterDesc r isIntegratedGPU).m_VendorHDRenabled = true)
      ∧ (isUpscaler (enabledSelection adapterDesc r isIntegratedGPU).m_EnhancerType = true →
        (enabledSelection adapterDesc r isIntegratedGPU).m_VendorVSRenabled = false
          ∧ (enabledSelection adapterDesc r isIntegratedGPU).m_2PassVideoProcessor = false) :=
  final_rules_two_pass_and_upscaler r.m_Preferences.superResolutionMode adapterDesc.VendorId
    r.m_OutputTexture.height r.m_DecoderParams.height r.m_IsDecoderHDR r.m_IsDisplayHDRenabled
    r.m_yuv444 _
    (forcedModeSelection_upscaler_single_pass r.m_Preferences.superResolutionMode
      adapterDesc.VendorId isIntegratedGPU r.nvidiaRTXorNewer r.m_IsDecoderHDR)

/-- C25: in every configuration produced by enhanceAutoSelection (enhancement
enabled or not, any vendor, mode and stream), m_2PassVideoProcessor = true implies
m_VendorVSRenabled = true or m_VendorHDRenabled = true. -/
theorem c25_two_pass_requires_vendor_extension (r : D3D11VARenderer)
    (adapterDesc : DXGI_ADAPTER_DESC1)
    (hTwoPass : (r.enhanceAutoSelection adapterDesc).m_2PassVideoProcessor = true) :
    (r.enhanceAutoSelection adapterDesc).m_VendorVSRenabled = true
      ∨ (r.enhanceAutoSelection adapterDesc).m_VendorHDRenabled = true := by
  cases hEnabled : r.m_VideoEnhancement.isVideoEnhancementEnabled
  · have h := enhanceAutoSelection_disabled_selection r adapterDesc hEnabled
    rw [h.2.2.2.1] at hTwoPass
    exact absurd hTwoPass (by decide)
  · have h := enhanceAutoSelection_enabled_selection r adapterDesc hEnabled
    rw [h.1, h.2.1]
    rw [h.2.2.2.1] at hTwoPass
    exact (enabledSelection_two_pass_and_upscaler adapterDesc r
      (detectIntegratedGPU adapterDesc)).1 hTwoPass

/-- C25 at a concrete input: NVIDIA RTX, auto mode, SDR 1280x720 stream shown at
1920x1080 on an HDR display: two passes are selected, and both vendor extensions
are on. -/
theorem c25_two_pass_requires_vendor_extension_witness :
    ((rendererWith SRM_00 true 1280 720 output1080 false false true true).enhanceAutoSelection
          (discreteAdapter VENDOR_ID_NVIDIA)).m_2PassVideoProcessor = true
      ∧ (((rendererWith SRM_00 true 1280 720 output1080 false false true
            true).enhanceAutoSelection (discreteAdapter VENDOR_ID_NVIDIA)).m_VendorVSRenabled = true
        ∨ ((rendererWith SRM_00 true 1280 720 output1080 false false true
            true).enhanceAutoSelection (discreteAdapter VENDOR_ID_NVIDIA)).m_VendorHDRenabled
          = true) :=
  ⟨by decide, c25_two_pass_requires_vendor_extension
      (rendererWith SRM_00 true 1280 720 output1080 false false true true)
      (discreteAdapter VENDOR_ID_NVIDIA) (by decide)⟩

/-- C26: in every configuration produced by enhanceAutoSelection, if the enhancer
is an upscaling shader then m_VendorVSRenabled = false and m_2PassVideoProcessor =
false, and both the source rectangle and the destination rectangle of the main
stage are the decoder size at the origin. -/
theorem c26_upscaling_shader_excludes_other_upscalers (r : D3D11VARenderer)
    (adapterDesc : DXGI_ADAPTER_DESC1)
    (hUp : isUpscaler (r.enhanceAutoSelection adapterDesc).m_EnhancerType = true) :
    (r.enhanceAutoSelection adapterDesc).m_VendorVSRenabled = false
      ∧ (r.enhanceAutoSelection adapterDesc).m_2PassVideoProcessor = false
      ∧ (r.enhanceAutoSelection adapterDesc).m_SourceRect
        = { left := 0, top := 0, right := r.m_DecoderParams.width,
            bottom := r.m_DecoderParams.height }
      ∧ (r.enhanceAutoSelection adapterDesc).m_DestRect
        = { left := 0, top := 0, right := r.m_DecoderParams.width,
            bottom := r.m_DecoderParams.height } := by
  cases hEnabled : r.m_VideoEnhancement.isVideoEnhancementEnabled
  · have h := enhanceAutoSelection_disabled_selection r adapterDesc hEnabled
    rw [h.2.2.2.2] at hUp
    exact absurd hUp (by decide)
  · have h := enhanceAutoSelection_enabled_selection r adapterDesc hEnabled
    rw [h.2.2.2.2] at hUp
    have hInv := (enabledSelection_two_pass_and_upscaler adapterDesc r
      (detectIntegratedGPU adapterDesc)).2 hUp
    refine ⟨by rw [h.1]; exact hInv.1, by rw [h.2.2.2.1]; exact hInv.2, ?_, ?_⟩
    · simp [enhanceAutoSelection, hEnabled, defineRectangles, hInv.2]
    · simp [enhanceAutoSelection, hEnabled, defineRectangles, hUp]

/-- C26 at a concrete input: Intel, auto mode, HDR 4:2:0 stream of 1280x720 shown
at 1920x1080: the NIS shader upscales, vendor super-resolution and two passes are
off and the main stage works at 1280x720. -/
theorem c26_upscaling_shader_excludes_other_upscalers_witness :
    isUpscaler ((rendererWith SRM_00 true 1280 720 output1080 true false false
          false).enhanceAutoSelection (discreteAdapter VENDOR_ID_INTEL)).m_EnhancerType = true
      ∧ ((rendererWith SRM_00 true 1280 720 output1080 true false false
          false).enhanceAutoSelection (discreteAdapter VENDOR_ID_INTEL)).m_VendorVSRenabled = false
      ∧ ((rendererWith SRM_00 true 1280 720 output1080 true false false
          false).enhanceAutoSelection (discreteAdapter VENDOR_ID_INTEL)).m_2PassVideoProcessor
        = false
      ∧ ((rendererWith SRM_00 true 1280 720 output1080 true false false
          false).enhanceAutoSelection (discreteAdapter VENDOR_ID_INTEL)).m_SourceRect
        = { left := 0, top := 0,
            right := (rendererWith SRM_00 true 1280 720 output1080 true false false
              false).m_DecoderParams.width,
            bottom := (rendererWith SRM_00 true 1280 720 output1080 true false false
              false).m_DecoderParams.height }
      ∧ ((rendererWith SRM_00 true 1280 720 output1080 true false false
          false).enhanceAutoSelection (discreteAdapter VENDOR_ID_INTEL)).m_DestRect
        = { left := 0, top := 0,
            right := (rendererWith SRM_00 true 1280 720 output1080 true false false
              false).m_DecoderParams.width,
            bottom := (rendererWith SRM_00 true 1280 720 output1080 true false false
              false).m_DecoderParams.height } :=
  ⟨by decide, c26_upscaling_shader_excludes_other_upscalers
      (rendererWith SRM_00 true 1280 720 output1080 true false false false)
      (discreteAdapter VENDOR_ID_INTEL) (by decide)⟩

/-! ## The disabled path and the previous state -/

/-- C27: when video enhancement is disabled, enhanceAutoSelection leaves the nine
stage rectangles, the six color-space tags and the three background-color flags
as they were before the call. So the resulting configuration depends on the
previous state: two renderers with the same inputs, enhancement disabled, that
differ only in the previous value of m_DestRect end in different configurations. -/
theorem c27_disabled_keeps_previous_geometry_and_tags (r : D3D11VARenderer)
    (adapterDesc : DXGI_ADAPTER_DESC1)
    (hDisabled : r.m_VideoEnhancement.isVideoEnhancementEnabled = false) :
    ((r.enhanceAutoSelection adapterDesc).m_SourceRectExt = r.m_SourceRectExt
        ∧ (r.enhanceAutoSelection adapterDesc).m_DestRectExt = r.m_DestRectExt
        ∧ (r.enhanceAutoSelection adapterDesc).m_TargetRectExt = r.m_TargetRectExt
        ∧ (r.enhanceAutoSelection adapterDesc).m_SourceRect = r.m_SourceRect
        ∧ (r.enhanceAutoSelection adapterDesc).m_DestRect = r.m_DestRect
        ∧ (r.enhanceAutoSelection adapterDesc).m_TargetRect = r.m_TargetRect
        ∧ (r.enhanceAutoSelection adapterDesc).m_SourceRectTone = r.m_SourceRectTone
        ∧ (r.enhanceAutoSelection adapterDesc).m_DestRectTone = r.m_DestRectTone
        ∧ (r.enhanceAutoSelection adapterDesc).m_TargetRectTone = r.m_TargetRectTone)
      ∧ ((r.enhanceAutoSelection adapterDesc).m_InputColorSpaceExt = r.m_InputColorSpaceExt
        ∧ (r.enhanceAutoSelection adapterDesc).m_OutputColorSpaceExt = r.m_OutputColorSpaceExt
        ∧ (r.enhanceAutoSelection adapterDesc).m_InputColorSpace = r.m_InputColorSpace
        ∧ (r.enhanceAutoSelection adapterDesc).m_OutputColorSpace = r.m_OutputColorSpace
        ∧ (r.enhanceAutoSelection adapterDesc).m_InputColorSpaceTone = r.m_InputColorSpaceTone
        ∧ (r.enhanceAutoSelection adapterDesc).m_OutputColorSpaceTone
          = r.m_OutputColorSpaceTone)
      ∧ ((r.enhanceAutoSelection adapterDesc).m_IsBgColorYCbCrExt = r.m_IsBgColorYCbCrExt
        ∧ (r.enhanceAutoSelection adapterDesc).m_IsBgColorYCbCr = r.m_IsBgColorYCbCr
        ∧ (r.enhanceAutoSelection adapterDesc).m_IsBgColorYCbCrTone = r.m_IsBgColorYCbCrTone)
      ∧ (({ (rendererWith SRM_00 false 1280 720 output1080 false false false false) with
            m_DestRect := { left := 0, top := 0, right := 1280, bottom := 720 }
          } : D3D11VARenderer).enhanceAutoSelection (discreteAdapter VENDOR_ID_AMD)
        ≠ (rendererWith SRM_00 false 1280 720 output1080 false false false
            false).enhanceAutoSelection (discreteAdapter VENDOR_ID_AMD)) := by
  refine ⟨?_, ?_, ?_, by decide⟩ <;> simp [enhanceAutoSelection, hDisabled]

/-- C27 at a concrete input: enhancement disabled on an AMD adapter, the renderer
holding the initial rectangles and tags of d3d11va.h; after the call the main
stage's destination rectangle and its output tag are the initial ones. -/
theorem c27_disabled_keeps_previous_geometry_and_tags_witness :
    (rendererWith SRM_00 false 1280 720 output1080 false false false
          false).m_VideoEnhancement.isVideoEnhancementEnabled = false
      ∧ ((rendererWith SRM_00 false 1280 720 output1080 false false false
            false).enhanceAutoSelection (discreteAdapter VENDOR_ID_AMD)).m_DestRect
          = (rendererWith SRM_00 false 1280 720 output1080 false false false false).m_DestRect
      ∧ ((rendererWith SRM_00 false 1280 720 output1080 false false false
            false).enhanceAutoSelection (discreteAdapter VENDOR_ID_AMD)).m_OutputColorSpace
          = (rendererWith SRM_00 false 1280 720 output1080 false false false
            false).m_OutputColorSpace :=
  ⟨rfl,
    (c27_disabled_keeps_previous_geometry_and_tags
      (rendererWith SRM_00 false 1280 720 output1080 false false false false)
      (discreteAdapter VENDOR_ID_AMD) rfl).1.2.2.2.2.1,
    (c27_disabled_keeps_previous_geometry_and_tags
      (rendererWith SRM_00 false 1280 720 output1080 false false false false)
      (discreteAdapter VENDOR_ID_AMD) rfl).2.1.2.2.2.1⟩

/-! ## Enhancer kinds -/

/-- C29: for every enhancer kind, an upscaler is a sharpener and a sharpener uses
a shader; a shader is used exactly when the kind is not NONE; COPY, TESTCS and
TESTPS use a shader and are neither upscaler nor sharpener. -/
theorem c29_enhancer_kind_hierarchy (e : Enhancer) :
    (isUpscaler e = true → isSharpener e = true)
      ∧ (isSharpener e = true → isUsingShader e = true)
      ∧ (isUsingShader e = true ↔ e ≠ Enhancer.NONE)
      ∧ (isUsingShader Enhancer.COPY = true ∧ isUpscaler Enhancer.COPY = false
        ∧ isSharpener Enhancer.COPY = false)
      ∧ (isUsingShader Enhancer.TESTCS = true ∧ isUpscaler Enhancer.TESTCS = false
        ∧ isSharpener Enhancer.TESTCS = false)
      ∧ (isUsingShader Enhancer.TESTPS = true ∧ isUpscaler Enhancer.TESTPS = false
        ∧ isSharpener Enhancer.TESTPS = false) := by
  cases e <;> decide

/-! ## Integrated GPU detection -/

/-- C30, the code at a failing input: an adapter with 8 GB of shared system memory
and 2030 MB of dedicated video memory has more than 512 * 1024 * 1024 bytes shared
and less than 2048 * 1024 * 1024 bytes dedicated, yet enhanceAutoSelection does not
classify it as integrated, with enhancement enabled or disabled: the test
compares the dedicated memory with 2024 * 1024 * 1024. For every adapter the
classification is: shared above 512 * 1024 * 1024 and dedicated below
2024 * 1024 * 1024. -/
theorem c30_integrated_gpu_threshold_is_2024_mb :
    (adapter2030MB VENDOR_ID_INTEL).SharedSystemMemory > 512 * 1024 * 1024
      ∧ (adapter2030MB VENDOR_ID_INTEL).DedicatedVideoMemory < 2048 * 1024 * 1024
      ∧ ((rendererWith SRM_00 true 1280 720 output1080 false false false
          false).enhanceAutoSelection (adapter2030MB VENDOR_ID_INTEL)).m_IsIntegratedGPU = false
      ∧ ((rendererWith SRM_00 false 1280 720 output1080 false false false
          false).enhanceAutoSelection (adapter2030MB VENDOR_ID_INTEL)).m_IsIntegratedGPU = false
      ∧ (∀ (r : D3D11VARenderer) (adapterDesc : DXGI_ADAPTER_DESC1),
          (r.enhanceAutoSelection adapterDesc).m_IsIntegratedGPU = true
            ↔ adapterDesc.SharedSystemMemory > 512 * 1024 * 1024
              ∧ adapterDesc.DedicatedVideoMemory < 2024 * 1024 * 1024) := by
  refine ⟨by decide, by decide, by decide, by decide, ?_⟩
  intro r adapterDesc
  cases hEnabled : r.m_VideoEnhancement.isVideoEnhancementEnabled <;>
    simp [enhanceAutoSelection, hEnabled, detectIntegratedGPU]


/-! ## The output rectangle inside the window -/

/-- When tone mapping is off, a copying shader writes into the back buffer: the
copied region lies within the window-sized back buffer whenever the output
rectangle lies inside the window, as it does for all decoder and window sizes
below 2 ^ 22. -/
theorem shader_copy_within_back_buffer (r : D3D11VARenderer)
    (m_DisplayWidth m_DisplayHeight : Int)
    (hTone : r.m_HDRToneMapping = false)
    (hCopy : copiesToTextureOut r.m_EnhancerType = true)
    (hLeft : 0 ≤ r.m_OutputTexture.left) (hTop : 0 ≤ r.m_OutputTexture.top)
    (hW : 0 ≤ r.m_OutputTexture.width) (hH : 0 ≤ r.m_OutputTexture.height)
    (hRight : r.m_OutputTexture.left + r.m_OutputTexture.width ≤ m_DisplayWidth)
    (hBottom : r.m_OutputTexture.top + r.m_OutputTexture.height ≤ m_DisplayHeight) :
    shaderCopyWithinDestination r m_DisplayWidth m_DisplayHeight = some true := by
  have hShader : isUsingShader r.m_EnhancerType = true := by
    revert hCopy
    cases r.m_EnhancerType <;> decide
  simp only [shaderCopyWithinDestination, setupShaders, hShader, hTone, if_true,
    Option.some_bind, D3D11VAShaders.draw, D3D11VAShaders.construct, hCopy, Option.map_some',
    regionWithinTexture, backBufferSize, Bool.false_eq_true, if_false, sub_zero,
    Option.some.injEq, decide_eq_true_eq]
  refine ⟨hLeft, hTop, ?_, ?_, hRight, hBottom⟩ <;> omega

/-- When tone mapping is on, a copying shader writes into the tone texture, which
has the size of the output rectangle, at the offsets of that rectangle: the
copied region lies within the texture only when both offsets are zero. -/
theorem shader_copy_within_tone_texture_iff (r : D3D11VARenderer)
    (m_DisplayWidth m_DisplayHeight : Int)
    (hTone : r.m_HDRToneMapping = true)
    (hCopy : copiesToTextureOut r.m_EnhancerType = true)
    (hLeft : 0 ≤ r.m_OutputTexture.left) (hTop : 0 ≤ r.m_OutputTexture.top)
    (hW : 0 ≤ r.m_OutputTexture.width) (hH : 0 ≤ r.m_OutputTexture.height) :
    shaderCopyWithinDestination r m_DisplayWidth m_DisplayHeight
      = some (decide (r.m_OutputTexture.left = 0 ∧ r.m_OutputTexture.top = 0)) := by
  have hShader : isUsingShader r.m_EnhancerType = true := by
    revert hCopy
    cases r.m_EnhancerType <;> decide
  simp only [shaderCopyWithinDestination, setupShaders, hShader, hTone, if_true,
    Option.some_bind, D3D11VAShaders.draw, D3D11VAShaders.construct, hCopy, Option.map_some',
    regionWithinTexture, toneTextureSize, sub_zero, Option.some.injEq]
  rw [decide_eq_decide]
  constructor
  · rintro ⟨_, _, _, _, h5, h6⟩
    constructor <;> omega
  · rintro ⟨h1, h2⟩
    refine ⟨hLeft, hTop, ?_, ?_, ?_, ?_⟩ <;> omega

/-- C24, the code at a failing input: Intel adapter, enhancement enabled, auto
mode, HDR 4:2:0 stream of 1280x720 in a 1920x1200 window on an SDR display. The
output rectangle is letterboxed (1920x1080 at row 60), the NIS compute shader and
tone mapping are selected, so the shader stage is built with the tone texture
(1920x1080) as destination and offsets (0, 60); its copy covers rows 60 to 1140 of
a texture that is 1080 rows high, so it does not lie within its destination. With
the same rectangle and an SDR stream the destination is the 1920x1200 back buffer
and the copy lies within it. -/
theorem c24_shader_copy_exceeds_tone_texture :
    (computeOutputTexture float32Arithmetic { width := 1280, height := 720 } 1920 1200)
        = { m_DisplayWidth := 1920, m_DisplayHeight := 1200,
            m_OutputTexture := output1080In1200 }
      ∧ ((rendererWith SRM_00 true 1280 720 output1080In1200 true false false
          false).enhanceAutoSelection (discreteAdapter VENDOR_ID_INTEL)).m_EnhancerType
        = Enhancer.NIS
      ∧ ((rendererWith SRM_00 true 1280 720 output1080In1200 true false false
          false).enhanceAutoSelection (discreteAdapter VENDOR_ID_INTEL)).m_HDRToneMapping = true
      ∧ setupShaders ((rendererWith SRM_00 true 1280 720 output1080In1200 true false false
          false).enhanceAutoSelection (discreteAdapter VENDOR_ID_INTEL)) 1920 1200
        = some (D3D11VAShaders.construct { Width := 1920, Height := 1080 } 1920 1080 60 0
            Enhancer.NIS)
      ∧ D3D11VAShaders.draw (D3D11VAShaders.construct { Width := 1920, Height := 1080 } 1920 1080
          60 0 Enhancer.NIS)
        = some { left := 0, top := 60, right := 1920, bottom := 1140 }
      ∧ shaderCopyWithinDestination ((rendererWith SRM_00 true 1280 720 output1080In1200 true
          false false false).enhanceAutoSelection (discreteAdapter VENDOR_ID_INTEL)) 1920 1200
        = some false
      ∧ shaderCopyWithinDestination ((rendererWith SRM_00 true 1280 720 output1080In1200 false
          false false false).enhanceAutoSelection (discreteAdapter VENDOR_ID_NVIDIA)) 1920 1200
        = some true := by
  refine ⟨?_, by decide, by decide, by decide, by decide, by decide, by decide⟩
  rw [eval_1280_720_in_1920_1200]
  rfl


/-! ## bindColorConversion: when the constant buffer is rebuilt -/

/-- C21: for every colorspace numbering, pixel format kind, CreateBuffer outcome,
recorded state and frame: bindColorConversion calls CreateBuffer only when the
frame's colorspace or range differs from the recorded values; a call whose frame
equals the recorded (m_LastColorSpace, m_LastFullRange) creates no buffer and
leaves both recorded values unchanged; and after every call that ends without
error the recorded values are the frame's. Starting from the constructor's values
(-1, false), a limited-range frame of colorspace 1 among (0, 1, 2) creates a buffer
and records (1, false), and the same frame again creates none. -/
theorem c21_constant_buffer_rebuilt_only_on_change (ids : ColorspaceIds) (m_yuv444 : Bool)
    (m_TextureFormat : DXGI_FORMAT) (createBufferSucceeded : Bool) (st : ColorConversionState)
    (fullRange : Bool) (colorspace : Int) :
    ((bindColorConversion ids m_yuv444 m_TextureFormat createBufferSucceeded st fullRange
          colorspace).createBufferCalled = true →
        ¬ (colorspace = st.m_LastColorSpace ∧ fullRange = st.m_LastFullRange))
      ∧ (colorspace = st.m_LastColorSpace ∧ fullRange = st.m_LastFullRange →
        (bindColorConversion ids m_yuv444 m_TextureFormat createBufferSucceeded st fullRange
            colorspace).createBufferCalled = false
          ∧ (bindColorConversion ids m_yuv444 m_TextureFormat createBufferSucceeded st fullRange
            colorspace).constantBufferBound = false
          ∧ (bindColorConversion ids m_yuv444 m_TextureFormat createBufferSucceeded st fullRange
            colorspace).state = st)
      ∧ ((bindColorConversion ids m_yuv444 m_TextureFormat createBufferSucceeded st fullRange
          colorspace).completed = true →
        (bindColorConversion ids m_yuv444 m_TextureFormat createBufferSucceeded st fullRange
            colorspace).state
          = { m_LastColorSpace := colorspace, m_LastFullRange := fullRange })
      ∧ (bindColorConversion
            { COLORSPACE_REC_601 := 0, COLORSPACE_REC_709 := 1, COLORSPACE_REC_2020 := 2 } false
            DXGI_FORMAT.otherFormat true { m_LastColorSpace := -1, m_LastFullRange := false }
            false 1
          = { state := { m_LastColorSpace := 1, m_LastFullRange := false }
              pixelShader := some PixelShaders.GENERIC_YUV_420
              createBufferCalled := true
              constantBufferBound := true
              completed := true })
      ∧ (bindColorConversion
            { COLORSPACE_REC_601 := 0, COLORSPACE_REC_709 := 1, COLORSPACE_REC_2020 := 2 } false
            DXGI_FORMAT.otherFormat true { m_LastColorSpace := 1, m_LastFullRange := false }
            false 1
          = { state := { m_LastColorSpace := 1, m_LastFullRange := false }
              pixelShader := some PixelShaders.GENERIC_YUV_420
              createBufferCalled := false
              constantBufferBound := false
              completed := true }) := by
  obtain ⟨lastColorSpace, lastFullRange⟩ := st
  refine ⟨?_, ?_, ?_, by decide, by decide⟩
  · intro hCalled hSame
    obtain ⟨h1, h2⟩ := hSame
    simp only at h1 h2
    subst h1 h2
    revert hCalled
    simp only [bindColorConversion]
    split_ifs <;> simp_all
  · rintro ⟨h1, h2⟩
    simp only at h1 h2
    subst h1 h2
    simp only [bindColorConversion]
    split_ifs <;> simp_all
  · simp only [bindColorConversion]
    split_ifs <;> simp_all

/-! ## Tearing and the present flags -/

/-- C22: for a renderer as the constructor leaves it (m_AllowTearing = false) on
which initialize has run once, whatever the parameters and the driver's answers:
renderFrame presents with DXGI_PRESENT_ALLOW_TEARING when m_AllowTearing is set
and with flags 0 otherwise; m_AllowTearing is set only if vsync is disabled in the
parameters (and the feature check succeeded and reported support); and the
assertion !m_DecoderParams.enableVsync of the tearing branch holds. -/
theorem c22_present_flags_follow_allow_tearing (DXGI_PRESENT_ALLOW_TEARING : Nat)
    (enableVsync : Bool) (p : TearingSetup) :
    ((initializePresentState (constructedPresentState enableVsync) p).1.m_AllowTearing = true →
        (renderFramePresent DXGI_PRESENT_ALLOW_TEARING
            (initializePresentState (constructedPresentState enableVsync) p).1).flags
          = DXGI_PRESENT_ALLOW_TEARING)
      ∧ ((initializePresentState (constructedPresentState enableVsync) p).1.m_AllowTearing
          = false →
        (renderFramePresent DXGI_PRESENT_ALLOW_TEARING
            (initializePresentState (constructedPresentState enableVsync) p).1).flags = 0)
      ∧ ((initializePresentState (constructedPresentState enableVsync) p).1.m_AllowTearing = true →
        p.enableVsync = false ∧ p.checkFeatureSupportSucceeded = true ∧ p.allowTearing = true)
      ∧ (initializePresentState (constructedPresentState enableVsync) p).1.enableVsync
        = p.enableVsync
      ∧ (renderFramePresent DXGI_PRESENT_ALLOW_TEARING
          (initializePresentState (constructedPresentState enableVsync) p).1).assertionHolds
        = true
      ∧ (initializePresentState (constructedPresentState true)
            { enableVsync := false, reachesSwapChainDesc := true,
              checkFeatureSupportSucceeded := true, allowTearing := true,
              exclusiveFullscreenFirstPass := false })
          = ({ m_AllowTearing := true, enableVsync := false }, true) := by
  obtain ⟨v, reach, ok, allow, fse⟩ := p
  refine ⟨?_, ?_, ?_, ?_, ?_, by decide⟩ <;>
    cases v <;> cases reach <;> cases ok <;> cases allow <;> cases fse <;>
      simp [initializePresentState, constructedPresentState, renderFramePresent]

/-! ## The background HDR probe and its cancel flag -/

/-- C23, as stated, fails: when cancellation was requested before the task reaches
its sleep (the flag is true at both moments) and a swap chain exists, the task
still sleeps for its second; it then returns without querying or posting. -/
theorem c23_cancel_before_sleep_counterexample :
    ProbeStep.sleepOneSecond
        ∈ hdrProbeTask true { beforeSleep := true, afterSleep := true } false
      ∧ updateDisplayHDRStatusAsync false true { beforeSleep := true, afterSleep := true } false
        = some [ProbeStep.sleepOneSecond] := by
  decide

/-- C23, amended: the task reads the cancel flag once, after its sleep. If the flag
is set when the sleep ends (cancellation requested before the task reached the
sleep or during the sleep) and a swap chain exists, the task sleeps and then
returns without querying the display status and without posting any update, and
the value the flag had before the sleep has no influence; without a swap chain the
task returns at once; and with the flag clear after the sleep the task queries
the status and posts it. -/
theorem c23_cancel_flag_read_once_after_sleep (cancel : CancelFlag) (displayHDR : Bool)
    (hCancelled : cancel.afterSleep = true) :
    hdrProbeTask true cancel displayHDR = [ProbeStep.sleepOneSecond]
      ∧ ProbeStep.getDisplayHDRStatus ∉ hdrProbeTask true cancel displayHDR
      ∧ (∀ hdrEnabled : Bool, ProbeStep.postUpdate hdrEnabled ∉ hdrProbeTask true cancel displayHDR)
      ∧ updateDisplayHDRStatusAsync false true cancel displayHDR = some [ProbeStep.sleepOneSecond]
      ∧ hdrProbeTask false cancel displayHDR = []
      ∧ (∀ beforeSleep swapChainPresent : Bool,
          hdrProbeTask swapChainPresent { beforeSleep := beforeSleep, afterSleep := cancel.afterSleep }
              displayHDR
            = hdrProbeTask swapChainPresent cancel displayHDR)
      ∧ (∀ beforeSleep : Bool,
          hdrProbeTask true { beforeSleep := beforeSleep, afterSleep := false } displayHDR
            = [ProbeStep.sleepOneSecond, ProbeStep.getDisplayHDRStatus,
                ProbeStep.postUpdate displayHDR]) := by
  obtain ⟨before, after⟩ := cancel
  simp only at hCancelled
  subst hCancelled
  refine ⟨?_, ?_, ?_, ?_, ?_, ?_, ?_⟩
  · simp [hdrProbeTask]
  · simp [hdrProbeTask]
  · intro hdrEnabled
    simp [hdrProbeTask]
  · simp [updateDisplayHDRStatusAsync, hdrProbeTask]
  · simp [hdrProbeTask]
  · intro beforeSleep swapChainPresent
    simp [hdrProbeTask]
  · intro beforeSleep
    simp [hdrProbeTask]

/-- C23 (amended) at a concrete input: cancellation requested during the sleep
(flag clear before it, set after it), display HDR on: the task only sleeps. -/
theorem c23_cancel_flag_read_once_after_sleep_witness :
    ({ beforeSleep := false, afterSleep := true } : CancelFlag).afterSleep = true
      ∧ hdrProbeTask true { beforeSleep := false, afterSleep := true } true
        = [ProbeStep.sleepOneSecond] :=
  ⟨rfl, (c23_cancel_flag_read_once_after_sleep { beforeSleep := false, afterSleep := true } true
    rfl).1⟩

end MoonlightQt
